import Mathlib

/-!
# Shallow embedding of the VECTRA BTV simulation core

This file embeds the daily-pipeline C sources of the `vectra` repository
(`simulation.c`, `farm_epi.c`, `midge_dynamics.c`, `movement.c`, `control.c`,
`random.c`, `entomology.c` and their headers) into Lean 4, and settles the
frozen claims C1..C10 about that code.

Modelling conventions:
* C `double` arithmetic is modelled over `ℚ` (exact rational arithmetic);
  C `int` is modelled over `ℤ`/`ℕ`, with the C double→int cast modelled as
  truncation toward zero (`c_int`).
* Transcendental library functions (`exp`, `log`, `sin`, `cos`) and the GSL
  Poisson PMF/survival functions are opaque to the C code; they are abstracted
  as a parameter record `MathFns`, so every theorem quantifies over them
  unless the claim pins down their values.
* The GSL random generator is modelled as an adversarial oracle `Rng`:
  two fixed streams (integer draws and real draws) read at an ever-advancing
  position, so every stochastic function threads a position counter.  A
  "for every RNG outcome" claim quantifies over the oracle; an exhibited
  outcome always uses values inside the support of the corresponding
  distribution (for `gsl_rng_uniform` the support is `[0,1)`, including `0`).
* C arrays are modelled as total functions from indices; the static sizes
  (`MAX_GRID_S = 244`, `MAX_GRID_E = 131`, weather time dimension `365`) are
  kept as named constants, and loop bounds follow the source.
* Mutation through the `SimulationState*` pointer is modelled by explicit
  state passing.  A `Farm *farm` argument that aliases `state->farms[k]` is
  modelled as the index `k`, and every field write goes through the state, so
  the C aliasing between the farm pointer and `state->farms[...]` is exact.
-/

/-- Grid row dimension `MAX_GRID_S` from `SimulationState.h`. -/
def MAX_GRID_S : ℕ := 244

/-- Grid column dimension `MAX_GRID_E` from `SimulationState.h`. -/
def MAX_GRID_E : ℕ := 131

/-- The time dimension of `temp_grid`/`rain_grid` in `SimulationState.h`:
both are declared `double [MAX_GRID_S][MAX_GRID_E][365]`. -/
def weatherGridDays : ℕ := 365

/-- The C cast `(int)x` on a `double`: truncation toward zero. -/
def c_int (q : ℚ) : ℤ := if q < 0 then ⌈q⌉ else ⌊q⌋

/-- `int_min` from `random.c`. -/
def int_min (a b : ℤ) : ℤ := if a < b then a else b

/-- Abstraction of the transcendental / distribution functions the C code
takes from `libm` and GSL.  The code calls them; it never inspects them. -/
structure MathFns where
  exp : ℚ → ℚ
  log : ℚ → ℚ
  sin : ℚ → ℚ
  cos : ℚ → ℚ
  pi : ℚ
  poisson_pmf : ℕ → ℚ → ℚ
  poisson_sf : ℕ → ℚ → ℚ

/-- Adversarial oracle for the GSL random generator: a stream of integer
draws and a stream of real draws, read at a shared advancing position. -/
structure Rng where
  ints : ℕ → ℕ
  reals : ℕ → ℚ

/-- `rand_poisson` from `random.c` (`(int)gsl_ran_poisson`): an oracle draw;
the rate argument is kept for faithfulness to call sites. -/
def rand_poisson (g : Rng) (_lambda : ℚ) (t : ℕ) : ℤ × ℕ := ((g.ints t : ℤ), t + 1)

/-- `rand_binomial` from `random.c` (`(int)gsl_ran_binomial`). -/
def rand_binomial (g : Rng) (_n : ℤ) (_p : ℚ) (t : ℕ) : ℤ × ℕ := ((g.ints t : ℤ), t + 1)

/-- `gsl_ran_negative_binomial` as called directly in `movement.c`. -/
def gsl_ran_negative_binomial (g : Rng) (_k _p : ℚ) (t : ℕ) : ℕ × ℕ := (g.ints t, t + 1)

/-- `gsl_rng_uniform`: a real draw in `[0,1)` (the oracle is unconstrained;
exhibited outcomes only use values in `[0,1)`). -/
def gsl_rng_uniform (g : Rng) (t : ℕ) : ℚ × ℕ := (g.reals t, t + 1)

/-- `gsl_ran_gaussian` with standard deviation `sigma`. -/
def gsl_ran_gaussian (g : Rng) (_sigma : ℚ) (t : ℕ) : ℚ × ℕ := (g.reals t, t + 1)

/-- `VectorSpecies` from `entomology.h`: three temperature→rate functions. -/
structure VectorSpecies where
  biting_rate : ℚ → ℚ
  mortality_rate : ℚ → ℚ
  incubation_rate : ℚ → ℚ

/-- `culicoides_biting_rate` from `entomology.c`. -/
def culicoides_biting_rate (M : MathFns) (temperature : ℚ) : ℚ :=
  if temperature > 3.7 ∧ temperature < 41.9 then
    0.0002 * temperature * (temperature - 3.7) * M.exp (0.37 * M.log (41.9 - temperature))
  else 0

/-- `culicoides_mortality_rate` from `entomology.c`. -/
def culicoides_mortality_rate (M : MathFns) (temperature : ℚ) : ℚ :=
  if temperature > -2 then 0.009 * M.exp (0.16 * temperature) else 100

/-- `culicoides_incubation_rate` from `entomology.c`. -/
def culicoides_incubation_rate (temperature : ℚ) : ℚ :=
  let rate := 0.018 * (temperature - 13.4)
  if rate > 0 then rate else 0

/-- `culicoides_species` from `entomology.c`. -/
def culicoides_species (M : MathFns) : VectorSpecies :=
  { biting_rate := culicoides_biting_rate M
    mortality_rate := culicoides_mortality_rate M
    incubation_rate := culicoides_incubation_rate }

/-- `SimulationParams` from `parameters.h` (fields used by the core). -/
structure SimulationParams where
  dt : ℚ
  dt_farm : ℚ
  num_days : ℕ
  num_reps : ℕ
  start_day_of_year : ℕ

/-- `EpiParams` from `parameters.h`, plus `preference_for_sheep`,
`transmission_scalar` which `farm_epi.c` reads from the same struct. -/
structure EpiParams where
  detection_prob_cattle : ℚ
  detection_prob_sheep : ℚ
  diffusion_length_scale : ℚ
  num_inf_stages_sheep : ℕ
  num_inf_stages_cattle : ℕ
  num_eip_stages : ℕ
  p_v : ℚ
  p_h : ℚ
  sheep_mort_rate : ℚ
  rec_rate_sheep : ℚ
  rec_rate_cattle : ℚ
  preference_for_sheep : ℚ
  transmission_scalar : ℚ

/-- `ControlParams` from `parameters.h`. -/
structure ControlParams where
  ban_radius : ℚ
  county_ban : Bool
  no_control : Bool
  no_farm_ban : Bool
  pre_movement_tests : Bool
  pz_radius : ℚ
  restriction_zones : Bool
  sz_radius : ℚ
  total_ban : Bool

/-- `MovementParams`: the shipment-size negative-binomial parameters read by
`movement.c`. -/
structure MovementParams where
  cattle_shipment_size_k : ℚ
  cattle_shipment_size_p : ℚ
  sheep_shipment_size_k : ℚ
  sheep_shipment_size_p : ℚ

/-- `GridParams` from `parameters.h`. -/
structure GridParams where
  autocorr_grid_width : ℚ
  discretisation : ℚ
  midge_grid_width : ℚ
  rain_grid_width : ℚ
  temp_grid_width : ℚ

/-- `Farm` from `SimulationState.h`.  The fixed array `local_farm_ids` plus
its length `num_local_farms` is modelled as a list; `i_sheep`/`i_cattle` are
total functions over the stage index (the C arrays have length
`MAX_INF_STAGES`, loops run to the configured stage counts). -/
@[ext]
structure Farm where
  id : ℕ
  x0 : ℚ
  x1 : ℚ
  county_number : ℚ
  temp_grid_x : ℕ
  temp_grid_y : ℕ
  rain_grid_x : ℕ
  rain_grid_y : ℕ
  midge_grid_x : ℕ
  midge_grid_y : ℕ
  v_intercept : ℚ
  sin_yearly : ℚ
  cos_yearly : ℚ
  sin_6_month : ℚ
  cos_6_month : ℚ
  cos_4_month : ℚ
  temp_eff : ℚ
  temp_eff_sq : ℚ
  rain_eff : ℚ
  wind_eff : ℚ
  autocorr : ℚ
  overdispersion : ℚ
  number_of_sheep : ℚ
  number_of_cattle : ℚ
  s_sheep : ℚ
  i_sheep : ℕ → ℚ
  r_sheep : ℚ
  s_cattle : ℚ
  i_cattle : ℕ → ℚ
  r_cattle : ℚ
  rel_local_weight : ℚ
  force : ℚ
  detected : Bool
  movement_banned : Bool
  protection_zone : Bool
  surveillance_zone : Bool
  free_area : Bool
  ever_been_detected : Bool
  ever_been_infected : Bool
  first_infected_due_to_movement : Bool
  local_farm_ids : List ℕ
  temp_today : ℚ
  mean_rain_last_week : ℚ
  wind_today : ℚ

/-- `SimulationState` from `SimulationState.h` (fields the core touches). -/
@[ext]
structure SimulationState where
  simulation_day : ℕ
  day_of_year : ℕ
  farms : ℕ → Farm
  num_farms : ℕ
  latent_midge_density : ℕ → ℕ → ℕ → ℚ
  inf_midge_density : ℕ → ℕ → ℚ
  farm_biting_pref_grid : ℕ → ℕ → ℚ
  diffusion_soln_grid : ℕ → ℕ → ℚ
  diffusion_grid : ℕ → ℕ → ℚ
  temp_grid : ℕ → ℕ → ℕ → ℚ
  rain_grid : ℕ → ℕ → ℕ → ℚ
  ac_grid : ℕ → ℕ → ℚ
  num_movement_links : ℕ
  movement_from : ℕ → ℕ
  movement_to : ℕ → ℕ
  movement_risk : ℕ → ℚ
  num_farms_detected_today : ℤ
  num_sheep_infected_today : ℤ
  num_cattle_infected_today : ℤ
  num_sheep_deaths : ℤ
  interrupted_movements : ℤ
  num_farms_checked : ℤ
  num_tests : ℤ
  num_pos_tests : ℤ
  num_movement_transmissions : ℤ
  num_risky_moves_blocked : ℤ
  btv_observed : Bool
  first_detected_farm_id : ℕ
  restriction_zones_implemented : Bool
  active_surveillance_performed : Bool

/-- Point update of a two-index grid (`g[a][b] = v`). -/
def upd2 (g : ℕ → ℕ → ℚ) (a b : ℕ) (v : ℚ) : ℕ → ℕ → ℚ :=
  fun p q => if p = a ∧ q = b then v else g p q

/-- Write farm `k` of the state through an update function (the C idiom
`Farm *farm = &state->farms[k]; ...mutate farm...`). -/
def modifyFarm (s : SimulationState) (k : ℕ) (f : Farm → Farm) : SimulationState :=
  { s with farms := fun m => if m = k then f (s.farms m) else s.farms m }

/-- `dist_sq` from `simulation_internal.h`. -/
def dist_sq (a b : Farm) : ℚ :=
  (a.x0 - b.x0) * (a.x0 - b.x0) + (a.x1 - b.x1) * (a.x1 - b.x1)

/-- `num_inf_cattle` from `simulation_internal.h`. -/
def num_inf_cattle (f : Farm) (num_stages : ℕ) : ℚ :=
  ∑ i in Finset.range num_stages, f.i_cattle i

/-- `num_inf_sheep` from `simulation_internal.h`. -/
def num_inf_sheep (f : Farm) (num_stages : ℕ) : ℚ :=
  ∑ i in Finset.range num_stages, f.i_sheep i

/-- `num_cattle` from `simulation_internal.h`. -/
def num_cattle (f : Farm) (num_stages : ℕ) : ℚ :=
  f.s_cattle + num_inf_cattle f num_stages + f.r_cattle

/-- `num_sheep` from `simulation_internal.h`. -/
def num_sheep (f : Farm) (num_stages : ℕ) : ℚ :=
  f.s_sheep + num_inf_sheep f num_stages + f.r_sheep

/-- `eff_num_animals` from `simulation_internal.h`. -/
def eff_num_animals (f : Farm) (pref : ℚ) (inf_stages_cattle inf_stages_sheep : ℕ) : ℚ :=
  num_cattle f inf_stages_cattle + pref * num_sheep f inf_stages_sheep

/-- `eff_num_inf_animals` from `simulation_internal.h`. -/
def eff_num_inf_animals (f : Farm) (pref : ℚ) (inf_stages_cattle inf_stages_sheep : ℕ) : ℚ :=
  (∑ i in Finset.range inf_stages_cattle, f.i_cattle i)
    + ∑ i in Finset.range inf_stages_sheep, pref * f.i_sheep i

/-- `farm_get_weather` from `farm_epi.c`: copies today's weather into farm
`k`'s cache (indexing the grids with the raw `simulation_day`), zeroes
`wind_today` and `autocorr`, and draws the overdispersion noise. -/
def farm_get_weather (k : ℕ) (g : Rng) (s : SimulationState) (t : ℕ) :
    SimulationState × ℕ :=
  let day := s.simulation_day
  let (z, t) := gsl_ran_gaussian g 1 t
  (modifyFarm s k (fun f =>
    { f with
      temp_today := s.temp_grid f.temp_grid_y f.temp_grid_x day
      mean_rain_last_week := s.rain_grid f.rain_grid_y f.rain_grid_x day
      wind_today := 0
      autocorr := 0
      overdispersion := (1.08 + 0.3763) * z }), t)

/-- Spec-side day-of-year (`day_of_year = simulation_day mod 365`, spec §3
and §4.6); used to compare with the index the code actually uses. -/
def day_of_year_spec (simulation_day : ℕ) : ℕ := simulation_day % 365

/-- The time index `farm_get_weather` (and the midge-dynamics temperature
read) actually uses on the 365-entry weather grids: the raw simulation day. -/
def weather_time_index (s : SimulationState) : ℕ := s.simulation_day

/-- The farm write both ban loops perform: `movement_banned = true`,
`free_area = false`. -/
def banFarm (f : Farm) : Farm := { f with movement_banned := true, free_area := false }

/-- First stage of `implement_local_movement_ban`: on the centre's first
detection, build its local-farm list and mark it ever-detected. -/
def local_ban_build_list (centre_id : ℕ) (ctrl : ControlParams)
    (s : SimulationState) : SimulationState :=
  if (s.farms centre_id).ever_been_detected = false then
    let ids := (List.range s.num_farms).filter (fun k =>
      decide (k ≠ centre_id) &&
      decide (dist_sq (s.farms k) (s.farms centre_id) < ctrl.ban_radius * ctrl.ban_radius))
    modifyFarm s centre_id
      (fun c => { c with local_farm_ids := ids, ever_been_detected := true })
  else s

/-- Second stage: unless `no_farm_ban`, ban every farm on the centre's
local list. -/
def local_ban_apply (centre_id : ℕ) (ctrl : ControlParams)
    (s : SimulationState) : SimulationState :=
  if ctrl.no_farm_ban = false then
    ((s.farms centre_id).local_farm_ids).foldl (fun s bid => modifyFarm s bid banFarm) s
  else s

/-- Third stage: if `county_ban`, ban every farm in the centre's county. -/
def county_ban_apply (centre_id : ℕ) (ctrl : ControlParams)
    (s : SimulationState) : SimulationState :=
  if ctrl.county_ban = true then
    let cn := (s.farms centre_id).county_number
    (List.range s.num_farms).foldl
      (fun s k => if (s.farms k).county_number = cn then modifyFarm s k banFarm else s) s
  else s

/-- Fourth stage: if `total_ban`, ban every farm. -/
def total_ban_apply (ctrl : ControlParams) (s : SimulationState) : SimulationState :=
  if ctrl.total_ban = true then
    (List.range s.num_farms).foldl (fun s k => modifyFarm s k banFarm) s
  else s

/-- `implement_local_movement_ban` from `farm_epi.c` / `control.c` (the two
copies are identical): the four stages in source order. -/
def implement_local_movement_ban (centre_id : ℕ) (ctrl : ControlParams)
    (s : SimulationState) : SimulationState :=
  total_ban_apply ctrl
    (county_ban_apply centre_id ctrl
      (local_ban_apply centre_id ctrl
        (local_ban_build_list centre_id ctrl s)))

/-- The detection-trigger block of `farm_deaths_and_recoveries` (it appears
verbatim at the sheep-mortality sites and the passive-detection site):
set `detected`, bump today's counter, and — only when `no_control` is unset —
ban the farm (unless `no_farm_ban`), run the local-ban setup and record the
first detection. -/
def detection_trigger (ctrl : ControlParams) (k : ℕ) (s : SimulationState) :
    SimulationState :=
  let s := modifyFarm s k (fun f => { f with detected := true })
  let s := { s with num_farms_detected_today := s.num_farms_detected_today + 1 }
  if ctrl.no_control = false then
    let s :=
      if ctrl.no_farm_ban = false then
        modifyFarm s k (fun f => { f with movement_banned := true })
      else s
    let s := implement_local_movement_ban (s.farms k).id ctrl s
    if s.btv_observed = false then
      { s with btv_observed := true, first_detected_farm_id := (s.farms k).id }
    else s
  else s

/-- One earlier-stage update of the sheep sub-day loop (progression to the
next stage, then mortality with its detection trigger), for stage `n`. -/
def sheep_stage_step (epi : EpiParams) (ctrl : ControlParams) (g : Rng) (k : ℕ)
    (st : SimulationState × ℕ) (n : ℕ) : SimulationState × ℕ :=
  let dt_farm : ℚ := 0.1
  let sheep_mort_rate : ℚ := 0.0055
  let stages : ℚ := (epi.num_inf_stages_sheep : ℚ)
  let s := st.1
  let t := st.2
  let r3 := rand_poisson g (dt_farm * stages * epi.rec_rate_sheep * (s.farms k).i_sheep n) t
  let t := r3.2
  let X := int_min r3.1 (c_int ((s.farms k).i_sheep n))
  let s := modifyFarm s k (fun f =>
    { f with i_sheep := fun m =>
        if m = n then f.i_sheep m - (X : ℚ)
        else if m = n + 1 then f.i_sheep m + (X : ℚ)
        else f.i_sheep m })
  let r4 := rand_poisson g (dt_farm * sheep_mort_rate * (s.farms k).i_sheep n) t
  let t := r4.2
  let X := int_min r4.1 (c_int ((s.farms k).i_sheep n))
  let s := if 0 < X ∧ (s.farms k).detected = false then detection_trigger ctrl k s else s
  let s := modifyFarm s k (fun f =>
    { f with i_sheep := fun m => if m = n then f.i_sheep m - (X : ℚ) else f.i_sheep m })
  let s := { s with num_sheep_deaths := s.num_sheep_deaths + X }
  (s, t)

/-- One iteration of the sheep sub-day loop: recovery and mortality (with
detection) at the last Erlang stage, then the earlier stages from
`last − 1` down to `0`. -/
def sheep_substep (epi : EpiParams) (ctrl : ControlParams) (g : Rng) (k : ℕ)
    (st : SimulationState × ℕ) : SimulationState × ℕ :=
  let dt_farm : ℚ := 0.1
  let sheep_mort_rate : ℚ := 0.0055
  let stages : ℚ := (epi.num_inf_stages_sheep : ℚ)
  let s := st.1
  let t := st.2
  let last := epi.num_inf_stages_sheep - 1
  let r1 := rand_poisson g (dt_farm * stages * epi.rec_rate_sheep * (s.farms k).i_sheep last) t
  let t := r1.2
  let X := int_min r1.1 (c_int ((s.farms k).i_sheep last))
  let s := modifyFarm s k (fun f =>
    { f with i_sheep := fun m => if m = last then f.i_sheep m - (X : ℚ) else f.i_sheep m
             r_sheep := f.r_sheep + (X : ℚ) })
  let r2 := rand_poisson g (dt_farm * sheep_mort_rate * (s.farms k).i_sheep last) t
  let t := r2.2
  let X := int_min r2.1 (c_int ((s.farms k).i_sheep last))
  let s := if 0 < X ∧ (s.farms k).detected = false then detection_trigger ctrl k s else s
  let s := modifyFarm s k (fun f =>
    { f with i_sheep := fun m => if m = last then f.i_sheep m - (X : ℚ) else f.i_sheep m })
  let s := { s with num_sheep_deaths := s.num_sheep_deaths + X }
  ((List.range last).reverse).foldl (sheep_stage_step epi ctrl g k) (s, t)

/-- One earlier-stage progression of the cattle sub-day loop (no mortality),
for stage `n`. -/
def cattle_stage_step (epi : EpiParams) (g : Rng) (k : ℕ)
    (st : SimulationState × ℕ) (n : ℕ) : SimulationState × ℕ :=
  let dt_farm : ℚ := 0.1
  let stages : ℚ := (epi.num_inf_stages_cattle : ℚ)
  let s := st.1
  let t := st.2
  let r2 := rand_poisson g (dt_farm * stages * epi.rec_rate_cattle * (s.farms k).i_cattle n) t
  let t := r2.2
  let X := int_min r2.1 (c_int ((s.farms k).i_cattle n))
  let s := modifyFarm s k (fun f =>
    { f with i_cattle := fun m =>
        if m = n then f.i_cattle m - (X : ℚ)
        else if m = n + 1 then f.i_cattle m + (X : ℚ)
        else f.i_cattle m })
  (s, t)

/-- One iteration of the cattle sub-day loop: recovery at the last stage,
then the earlier-stage progressions. -/
def cattle_substep (epi : EpiParams) (g : Rng) (k : ℕ)
    (st : SimulationState × ℕ) : SimulationState × ℕ :=
  let dt_farm : ℚ := 0.1
  let stages : ℚ := (epi.num_inf_stages_cattle : ℚ)
  let s := st.1
  let t := st.2
  let last := epi.num_inf_stages_cattle - 1
  let r1 := rand_poisson g (dt_farm * stages * epi.rec_rate_cattle * (s.farms k).i_cattle last) t
  let t := r1.2
  let X := int_min r1.1 (c_int ((s.farms k).i_cattle last))
  let s := modifyFarm s k (fun f =>
    { f with i_cattle := fun m => if m = last then f.i_cattle m - (X : ℚ) else f.i_cattle m
             r_cattle := f.r_cattle + (X : ℚ) })
  ((List.range last).reverse).foldl (cattle_stage_step epi g k) (s, t)

/-- The end-of-day passive-detection block of `farm_deaths_and_recoveries`. -/
def passive_detection (M : MathFns) (epi : EpiParams) (ctrl : ControlParams)
    (g : Rng) (k : ℕ) (st : SimulationState × ℕ) : SimulationState × ℕ :=
  let s := st.1
  let t := st.2
  if (s.farms k).detected = false then
    let inf_c := num_inf_cattle (s.farms k) epi.num_inf_stages_cattle
    let inf_s := num_inf_sheep (s.farms k) epi.num_inf_stages_sheep
    if inf_c + inf_s > 0 then
      let not_detect_c := M.exp (inf_c * M.log (1 - epi.detection_prob_cattle))
      let not_detect_s := M.exp (inf_s * M.log (1 - epi.detection_prob_sheep))
      let u := gsl_rng_uniform g t
      let t := u.2
      if u.1 ≤ 1 - not_detect_c * not_detect_s then (detection_trigger ctrl k s, t)
      else (s, t)
    else (s, t)
  else (s, t)

/-- `farm_deaths_and_recoveries` from `farm_epi.c`.  The C sub-day loop
`for (double t = 0.0; t < 1.0; t += dt_farm)` with the hard-coded
`dt_farm = 0.1` runs 10 iterations in exact arithmetic; it is modelled as a
fold over `List.range 10`. -/
def farm_deaths_and_recoveries (M : MathFns) (k : ℕ) (epi : EpiParams)
    (ctrl : ControlParams) (g : Rng) (s : SimulationState) (t : ℕ) :
    SimulationState × ℕ :=
  let st :=
    if num_inf_sheep (s.farms k) epi.num_inf_stages_sheep > 0 then
      (List.range 10).foldl (fun st _ => sheep_substep epi ctrl g k st) (s, t)
    else (s, t)
  let st :=
    if num_inf_cattle (st.1.farms k) epi.num_inf_stages_cattle > 0 then
      (List.range 10).foldl (fun st _ => cattle_substep epi g k st) st
    else st
  passive_detection M epi ctrl g k st

/-- `farm_transmission_midges_to_hosts` from `farm_epi.c`. -/
def farm_transmission_midges_to_hosts (M : MathFns) (species : VectorSpecies)
    (k : ℕ) (epi : EpiParams) (g : Rng) (s : SimulationState) (t : ℕ) :
    SimulationState × ℕ :=
  let biting_rate := species.biting_rate ((s.farms k).temp_today)
  let biting_prob := 1 - M.exp (-biting_rate)
  let inf_density := s.inf_midge_density (s.farms k).midge_grid_y (s.farms k).midge_grid_x
  let force := (s.farms k).rel_local_weight * inf_density * biting_prob
  let s := modifyFarm s k (fun f => { f with force := force })
  let f := s.farms k
  let eff_animals := eff_num_animals f epi.preference_for_sheep
      epi.num_inf_stages_cattle epi.num_inf_stages_sheep
  if eff_animals < 1 then (s, t) else
  let prob_bite_sheep := epi.preference_for_sheep / eff_animals
  let prob_bite_cattle := 1 / eff_animals
  let prob_inf_sheep := 1 - M.exp (-(force * prob_bite_sheep * epi.p_h))
  let prob_inf_cattle := 1 - M.exp (-(force * prob_bite_cattle * epi.p_h))
  let ra :=
    if f.s_sheep > 100 ∧ prob_inf_sheep < 0.01 ∧ f.s_sheep * prob_inf_sheep < 20 then
      let r := rand_poisson g (f.s_sheep * prob_inf_sheep) t
      (int_min r.1 (c_int f.s_sheep), r.2)
    else
      rand_binomial g (c_int f.s_sheep) prob_inf_sheep t
  let A := ra.1
  let t := ra.2
  let rb :=
    if f.s_cattle > 100 ∧ prob_inf_cattle < 0.01 ∧ f.s_cattle * prob_inf_cattle < 20 then
      let r := rand_poisson g (f.s_cattle * prob_inf_cattle) t
      (int_min r.1 (c_int f.s_cattle), r.2)
    else
      rand_binomial g (c_int f.s_cattle) prob_inf_cattle t
  let B := rb.1
  let t := rb.2
  let s := modifyFarm s k (fun f =>
    { f with s_sheep := f.s_sheep - (A : ℚ)
             i_sheep := fun m => if m = 0 then f.i_sheep m + (A : ℚ) else f.i_sheep m })
  let s := { s with num_sheep_infected_today := s.num_sheep_infected_today + A }
  let s := modifyFarm s k (fun f =>
    { f with s_cattle := f.s_cattle - (B : ℚ)
             i_cattle := fun m => if m = 0 then f.i_cattle m + (B : ℚ) else f.i_cattle m })
  let s := { s with num_cattle_infected_today := s.num_cattle_infected_today + B }
  (s, t)

/-- Point update of the three-index latent grid. -/
def upd3 (g : ℕ → ℕ → ℕ → ℚ) (a b c : ℕ) (v : ℚ) : ℕ → ℕ → ℕ → ℚ :=
  fun p q r => if p = a ∧ q = b ∧ r = c then v else g p q r

/-- `farm_transmission_hosts_to_midges` from `farm_epi.c`. -/
def farm_transmission_hosts_to_midges (M : MathFns) (k : ℕ) (epi : EpiParams)
    (s : SimulationState) : SimulationState :=
  let day := s.simulation_day
  if day % 365 ≤ 60 ∨ day % 365 ≥ 330 then s else
  let f := s.farms k
  let doy : ℚ := (day : ℚ)
  let climate := f.v_intercept
      + f.sin_yearly * M.sin (2 * M.pi * doy / 365.25)
      + f.cos_yearly * M.cos (2 * M.pi * doy / 365.25)
      + f.sin_6_month * M.sin (4 * M.pi * doy / 365.25)
      + f.cos_6_month * M.cos (4 * M.pi * doy / 365.25)
      + f.cos_4_month * M.cos (6 * M.pi * doy / 365.25)
      + f.temp_eff * f.temp_today + f.temp_eff_sq * f.temp_today * f.temp_today
      + f.overdispersion + f.autocorr
  let bites_per_animal := epi.transmission_scalar * M.exp climate
  let bites_per_animal := if bites_per_animal > 5000 then (5000 : ℚ) else bites_per_animal
  let eff_inf := eff_num_inf_animals f epi.preference_for_sheep
      epi.num_inf_stages_cattle epi.num_inf_stages_sheep
  let new_latent := epi.p_v * eff_inf * bites_per_animal
  let lat := upd3 s.latent_midge_density f.midge_grid_y f.midge_grid_x 0
      (s.latent_midge_density f.midge_grid_y f.midge_grid_x 0 + new_latent)
  { s with latent_midge_density := lat }

/-- Running partial sum of the first `n` stage compartments. -/
def sumUpto (f : ℕ → ℚ) (n : ℕ) : ℚ := ∑ m in Finset.range n, f m

/-- The proportional stage scan of `movement.c`: walk the stages in order
accumulating `cum += i[k]` and stop at the first `k` with `cum >= sel`
(`none` when the loop falls through without a break). -/
def pickStage (f : ℕ → ℚ) (nstages : ℕ) (sel : ℚ) : Option ℕ :=
  (List.range nstages).find? (fun k => decide (sel ≤ sumUpto f (k + 1)))

/-- `transmission_via_movement` from `movement.c`: one directed edge. -/
def transmission_via_movement (epi : EpiParams) (mov : MovementParams)
    (_ctrl : ControlParams) (g : Rng) (from_id to_id : ℕ) (risk : ℚ)
    (s : SimulationState) (t : ℕ) : SimulationState × ℕ :=
  let u := gsl_rng_uniform g t
  let t := u.2
  if u.1 > risk then (s, t) else
  let src := s.farms from_id
  let dst := s.farms to_id
  let interrupt : Bool :=
    (src.movement_banned || dst.movement_banned)
    || (src.protection_zone && !dst.protection_zone)
    || (src.surveillance_zone && dst.free_area)
  if interrupt then
    let s := { s with interrupted_movements := s.interrupted_movements + 1 }
    let s :=
      if num_inf_cattle src epi.num_inf_stages_cattle
          + num_inf_sheep src epi.num_inf_stages_sheep > 0 then
        { s with num_risky_moves_blocked := s.num_risky_moves_blocked + 1 }
      else s
    (s, t)
  else
  let total_sheep := num_sheep src epi.num_inf_stages_sheep
  let total_cattle := num_cattle src epi.num_inf_stages_cattle
  if total_sheep + total_cattle < 1 then (s, t) else
  let u2 := gsl_rng_uniform g t
  let t := u2.2
  let cattle_move := u2.1 > total_sheep / (total_sheep + total_cattle)
  if cattle_move then
    let d := gsl_ran_negative_binomial g mov.cattle_shipment_size_k mov.cattle_shipment_size_p t
    let t := d.2
    let size := int_min (1 + (d.1 : ℤ)) (c_int total_cattle)
    let inf_cattle := num_inf_cattle src epi.num_inf_stages_cattle
    let acc := (List.range size.toNat).foldl
      (fun (acc : SimulationState × ℕ × ℚ × ℤ) _ =>
        let s := acc.1
        let t := acc.2.1
        let infc := acc.2.2.1
        let moved := acc.2.2.2
        let density := infc / total_cattle
        let u3 := gsl_rng_uniform g t
        let t := u3.2
        if u3.1 < density then
          let u4 := gsl_rng_uniform g t
          let t := u4.2
          let sel := u4.1 * infc
          match pickStage (fun m => (s.farms from_id).i_cattle m) epi.num_inf_stages_cattle sel with
          | some kk =>
              let s := modifyFarm s from_id (fun f =>
                { f with i_cattle := fun m => if m = kk then f.i_cattle m - 1 else f.i_cattle m })
              let s := modifyFarm s to_id (fun f =>
                { f with i_cattle := fun m => if m = kk then f.i_cattle m + 1 else f.i_cattle m })
              (s, t, infc - 1, moved + 1)
          | none => (s, t, infc, moved)
        else (s, t, infc, moved)) (s, t, inf_cattle, 0)
    let s := acc.1
    let t := acc.2.1
    let moved := acc.2.2.2
    if moved > 0 then
      ({ s with num_movement_transmissions := s.num_movement_transmissions + 1 }, t)
    else (s, t)
  else
    let d := gsl_ran_negative_binomial g mov.sheep_shipment_size_k mov.sheep_shipment_size_p t
    let t := d.2
    let size := int_min (1 + (d.1 : ℤ)) (c_int total_sheep)
    let inf_sheep := num_inf_sheep src epi.num_inf_stages_sheep
    let acc := (List.range size.toNat).foldl
      (fun (acc : SimulationState × ℕ × ℚ × ℤ) _ =>
        let s := acc.1
        let t := acc.2.1
        let infs := acc.2.2.1
        let moved := acc.2.2.2
        let density := infs / total_sheep
        let u3 := gsl_rng_uniform g t
        let t := u3.2
        if u3.1 < density then
          let u4 := gsl_rng_uniform g t
          let t := u4.2
          let sel := u4.1 * infs
          match pickStage (fun m => (s.farms from_id).i_sheep m) epi.num_inf_stages_sheep sel with
          | some kk =>
              let s := modifyFarm s from_id (fun f =>
                { f with i_sheep := fun m => if m = kk then f.i_sheep m - 1 else f.i_sheep m })
              let s := modifyFarm s to_id (fun f =>
                { f with i_sheep := fun m => if m = kk then f.i_sheep m + 1 else f.i_sheep m })
              (s, t, infs - 1, moved + 1)
          | none => (s, t, infs, moved)
        else (s, t, infs, moved)) (s, t, inf_sheep, 0)
    let s := acc.1
    let t := acc.2.1
    let moved := acc.2.2.2
    if moved > 0 then
      ({ s with num_movement_transmissions := s.num_movement_transmissions + 1 }, t)
    else (s, t)

/-- `movement_transmission` from `movement.c`: iterate the edge list. -/
def movement_transmission (epi : EpiParams) (mov : MovementParams)
    (ctrl : ControlParams) (g : Rng) (s : SimulationState) (t : ℕ) :
    SimulationState × ℕ :=
  (List.range s.num_movement_links).foldl
    (fun (st : SimulationState × ℕ) k =>
      transmission_via_movement epi mov ctrl g (st.1.movement_from k) (st.1.movement_to k)
        (st.1.movement_risk k) st.1 st.2) (s, t)

/-- `setup_restriction_zone` from `control.c`. -/
def setup_restriction_zone (centre_id : ℕ) (ctrl : ControlParams)
    (s : SimulationState) : SimulationState :=
  let pz2 := ctrl.pz_radius * ctrl.pz_radius
  let sz2 := ctrl.sz_radius * ctrl.sz_radius
  let s := (List.range s.num_farms).foldl
    (fun s k =>
      let d2 := dist_sq (s.farms k) (s.farms centre_id)
      if d2 ≤ pz2 then
        modifyFarm s k (fun f => { f with protection_zone := true, free_area := false })
      else if d2 ≤ sz2 then
        modifyFarm s k (fun f => { f with surveillance_zone := true, free_area := false })
      else s) s
  { s with restriction_zones_implemented := true }

/-- `perform_active_surveillance` from `control.c`. -/
def perform_active_surveillance (epi : EpiParams) (s : SimulationState) :
    SimulationState :=
  let sr2 : ℚ := 15000 * 15000
  let s := (List.range s.num_farms).foldl
    (fun s k =>
      if dist_sq (s.farms k) (s.farms s.first_detected_farm_id) ≤ sr2 then
        let s := { s with num_farms_checked := s.num_farms_checked + 1 }
        let tst := c_int (num_cattle (s.farms k) epi.num_inf_stages_cattle
            + num_sheep (s.farms k) epi.num_inf_stages_sheep)
        let s := { s with num_tests := s.num_tests + tst }
        let inf := num_inf_cattle (s.farms k) epi.num_inf_stages_cattle
            + num_inf_sheep (s.farms k) epi.num_inf_stages_sheep
        if inf > 0 then
          let s := modifyFarm s k (fun f => { f with detected := true })
          let pos := c_int (inf + (s.farms k).r_sheep + (s.farms k).r_cattle)
          { s with num_pos_tests := s.num_pos_tests + pos }
        else s
      else s) s
  { s with active_surveillance_performed := true }

/-- `apply_control_measures` from `control.c`. -/
def apply_control_measures (epi : EpiParams) (ctrl : ControlParams)
    (s : SimulationState) : SimulationState :=
  if ctrl.no_control = true then s else
  if s.btv_observed = true ∧ s.restriction_zones_implemented = false then
    let s :=
      if ctrl.restriction_zones = true then
        setup_restriction_zone s.first_detected_farm_id ctrl s
      else s
    if s.active_surveillance_performed = false then perform_active_surveillance epi s else s
  else s

/-- The index set of a C loop `for (i = 0; i < bound; i += R)` (for `R ≥ 1`):
the multiples of `R` below `bound`, in increasing order. -/
def strideIdx (R bound : ℕ) : List ℕ :=
  (List.range bound).filter (fun i => i % R = 0)

/-- The staged-Poisson redistribution of `midge_dynamics.c`: mass now in
stage `n` (the `soln[n]` accumulation), from the post-mortality latent
densities `lat`. -/
def eipNewLatent (M : MathFns) (incub : ℚ) (lat : ℕ → ℚ) (n : ℕ) : ℚ :=
  ∑ kk in Finset.range (n + 1), lat kk * M.poisson_pmf (n - kk) incub

/-- The emergence-to-infectious accumulation (`soln[num_eip]`) of
`midge_dynamics.c`. -/
def eipNewInf (M : MathFns) (num_eip : ℕ) (incub : ℚ) (lat : ℕ → ℚ) (inf : ℚ) : ℚ :=
  inf + ∑ kk in Finset.range num_eip, lat kk * M.poisson_sf (num_eip - kk - 1) incub

/-- The per-cell body of `midge_mortality_and_incubation`: apply mortality to
the infectious density and the first `num_eip` latent stages, then — when the
incubation index and the post-mortality latent total are positive — run the
staged-Poisson progression.  Returns the new latent stages and the new
infectious density of the cell. -/
def mortalityIncubationCell (M : MathFns) (species : VectorSpecies) (num_eip : ℕ)
    (temp : ℚ) (lat : ℕ → ℚ) (inf : ℚ) : (ℕ → ℚ) × ℚ :=
  let mort := M.exp (-(species.mortality_rate temp))
  let lat1 : ℕ → ℚ := fun m => if m < num_eip then lat m * mort else lat m
  let inf1 := inf * mort
  let sum := ∑ m in Finset.range num_eip, lat1 m
  let incub := (num_eip : ℚ) * species.incubation_rate temp
  if incub > 0 ∧ sum > 0 then
    (fun m => if m < num_eip then eipNewLatent M incub lat1 m else lat1 m,
     eipNewInf M num_eip incub lat1 inf1)
  else (lat1, inf1)

/-- `midge_mortality_and_incubation` from `midge_dynamics.c`: stride the grid
by `R = (int)(midge_grid_width / temp_grid_width)` and update each visited
cell from today's temperature (read at the raw `simulation_day` index). -/
def midge_mortality_and_incubation (M : MathFns) (species : VectorSpecies)
    (epi : EpiParams) (grids : GridParams) (s : SimulationState) : SimulationState :=
  let R := (c_int (grids.midge_grid_width / grids.temp_grid_width)).toNat
  let num_eip := epi.num_eip_stages
  (strideIdx R MAX_GRID_S).foldl (fun s i =>
    (strideIdx R MAX_GRID_E).foldl (fun s j =>
      let temp := s.temp_grid i j s.simulation_day
      let r := mortalityIncubationCell M species num_eip temp
          (fun m => s.latent_midge_density i j m) (s.inf_midge_density i j)
      let lat := fun p q m => if p = i ∧ q = j then r.1 m else s.latent_midge_density p q m
      { s with latent_midge_density := lat
               inf_midge_density := upd2 s.inf_midge_density i j r.2 }) s) s

/-- The interior cells `1 ≤ i < MAX_GRID_S − 1`, `1 ≤ j < MAX_GRID_E − 1`
visited by the diffusion loops, in C row-major order. -/
def interiorCells : List (ℕ × ℕ) :=
  (List.range' 1 (MAX_GRID_S - 2)).flatMap
    (fun i => (List.range' 1 (MAX_GRID_E - 2)).map (fun j => (i, j)))

/-- The five scratch-grid writes of one active source cell `(i, j)` in
`midge_diffusion_step`. -/
def depositStep (flux : ℚ) (i j : ℕ) (sc : ℕ → ℕ → ℚ) : ℕ → ℕ → ℚ :=
  let sc := upd2 sc i j (sc i j - 2 * flux)
  let sc := upd2 sc (i + 1) j (sc (i + 1) j + 0.5 * flux)
  let sc := upd2 sc (i - 1) j (sc (i - 1) j + 0.5 * flux)
  let sc := upd2 sc i (j + 1) (sc i (j + 1) + 0.5 * flux)
  let sc := upd2 sc i (j - 1) (sc i (j - 1) + 0.5 * flux)
  sc

/-- The deposit pass of one diffusion sub-step for one field: every interior
cell with density above `1e-5` writes its stencil into the scratch grid. -/
def diffusionDeposits (dens Dg : ℕ → ℕ → ℚ) (dt h2 : ℚ) (sc : ℕ → ℕ → ℚ) :
    ℕ → ℕ → ℚ :=
  interiorCells.foldl (fun sc c =>
    if dens c.1 c.2 > 1e-5 then
      depositStep (Dg c.1 c.2 * dt * dens c.1 c.2 / h2) c.1 c.2 sc
    else sc) sc

/-- The fold-in pass of one diffusion sub-step for one field: every interior
cell adds its scratch value to the field and zeroes its scratch value
(boundary scratch cells are not visited). -/
def foldInBody (dsc : (ℕ → ℕ → ℚ) × (ℕ → ℕ → ℚ)) (c : ℕ × ℕ) :
    (ℕ → ℕ → ℚ) × (ℕ → ℕ → ℚ) :=
  (upd2 dsc.1 c.1 c.2 (dsc.1 c.1 c.2 + dsc.2 c.1 c.2), upd2 dsc.2 c.1 c.2 0)

def diffusionFoldIn (dens sc : ℕ → ℕ → ℚ) : (ℕ → ℕ → ℚ) × (ℕ → ℕ → ℚ) :=
  interiorCells.foldl foldInBody (dens, sc)

/-- The latent-stage part of one diffusion sub-step for one EIP stage `k`:
deposit pass then fold-in pass on the stage-`k` plane. -/
def latent_diffusion_stage (sim : SimulationParams) (grids : GridParams)
    (s : SimulationState) (k : ℕ) : SimulationState :=
  let dt := sim.dt
  let h2 := grids.midge_grid_width * grids.midge_grid_width
  let sc := diffusionDeposits (fun i j => s.latent_midge_density i j k)
      s.diffusion_grid dt h2 s.diffusion_soln_grid
  let r := diffusionFoldIn (fun i j => s.latent_midge_density i j k) sc
  let lat := fun p q m => if m = k then r.1 p q else s.latent_midge_density p q m
  { s with latent_midge_density := lat, diffusion_soln_grid := r.2 }

/-- The infectious-field part of one diffusion sub-step. -/
def inf_diffusion_pass (sim : SimulationParams) (grids : GridParams)
    (s : SimulationState) : SimulationState :=
  let dt := sim.dt
  let h2 := grids.midge_grid_width * grids.midge_grid_width
  let sc := diffusionDeposits s.inf_midge_density s.diffusion_grid dt h2 s.diffusion_soln_grid
  let r := diffusionFoldIn s.inf_midge_density sc
  { s with inf_midge_density := r.1, diffusion_soln_grid := r.2 }

/-- `midge_diffusion_step` from `midge_dynamics.c`: one sub-step over every
latent stage and then the infectious field. -/
def midge_diffusion_step (sim : SimulationParams) (epi : EpiParams)
    (grids : GridParams) (s : SimulationState) : SimulationState :=
  inf_diffusion_pass sim grids
    ((List.range epi.num_eip_stages).foldl (latent_diffusion_stage sim grids) s)

/-- Number of iterations of the C loop
`for (elapsed = 0.0; elapsed < 1.0; elapsed += dt)` in exact arithmetic:
`⌈1/dt⌉` for `dt > 0` (the C loop does not terminate for `dt ≤ 0`; that
degenerate configuration is modelled as zero sub-steps). -/
def diffusionSubsteps (dt : ℚ) : ℕ :=
  if 0 < dt then (Int.toNat ⌈(1 : ℚ) / dt⌉) else 0

/-- `midge_diffusion_for_day` from `midge_dynamics.c`. -/
def midge_diffusion_for_day (sim : SimulationParams) (epi : EpiParams)
    (grids : GridParams) (s : SimulationState) : SimulationState :=
  (List.range (diffusionSubsteps sim.dt)).foldl
    (fun s _ => midge_diffusion_step sim epi grids s) s

/-- `simulate_day` from `simulation.c`: the six-phase daily pipeline. -/
def simulate_day (M : MathFns) (species : VectorSpecies) (sim : SimulationParams)
    (epi : EpiParams) (mov : MovementParams) (ctrl : ControlParams)
    (grids : GridParams) (g : Rng) (s : SimulationState) (t : ℕ) :
    SimulationState × ℕ :=
  let s := { s with num_farms_detected_today := 0, num_sheep_infected_today := 0,
                    num_cattle_infected_today := 0, num_sheep_deaths := 0 }
  let s := apply_control_measures epi ctrl s
  let s := midge_mortality_and_incubation M species epi grids s
  let s := midge_diffusion_for_day sim epi grids s
  let st := movement_transmission epi mov ctrl g s t
  let st := (List.range st.1.num_farms).foldl
    (fun (st : SimulationState × ℕ) k =>
      let st := farm_get_weather k g st.1 st.2
      let st := farm_deaths_and_recoveries M k epi ctrl g st.1 st.2
      let st := farm_transmission_midges_to_hosts M species k epi g st.1 st.2
      (farm_transmission_hosts_to_midges M k epi st.1, st.2)) st
  let s := { st.1 with simulation_day := st.1.simulation_day + 1 }
  ({ s with day_of_year := s.simulation_day % 365 }, st.2)

/-- Iterate `simulate_day` for `n` consecutive days. -/
def simulate_days (M : MathFns) (species : VectorSpecies) (sim : SimulationParams)
    (epi : EpiParams) (mov : MovementParams) (ctrl : ControlParams)
    (grids : GridParams) (g : Rng) : ℕ → SimulationState × ℕ → SimulationState × ℕ
  | 0, st => st
  | n + 1, st =>
      simulate_days M species sim epi mov ctrl grids g n
        (simulate_day M species sim epi mov ctrl grids g st.1 st.2)

/-! ## Concrete base objects for counterexamples and witnesses -/

/-- A farm with every numeric field zero and every flag clear. -/
def farm0 : Farm where
  id := 0
  x0 := 0
  x1 := 0
  county_number := 0
  temp_grid_x := 0
  temp_grid_y := 0
  rain_grid_x := 0
  rain_grid_y := 0
  midge_grid_x := 0
  midge_grid_y := 0
  v_intercept := 0
  sin_yearly := 0
  cos_yearly := 0
  sin_6_month := 0
  cos_6_month := 0
  cos_4_month := 0
  temp_eff := 0
  temp_eff_sq := 0
  rain_eff := 0
  wind_eff := 0
  autocorr := 0
  overdispersion := 0
  number_of_sheep := 0
  number_of_cattle := 0
  s_sheep := 0
  i_sheep := fun _ => 0
  r_sheep := 0
  s_cattle := 0
  i_cattle := fun _ => 0
  r_cattle := 0
  rel_local_weight := 0
  force := 0
  detected := false
  movement_banned := false
  protection_zone := false
  surveillance_zone := false
  free_area := false
  ever_been_detected := false
  ever_been_infected := false
  first_infected_due_to_movement := false
  local_farm_ids := []
  temp_today := 0
  mean_rain_last_week := 0
  wind_today := 0

/-- A state with no farms, zero grids, clear counters and flags. -/
def state0 : SimulationState where
  simulation_day := 0
  day_of_year := 0
  farms := fun _ => farm0
  num_farms := 0
  latent_midge_density := fun _ _ _ => 0
  inf_midge_density := fun _ _ => 0
  farm_biting_pref_grid := fun _ _ => 0
  diffusion_soln_grid := fun _ _ => 0
  diffusion_grid := fun _ _ => 0
  temp_grid := fun _ _ _ => 0
  rain_grid := fun _ _ _ => 0
  ac_grid := fun _ _ => 0
  num_movement_links := 0
  movement_from := fun _ => 0
  movement_to := fun _ => 0
  movement_risk := fun _ => 0
  num_farms_detected_today := 0
  num_sheep_infected_today := 0
  num_cattle_infected_today := 0
  num_sheep_deaths := 0
  interrupted_movements := 0
  num_farms_checked := 0
  num_tests := 0
  num_pos_tests := 0
  num_movement_transmissions := 0
  num_risky_moves_blocked := 0
  btv_observed := false
  first_detected_farm_id := 0
  restriction_zones_implemented := false
  active_surveillance_performed := false

/-- Concrete math functions for witnesses (any values are legitimate: the C
code treats them as opaque). -/
def mathFns0 : MathFns where
  exp := fun _ => 1
  log := fun _ => 0
  sin := fun _ => 0
  cos := fun _ => 0
  pi := 0
  poisson_pmf := fun _ _ => 0
  poisson_sf := fun _ _ => 0

/-- An RNG oracle whose draws are all zero. -/
def rng0 : Rng where
  ints := fun _ => 0
  reals := fun _ => 0

/-- A vector species whose three rates are identically zero. -/
def species0 : VectorSpecies where
  biting_rate := fun _ => 0
  mortality_rate := fun _ => 0
  incubation_rate := fun _ => 0

/-- Zero epidemiological parameters (individual claims override fields). -/
def epi0 : EpiParams where
  detection_prob_cattle := 0
  detection_prob_sheep := 0
  diffusion_length_scale := 0
  num_inf_stages_sheep := 0
  num_inf_stages_cattle := 0
  num_eip_stages := 0
  p_v := 0
  p_h := 0
  sheep_mort_rate := 0
  rec_rate_sheep := 0
  rec_rate_cattle := 0
  preference_for_sheep := 0
  transmission_scalar := 0

/-- Control parameters with every switch off (controls enabled). -/
def ctrl0 : ControlParams where
  ban_radius := 0
  county_ban := false
  no_control := false
  no_farm_ban := false
  pre_movement_tests := false
  pz_radius := 0
  restriction_zones := false
  sz_radius := 0
  total_ban := false

/-- Zero movement parameters. -/
def mov0 : MovementParams where
  cattle_shipment_size_k := 0
  cattle_shipment_size_p := 0
  sheep_shipment_size_k := 0
  sheep_shipment_size_p := 0

/-- Zero grid parameters (individual claims override fields). -/
def grids0 : GridParams where
  autocorr_grid_width := 0
  discretisation := 0
  midge_grid_width := 0
  rain_grid_width := 0
  temp_grid_width := 0

/-- Zero simulation parameters (individual claims override fields). -/
def sim0 : SimulationParams where
  dt := 0
  dt_farm := 0
  num_days := 0
  num_reps := 0
  start_day_of_year := 0

/-! ## C1: the weather grids are indexed with the raw simulation day -/

/-- Math functions whose `exp` is the identity, to make the temperature read
of the midge step observable in the output density. -/
def mathFnsId : MathFns := { mathFns0 with exp := fun x => x }

/-- A species whose mortality rate is the identity on temperature. -/
def speciesId : VectorSpecies := { species0 with mortality_rate := fun T => T }

/-- Grid widths whose ratio makes the midge stride `R = 244`, so the stride
loop visits exactly the cell `(0,0)`. -/
def gridsR244 : GridParams := { grids0 with midge_grid_width := 244, temp_grid_width := 1 }

/-- The C1 failing input: `simulation_day = 365`, a weather grid whose entry
at time index `d` is the value `d`, and unit infectious density. -/
def stateC1 : SimulationState :=
  { state0 with simulation_day := 365
                temp_grid := fun _ _ d => (d : ℚ)
                inf_midge_density := fun _ _ => 1 }

/-- C1: `farm_get_weather` and the midge-dynamics temperature read both index
the 365-entry weather grids with the raw `simulation_day`, not with
`simulation_day mod 365`: at `simulation_day = 365` the index used is `365`,
which is not below the grid's 365-entry time dimension (an out-of-bounds read
in the C program), whereas the spec's day-of-year index would be `0`.  The
farm cache receives `temp_grid[...][365]` and the midge step multiplies the
infectious density by `exp(-mortality(temp_grid[...][365]))` (made observable
here by taking `exp` and the mortality rate to be identities). -/
theorem C1_weather_index_not_wrapped :
    weather_time_index stateC1 = 365
    ∧ ¬ (weather_time_index stateC1 < weatherGridDays)
    ∧ day_of_year_spec (weather_time_index stateC1) = 0
    ∧ ((farm_get_weather 0 rng0 stateC1 0).1.farms 0).temp_today = 365
    ∧ (midge_mortality_and_incubation mathFnsId speciesId epi0 gridsR244
        stateC1).inf_midge_density 0 0 = -365 := by
  refine ⟨rfl, by decide, rfl, rfl, ?_⟩
  have hR : (c_int (gridsR244.midge_grid_width / gridsR244.temp_grid_width)).toNat = 244 := by
    norm_num [c_int, gridsR244, grids0]
    decide
  have hS : strideIdx 244 MAX_GRID_S = [0] := by decide
  have hE : strideIdx 244 MAX_GRID_E = [0] := by decide
  rw [midge_mortality_and_incubation, hR, hS, hE]
  simp only [List.foldl_cons, List.foldl_nil]
  rw [mortalityIncubationCell]
  norm_num [stateC1, state0, epi0, mathFnsId, mathFns0, speciesId, species0, upd2]

/-! ## C9: zero movement risk -/

/-- An RNG oracle whose real draws are all `1/2` (a legitimate
`gsl_rng_uniform` outcome) and whose integer draws are all zero. -/
def rngHalf : Rng where
  ints := fun _ => 0
  reals := fun _ => 1 / 2

/-- The C9 counterexample state: one movement link of risk `0` from a
movement-banned farm. -/
def stateC9 : SimulationState :=
  { state0 with
      num_farms := 2
      num_movement_links := 1
      movement_from := fun _ => 0
      movement_to := fun _ => 1
      movement_risk := fun _ => 0
      farms := fun m => if m = 0 then { farm0 with movement_banned := true } else farm0 }

/-- C9 counterexample: with every `movement_risk` equal to `0` there is an
RNG stream — the one whose `gsl_rng_uniform` draw is exactly `0`, a value
inside the generator's `[0,1)` support — for which the gate `uniform() > risk`
fails, the movement proceeds, and `interrupted_movements` ends at `1`, not
`0` as the claim states. -/
theorem C9_counterexample :
    (∀ i, stateC9.movement_risk i = 0)
    ∧ (movement_transmission epi0 mov0 ctrl0 rng0 stateC9 0).1.interrupted_movements = 1 := by
  constructor
  · intro i; rfl
  · have h1 : List.range stateC9.num_movement_links = [0] := by decide
    rw [movement_transmission, h1]
    simp only [List.foldl_cons, List.foldl_nil]
    rw [transmission_via_movement]
    norm_num [stateC9, state0, farm0, gsl_rng_uniform, rng0, num_inf_cattle, num_inf_sheep,
      epi0]

/-- Auxiliary fold characterization for C9: when every edge in the remaining
list has risk `0` and every uniform draw is positive, the edge loop leaves the
state untouched. -/
theorem movement_foldl_skip (epi : EpiParams) (mov : MovementParams)
    (ctrl : ControlParams) (g : Rng) (s : SimulationState)
    (hg : ∀ n, 0 < g.reals n) :
    ∀ (l : List ℕ) (t : ℕ), (∀ k ∈ l, s.movement_risk k = 0) →
      (l.foldl (fun (st : SimulationState × ℕ) k =>
        transmission_via_movement epi mov ctrl g (st.1.movement_from k) (st.1.movement_to k)
          (st.1.movement_risk k) st.1 st.2) (s, t)).1 = s := by
  intro l
  induction l with
  | nil => intro t _; rfl
  | cons c l ih =>
      intro t hl
      have hc : s.movement_risk c = 0 := hl c (List.mem_cons_self c l)
      have hstep : transmission_via_movement epi mov ctrl g (s.movement_from c)
          (s.movement_to c) (s.movement_risk c) s t = (s, t + 1) := by
        rw [transmission_via_movement, hc]
        have : (gsl_rng_uniform g t).1 > 0 := hg t
        simp only [gsl_rng_uniform] at this ⊢
        rw [if_pos this]
      simp only [List.foldl_cons, hstep]
      exact ih (t + 1) (fun k hk => hl k (List.mem_cons_of_mem c hk))

/-- C9 (amended): with every `movement_risk` equal to `0`, every RNG stream
whose uniform draws are all strictly positive (the draw `0` is possible and
is excluded by the amendment) produces no movement events at all: the edge
loop returns the state unchanged, so in particular
`num_movement_transmissions` and `interrupted_movements` keep their values. -/
theorem C9_zero_risk_no_movement (epi : EpiParams) (mov : MovementParams)
    (ctrl : ControlParams) (g : Rng) (s : SimulationState) (t : ℕ)
    (hrisk : ∀ i, i < s.num_movement_links → s.movement_risk i = 0)
    (hg : ∀ n, 0 < g.reals n) :
    (movement_transmission epi mov ctrl g s t).1 = s := by
  rw [movement_transmission]
  exact movement_foldl_skip epi mov ctrl g s hg (List.range s.num_movement_links) t
    (fun k hk => hrisk k (List.mem_range.mp hk))

/-- Witness for C9: a one-link state with risk `0` and the all-`1/2` uniform
stream leaves the state unchanged. -/
theorem C9_zero_risk_no_movement_witness :
    (movement_transmission epi0 mov0 ctrl0 rngHalf
      { state0 with num_movement_links := 1 } 0).1
      = { state0 with num_movement_links := 1 } :=
  C9_zero_risk_no_movement epi0 mov0 ctrl0 rngHalf
    { state0 with num_movement_links := 1 } 0
    (fun _ _ => rfl) (fun _ => by norm_num [rngHalf])

/-! ## C10: wind and autocorr are unconditionally zeroed -/

/-- Refinement comparison definition for C10, written from the spec text of
§4.6 with the `+ autocorr` regressor term removed: identical to
`farm_transmission_hosts_to_midges` except that the climate regressor does
not include `autocorr`. -/
def farm_transmission_hosts_to_midges_no_ac (M : MathFns) (k : ℕ) (epi : EpiParams)
    (s : SimulationState) : SimulationState :=
  let day := s.simulation_day
  if day % 365 ≤ 60 ∨ day % 365 ≥ 330 then s else
  let f := s.farms k
  let doy : ℚ := (day : ℚ)
  let climate := f.v_intercept
      + f.sin_yearly * M.sin (2 * M.pi * doy / 365.25)
      + f.cos_yearly * M.cos (2 * M.pi * doy / 365.25)
      + f.sin_6_month * M.sin (4 * M.pi * doy / 365.25)
      + f.cos_6_month * M.cos (4 * M.pi * doy / 365.25)
      + f.cos_4_month * M.cos (6 * M.pi * doy / 365.25)
      + f.temp_eff * f.temp_today + f.temp_eff_sq * f.temp_today * f.temp_today
      + f.overdispersion
  let bites_per_animal := epi.transmission_scalar * M.exp climate
  let bites_per_animal := if bites_per_animal > 5000 then (5000 : ℚ) else bites_per_animal
  let eff_inf := eff_num_inf_animals f epi.preference_for_sheep
      epi.num_inf_stages_cattle epi.num_inf_stages_sheep
  let new_latent := epi.p_v * eff_inf * bites_per_animal
  let lat := upd3 s.latent_midge_density f.midge_grid_y f.midge_grid_x 0
      (s.latent_midge_density f.midge_grid_y f.midge_grid_x 0 + new_latent)
  { s with latent_midge_density := lat }

/-- C10: `farm_get_weather` unconditionally writes `wind_today = 0` and
`autocorr = 0` into the farm; its result does not depend on the farm's
previous `autocorr` value at all; and a farm whose `autocorr` is `0` (as it
always is when `farm_transmission_hosts_to_midges` runs, since
`farm_get_weather` precedes it in the per-farm pipeline) produces exactly the
climate regressor, bites-per-animal and latent-midge deposit of the variant
with the `+ autocorr` term dropped. -/
theorem C10_autocorr_never_used :
    (∀ (k : ℕ) (g : Rng) (s : SimulationState) (t : ℕ),
        ((farm_get_weather k g s t).1.farms k).wind_today = 0
        ∧ ((farm_get_weather k g s t).1.farms k).autocorr = 0)
    ∧ (∀ (k : ℕ) (g : Rng) (s : SimulationState) (t : ℕ) (a : ℚ),
        farm_get_weather k g (modifyFarm s k (fun f => { f with autocorr := a })) t
          = farm_get_weather k g s t)
    ∧ (∀ (M : MathFns) (k : ℕ) (epi : EpiParams) (s : SimulationState),
        (s.farms k).autocorr = 0 →
        farm_transmission_hosts_to_midges M k epi s
          = farm_transmission_hosts_to_midges_no_ac M k epi s) := by
  refine ⟨?_, ?_, ?_⟩
  · intro k g s t
    constructor <;> simp [farm_get_weather, modifyFarm]
  · intro k g s t a
    refine Prod.ext ?_ rfl
    unfold farm_get_weather modifyFarm
    ext m
    all_goals first
    | rfl
    | (by_cases hm : m = k <;> simp [hm])
  · intro M k epi s h
    rw [farm_transmission_hosts_to_midges, farm_transmission_hosts_to_midges_no_ac]
    simp only [h, add_zero]

/-- Witness for C10: concrete instantiations of the quantified statements,
with the `autocorr = 0` hypothesis discharged on a concrete farm. -/
theorem C10_autocorr_never_used_witness :
    ((farm_get_weather 0 rng0 state0 0).1.farms 0).wind_today = 0
    ∧ farm_transmission_hosts_to_midges mathFns0 0 epi0 state0
        = farm_transmission_hosts_to_midges_no_ac mathFns0 0 epi0 state0 :=
  ⟨(C10_autocorr_never_used.1 0 rng0 state0 0).1,
   C10_autocorr_never_used.2.2 mathFns0 0 epi0 state0 rfl⟩

/-! ## C8: the staged-Poisson EIP redistribution formulas -/

/-- C8: for every cell processed by `midge_mortality_and_incubation` with
incubation index `ι > 0` and positive post-mortality latent total, writing
`lat1` for the σ-scaled (post-mortality) latent densities, the new stage-`n`
latent density is `Σ_{k=0..n} lat1[k]·PoissonPMF(n−k, ι)` for each
`n < num_eip`, and the new infectious density is the σ-scaled previous
infectious density plus `Σ_{k=0..num_eip−1} lat1[k]·PoissonSurvival(num_eip−k−1, ι)`. -/
theorem C8_eip_progression (M : MathFns) (species : VectorSpecies) (num_eip : ℕ)
    (temp : ℚ) (lat : ℕ → ℚ) (inf : ℚ) (lat1 : ℕ → ℚ) (incub : ℚ)
    (hlat1 : lat1 = fun m =>
      if m < num_eip then lat m * M.exp (-(species.mortality_rate temp)) else lat m)
    (hincub : incub = (num_eip : ℚ) * species.incubation_rate temp)
    (hι : 0 < incub)
    (hsum : 0 < ∑ m in Finset.range num_eip, lat1 m) :
    (∀ n, n < num_eip → (mortalityIncubationCell M species num_eip temp lat inf).1 n
        = ∑ kk in Finset.range (n + 1), lat1 kk * M.poisson_pmf (n - kk) incub)
    ∧ (mortalityIncubationCell M species num_eip temp lat inf).2
        = inf * M.exp (-(species.mortality_rate temp))
          + ∑ kk in Finset.range num_eip, lat1 kk * M.poisson_sf (num_eip - kk - 1) incub := by
  subst hlat1 hincub
  rw [mortalityIncubationCell]
  simp only
  rw [if_pos ⟨hι, hsum⟩]
  constructor
  · intro n hn
    simp only [eipNewLatent, if_pos hn]
  · simp only [eipNewInf]

/-- A species with unit incubation rate (used by the C8 witness). -/
def speciesIncub1 : VectorSpecies := { species0 with incubation_rate := fun _ => 1 }

/-- Witness for C8 at a concrete cell: one EIP stage, unit latent density. -/
theorem C8_eip_progression_witness :
    (mortalityIncubationCell mathFns0 speciesIncub1 1 0 (fun _ => 1) 5).2
      = 5 * mathFns0.exp (-(speciesIncub1.mortality_rate 0))
        + ∑ kk in Finset.range 1,
            (if kk < 1 then (1 : ℚ) * mathFns0.exp (-(speciesIncub1.mortality_rate 0)) else 1)
              * mathFns0.poisson_sf (1 - kk - 1) (((1 : ℕ) : ℚ) * speciesIncub1.incubation_rate 0) :=
  (C8_eip_progression mathFns0 speciesIncub1 1 0 (fun _ => 1) 5 _ _ rfl rfl
    (by norm_num [speciesIncub1, species0])
    (by norm_num [mathFns0, speciesIncub1, species0])).2

/-! ## Fold invariants and frame lemmas for the control helpers -/

/-- Invariant preservation along a `List.foldl`. -/
theorem foldl_induction {α β : Type _} (f : β → α → β) (P : β → Prop) :
    ∀ (l : List α) (b : β), P b → (∀ x a, a ∈ l → P x → P (f x a)) → P (l.foldl f b)
  | [], _, hb, _ => hb
  | a :: l, b, hb, hf =>
      foldl_induction f P l (f b a) (hf b a (List.mem_cons_self a l) hb)
        (fun x a' ha' hx => hf x a' (List.mem_cons_of_mem a ha') hx)

/-- `modifyFarm` changes no state field other than `farms`, and no farm other
than its target. -/
theorem modifyFarm_farms_ne (s : SimulationState) (k : ℕ) (u : Farm → Farm)
    (j : ℕ) (hj : j ≠ k) : (modifyFarm s k u).farms j = s.farms j := by
  simp [modifyFarm, hj]

/-- `modifyFarm` at its target applies the update. -/
theorem modifyFarm_farms_eq (s : SimulationState) (k : ℕ) (u : Farm → Farm) :
    (modifyFarm s k u).farms k = u (s.farms k) := by
  simp [modifyFarm]

/-- Farm-projection frame for `local_ban_build_list`. -/
theorem local_ban_build_list_farm_proj {α : Type _} (cid : ℕ) (ctrl : ControlParams)
    (s : SimulationState) (proj : Farm → α)
    (h2 : ∀ f ids, proj { f with local_farm_ids := ids, ever_been_detected := true } = proj f) :
    ∀ j, proj ((local_ban_build_list cid ctrl s).farms j) = proj (s.farms j) := by
  intro j
  rw [local_ban_build_list]
  split
  · by_cases hj : j = cid
    · subst hj; rw [modifyFarm_farms_eq, h2]
    · rw [modifyFarm_farms_ne _ _ _ _ hj]
  · rfl

/-- Farm-projection frame for `local_ban_apply`. -/
theorem local_ban_apply_farm_proj {α : Type _} (cid : ℕ) (ctrl : ControlParams)
    (s : SimulationState) (proj : Farm → α)
    (h1 : ∀ f, proj (banFarm f) = proj f) :
    ∀ j, proj ((local_ban_apply cid ctrl s).farms j) = proj (s.farms j) := by
  intro j
  rw [local_ban_apply]
  split
  · refine foldl_induction _ (fun x => proj (x.farms j) = proj (s.farms j)) _ s rfl ?_
    intro x b _ hx
    by_cases hb : j = b
    · subst hb; rw [modifyFarm_farms_eq, h1]; exact hx
    · rw [modifyFarm_farms_ne _ _ _ _ (by exact hb)]; exact hx
  · rfl

/-- Farm-projection frame for `county_ban_apply`. -/
theorem county_ban_apply_farm_proj {α : Type _} (cid : ℕ) (ctrl : ControlParams)
    (s : SimulationState) (proj : Farm → α)
    (h1 : ∀ f, proj (banFarm f) = proj f) :
    ∀ j, proj ((county_ban_apply cid ctrl s).farms j) = proj (s.farms j) := by
  intro j
  rw [county_ban_apply]
  split
  · refine foldl_induction _ (fun x => proj (x.farms j) = proj (s.farms j)) _ s rfl ?_
    intro x b _ hx
    split
    · by_cases hb : j = b
      · subst hb; rw [modifyFarm_farms_eq, h1]; exact hx
      · rw [modifyFarm_farms_ne _ _ _ _ (by exact hb)]; exact hx
    · exact hx
  · rfl

/-- Farm-projection frame for `total_ban_apply`. -/
theorem total_ban_apply_farm_proj {α : Type _} (ctrl : ControlParams)
    (s : SimulationState) (proj : Farm → α)
    (h1 : ∀ f, proj (banFarm f) = proj f) :
    ∀ j, proj ((total_ban_apply ctrl s).farms j) = proj (s.farms j) := by
  intro j
  rw [total_ban_apply]
  split
  · refine foldl_induction _ (fun x => proj (x.farms j) = proj (s.farms j)) _ s rfl ?_
    intro x b _ hx
    by_cases hb : j = b
    · subst hb; rw [modifyFarm_farms_eq, h1]; exact hx
    · rw [modifyFarm_farms_ne _ _ _ _ (by exact hb)]; exact hx
  · rfl

/-- Farm-projection frame for `implement_local_movement_ban`: any farm
projection untouched by its two kinds of farm writes is preserved. -/
theorem implement_local_farm_proj {α : Type _} (cid : ℕ) (ctrl : ControlParams)
    (s : SimulationState) (proj : Farm → α)
    (h1 : ∀ f, proj (banFarm f) = proj f)
    (h2 : ∀ f ids, proj { f with local_farm_ids := ids, ever_been_detected := true } = proj f) :
    ∀ j, proj ((implement_local_movement_ban cid ctrl s).farms j) = proj (s.farms j) := by
  intro j
  rw [implement_local_movement_ban]
  rw [total_ban_apply_farm_proj _ _ proj h1, county_ban_apply_farm_proj _ _ _ proj h1,
    local_ban_apply_farm_proj _ _ _ proj h1, local_ban_build_list_farm_proj _ _ _ proj h2]

/-- Non-farm-state projection frame: any state projection unaffected by
`modifyFarm` survives `implement_local_movement_ban`. -/
theorem implement_local_state_proj {α : Type _} (cid : ℕ) (ctrl : ControlParams)
    (s : SimulationState) (proj : SimulationState → α)
    (hm : ∀ s k u, proj (modifyFarm s k u) = proj s) :
    proj (implement_local_movement_ban cid ctrl s) = proj s := by
  rw [implement_local_movement_ban]
  have h4 : ∀ x, proj (total_ban_apply ctrl x) = proj x := by
    intro x
    rw [total_ban_apply]
    split
    · refine foldl_induction _ (fun y => proj y = proj x) _ x rfl ?_
      intro y b _ hy
      show proj (modifyFarm y b banFarm) = proj x
      rw [hm]; exact hy
    · rfl
  have h3 : ∀ x, proj (county_ban_apply cid ctrl x) = proj x := by
    intro x
    rw [county_ban_apply]
    split
    · refine foldl_induction _ (fun y => proj y = proj x) _ x rfl ?_
      intro y b _ hy
      show proj (if (y.farms b).county_number = (x.farms cid).county_number then modifyFarm y b banFarm else y) = proj x
      split
      · rw [hm]; exact hy
      · exact hy
    · rfl
  have h2 : ∀ x, proj (local_ban_apply cid ctrl x) = proj x := by
    intro x
    rw [local_ban_apply]
    split
    · refine foldl_induction _ (fun y => proj y = proj x) _ x rfl ?_
      intro y b _ hy
      show proj (modifyFarm y b banFarm) = proj x
      rw [hm]; exact hy
    · rfl
  have h1 : ∀ x, proj (local_ban_build_list cid ctrl x) = proj x := by
    intro x
    rw [local_ban_build_list]
    split
    · rw [hm]
    · rfl
  rw [h4, h3, h2, h1]

/-- A farm whose `movement_banned` flag is already set keeps it through
`implement_local_movement_ban` (the ban writes only ever set it). -/
theorem implement_local_banned_mono (cid : ℕ) (ctrl : ControlParams)
    (s : SimulationState) (j : ℕ) (hj : (s.farms j).movement_banned = true) :
    ((implement_local_movement_ban cid ctrl s).farms j).movement_banned = true := by
  rw [implement_local_movement_ban]
  have keep : ∀ (x : SimulationState), ((local_ban_build_list cid ctrl x).farms j).movement_banned
      = (x.farms j).movement_banned :=
    fun x => local_ban_build_list_farm_proj cid ctrl x (fun f => f.movement_banned)
      (fun _ _ => rfl) j
  have step : ∀ (x : SimulationState) (b : ℕ),
      (x.farms j).movement_banned = true →
      ((modifyFarm x b banFarm).farms j).movement_banned = true := by
    intro x b hx
    by_cases hb : j = b
    · subst hb; rw [modifyFarm_farms_eq]; rfl
    · rw [modifyFarm_farms_ne _ _ _ _ hb]; exact hx
  have h1 : ((local_ban_build_list cid ctrl s).farms j).movement_banned = true := by
    rw [keep]; exact hj
  have h2 : ∀ (x : SimulationState), (x.farms j).movement_banned = true →
      ((local_ban_apply cid ctrl x).farms j).movement_banned = true := by
    intro x hx
    rw [local_ban_apply]
    split
    · exact foldl_induction _ (fun y => (y.farms j).movement_banned = true) _ x hx
        (fun y b _ hy => step y b hy)
    · exact hx
  have h3 : ∀ (x : SimulationState), (x.farms j).movement_banned = true →
      ((county_ban_apply cid ctrl x).farms j).movement_banned = true := by
    intro x hx
    rw [county_ban_apply]
    split
    · refine foldl_induction _ (fun y => (y.farms j).movement_banned = true) _ x hx ?_
      intro y b _ hy
      split
      · exact step y b hy
      · exact hy
    · exact hx
  have h4 : ∀ (x : SimulationState), (x.farms j).movement_banned = true →
      ((total_ban_apply ctrl x).farms j).movement_banned = true := by
    intro x hx
    rw [total_ban_apply]
    split
    · exact foldl_induction _ (fun y => (y.farms j).movement_banned = true) _ x hx
        (fun y b _ hy => step y b hy)
    · exact hx
  exact h4 _ (h3 _ (h2 _ h1))

/-- After `implement_local_movement_ban`, the centre's `ever_been_detected`
flag is set. -/
theorem implement_local_ever_detected (cid : ℕ) (ctrl : ControlParams)
    (s : SimulationState) :
    ((implement_local_movement_ban cid ctrl s).farms cid).ever_been_detected = true := by
  rw [implement_local_movement_ban]
  have h1 : ((local_ban_build_list cid ctrl s).farms cid).ever_been_detected = true := by
    rw [local_ban_build_list]
    split
    · rw [modifyFarm_farms_eq]
    · rename_i h
      simp only [Bool.not_eq_false] at h
      exact h
  rw [total_ban_apply_farm_proj _ _ (fun f => f.ever_been_detected) (fun _ => rfl),
    county_ban_apply_farm_proj _ _ _ (fun f => f.ever_been_detected) (fun _ => rfl),
    local_ban_apply_farm_proj _ _ _ (fun f => f.ever_been_detected) (fun _ => rfl)]
  exact h1

/-! ## C4: the effects of a detection trigger -/

/-- C4 (amended): whenever a detection trigger fires — any of the three
sites in `farm_deaths_and_recoveries` runs `detection_trigger` — and
`no_control` is NOT set, then regardless of the remaining control switches:
the farm's `detected` flag is set, today's detection counter is incremented,
the farm is movement-banned unless `no_farm_ban`, the local-ban setup runs
(observable: the centre farm's `ever_been_detected` is set), and if no farm
was ever detected before, `btv_observed` is set and `first_detected_farm_id`
records this farm's id.  (When `no_control` is set, the code still sets
`detected` and the counter but skips every other action.) -/
theorem C4_detection_effects (ctrl : ControlParams) (k : ℕ) (s : SimulationState)
    (hnc : ctrl.no_control = false) :
    ((detection_trigger ctrl k s).farms k).detected = true
    ∧ (detection_trigger ctrl k s).num_farms_detected_today = s.num_farms_detected_today + 1
    ∧ (ctrl.no_farm_ban = false →
        ((detection_trigger ctrl k s).farms k).movement_banned = true)
    ∧ ((detection_trigger ctrl k s).farms ((s.farms k).id)).ever_been_detected = true
    ∧ (s.btv_observed = false → (detection_trigger ctrl k s).btv_observed = true
        ∧ (detection_trigger ctrl k s).first_detected_farm_id = (s.farms k).id) := by
  rw [detection_trigger]
  simp only [hnc, eq_self_iff_true, if_true]
  set s1 := modifyFarm s k (fun f => { f with detected := true }) with hs1
  set s2 : SimulationState :=
    { s1 with num_farms_detected_today := s1.num_farms_detected_today + 1 } with hs2
  set s3 := if ctrl.no_farm_ban = false then
      modifyFarm s2 k (fun f => { f with movement_banned := true }) else s2 with hs3
  set s4 := implement_local_movement_ban (s3.farms k).id ctrl s3 with hs4
  have h2farms : s2.farms = s1.farms := rfl
  have h2counter : s2.num_farms_detected_today = s.num_farms_detected_today + 1 := rfl
  have h2btv : s2.btv_observed = s.btv_observed := rfl
  have hdet1 : (s1.farms k).detected = true := by rw [hs1, modifyFarm_farms_eq]
  have hdet3 : (s3.farms k).detected = true := by
    rw [hs3]; split
    · by_cases hk : k = k
      · rw [modifyFarm_farms_eq, h2farms]; exact hdet1
      · exact absurd rfl hk
    · rw [h2farms]; exact hdet1
  have hid3 : (s3.farms k).id = (s.farms k).id := by
    rw [hs3]; split
    · rw [modifyFarm_farms_eq, h2farms, hs1, modifyFarm_farms_eq]
    · rw [h2farms, hs1, modifyFarm_farms_eq]
  have hcounter3 : s3.num_farms_detected_today = s.num_farms_detected_today + 1 := by
    rw [hs3]; split <;> exact h2counter
  have hbtv3 : s3.btv_observed = s.btv_observed := by
    rw [hs3]; split <;> exact h2btv
  have hdet4 : (s4.farms k).detected = true := by
    rw [hs4,
      implement_local_farm_proj _ _ _ (fun f => f.detected) (fun _ => rfl) (fun _ _ => rfl)]
    exact hdet3
  have hid4 : (s4.farms k).id = (s.farms k).id := by
    rw [hs4, implement_local_farm_proj _ _ _ (fun f => f.id) (fun _ => rfl) (fun _ _ => rfl)]
    exact hid3
  have hcounter4 : s4.num_farms_detected_today = s.num_farms_detected_today + 1 := by
    rw [hs4, implement_local_state_proj _ _ _ (fun x => x.num_farms_detected_today)
      (fun _ _ _ => rfl)]
    exact hcounter3
  have hbtv4 : s4.btv_observed = s.btv_observed := by
    rw [hs4, implement_local_state_proj _ _ _ (fun x => x.btv_observed) (fun _ _ _ => rfl)]
    exact hbtv3
  have hever4 : (s4.farms ((s.farms k).id)).ever_been_detected = true := by
    rw [hs4, ← hid3]
    exact implement_local_ever_detected _ ctrl s3
  refine ⟨?_, ?_, ?_, ?_, ?_⟩
  · split
    · exact hdet4
    · exact hdet4
  · split
    · exact hcounter4
    · exact hcounter4
  · intro hnb
    have hban3 : (s3.farms k).movement_banned = true := by
      rw [hs3, if_pos hnb, modifyFarm_farms_eq]
    have hban4 : (s4.farms k).movement_banned = true := by
      rw [hs4]
      exact implement_local_banned_mono _ ctrl s3 k hban3
    split
    · exact hban4
    · exact hban4
  · split
    · exact hever4
    · exact hever4
  · intro hbtv
    have : s4.btv_observed = false := by rw [hbtv4]; exact hbtv
    rw [if_pos this]
    exact ⟨rfl, hid4⟩

/-- Witness for C4: with controls enabled (`no_control = false`,
`no_farm_ban = false`) a trigger on a concrete farm sets the detected flag,
bans the farm and records the first detection. -/
theorem C4_detection_effects_witness :
    ((detection_trigger ctrl0 0 state0).farms 0).detected = true
    ∧ ((detection_trigger ctrl0 0 state0).farms 0).movement_banned = true
    ∧ (detection_trigger ctrl0 0 state0).btv_observed = true :=
  ⟨(C4_detection_effects ctrl0 0 state0 rfl).1,
   (C4_detection_effects ctrl0 0 state0 rfl).2.2.1 rfl,
   ((C4_detection_effects ctrl0 0 state0 rfl).2.2.2.2 rfl).1⟩

/-- Control parameters with `no_control` set and `no_farm_ban` clear. -/
def ctrlNC : ControlParams := { ctrl0 with no_control := true }

/-- One cattle Erlang stage. -/
def epiC4 : EpiParams := { epi0 with num_inf_stages_cattle := 1 }

/-- One farm with a single infected cow. -/
def stateC4 : SimulationState :=
  { state0 with num_farms := 1, farms := fun _ => { farm0 with i_cattle := fun _ => 1 } }

/-- C4 counterexample: with `no_control = true` (and `no_farm_ban = false`),
a passive-detection trigger in `farm_deaths_and_recoveries` sets the farm's
`detected` flag and today's counter, but the farm is NOT movement-banned and
`btv_observed` is NOT set — the claim's "regardless of other control
switches" fails for the `no_control` switch, which gates the ban, the
local-ban setup and the first-detection recording. -/
theorem C4_counterexample :
    ctrlNC.no_control = true ∧ ctrlNC.no_farm_ban = false
    ∧ ((farm_deaths_and_recoveries mathFns0 0 epiC4 ctrlNC rng0 stateC4 0).1.farms 0).detected
        = true
    ∧ (farm_deaths_and_recoveries mathFns0 0 epiC4 ctrlNC rng0
        stateC4 0).1.num_farms_detected_today = 1
    ∧ ((farm_deaths_and_recoveries mathFns0 0 epiC4 ctrlNC rng0
        stateC4 0).1.farms 0).movement_banned = false
    ∧ (farm_deaths_and_recoveries mathFns0 0 epiC4 ctrlNC rng0 stateC4 0).1.btv_observed
        = false := by
  have hP : ∀ (st : SimulationState × ℕ),
      (st.1.farms 0).i_cattle 0 = 1 ∧ (st.1.farms 0).detected = false
        ∧ (st.1.farms 0).movement_banned = false ∧ st.1.num_farms_detected_today = 0
        ∧ st.1.btv_observed = false ∧ num_inf_sheep (st.1.farms 0) 0 = 0 →
      (((cattle_substep epiC4 rng0 0 st).1.farms 0).i_cattle 0 = 1
        ∧ ((cattle_substep epiC4 rng0 0 st).1.farms 0).detected = false
        ∧ ((cattle_substep epiC4 rng0 0 st).1.farms 0).movement_banned = false
        ∧ (cattle_substep epiC4 rng0 0 st).1.num_farms_detected_today = 0
        ∧ (cattle_substep epiC4 rng0 0 st).1.btv_observed = false
        ∧ num_inf_sheep ((cattle_substep epiC4 rng0 0 st).1.farms 0) 0 = 0) := by
    rintro st ⟨h1, h2, h3, h4, h5, h6⟩
    rw [cattle_substep]
    simp only [epiC4, epi0, rand_poisson, rng0, List.range_zero, List.reverse_nil,
      List.foldl_nil, Nat.zero_sub, Nat.sub_self]
    rw [h1]
    norm_num [int_min, c_int, modifyFarm, num_inf_sheep]
    exact ⟨h1, h2, h3, h4, h5⟩
  have hfold : ∀ (l : List ℕ) (st : SimulationState × ℕ),
      (st.1.farms 0).i_cattle 0 = 1 ∧ (st.1.farms 0).detected = false
        ∧ (st.1.farms 0).movement_banned = false ∧ st.1.num_farms_detected_today = 0
        ∧ st.1.btv_observed = false ∧ num_inf_sheep (st.1.farms 0) 0 = 0 →
      let r := l.foldl (fun st _ => cattle_substep epiC4 rng0 0 st) st
      (r.1.farms 0).i_cattle 0 = 1 ∧ (r.1.farms 0).detected = false
        ∧ (r.1.farms 0).movement_banned = false ∧ r.1.num_farms_detected_today = 0
        ∧ r.1.btv_observed = false ∧ num_inf_sheep (r.1.farms 0) 0 = 0 := by
    intro l
    induction l with
    | nil => intro st h; exact h
    | cons a l ih => intro st h; exact ih _ (hP st h)
  have hstart : (stateC4.farms 0).i_cattle 0 = 1 ∧ (stateC4.farms 0).detected = false
      ∧ (stateC4.farms 0).movement_banned = false ∧ stateC4.num_farms_detected_today = 0
      ∧ stateC4.btv_observed = false ∧ num_inf_sheep (stateC4.farms 0) 0 = 0 := by
    refine ⟨rfl, rfl, rfl, rfl, rfl, ?_⟩
    simp [num_inf_sheep]
  have hkey := hfold (List.range 10) (stateC4, 0) hstart
  set r := (List.range 10).foldl (fun st _ => cattle_substep epiC4 rng0 0 st) (stateC4, 0) with hrdef
  obtain ⟨k1, k2, k3, k4, k5, k6⟩ := hkey
  have hguard_sheep : ¬ (num_inf_sheep (stateC4.farms 0) epiC4.num_inf_stages_sheep > 0) := by
    simp [num_inf_sheep, epiC4, epi0]
  have hguard_cattle : num_inf_cattle (stateC4.farms 0) epiC4.num_inf_stages_cattle > 0 := by
    norm_num [num_inf_cattle, epiC4, epi0, stateC4, state0, farm0]
  have hinf_c : num_inf_cattle (r.1.farms 0) epiC4.num_inf_stages_cattle = 1 := by
    simp only [num_inf_cattle, epiC4, epi0, Finset.range_one, Finset.sum_singleton]
    exact k1
  have hmain : farm_deaths_and_recoveries mathFns0 0 epiC4 ctrlNC rng0 stateC4 0
      = (detection_trigger ctrlNC 0 r.1, r.2 + 1) := by
    rw [farm_deaths_and_recoveries]
    rw [if_neg hguard_sheep, if_pos hguard_cattle, ← hrdef, passive_detection]
    rw [if_pos k2]
    have k6' : num_inf_sheep (r.1.farms 0) epiC4.num_inf_stages_sheep = 0 := k6
    rw [hinf_c, k6']
    rw [if_pos (by norm_num)]
    rw [if_pos ?cond]
    case cond =>
      simp only [mathFns0, gsl_rng_uniform, rng0]
      norm_num
    rfl
  have hdt : detection_trigger ctrlNC 0 r.1
      = { modifyFarm r.1 0 (fun f => { f with detected := true }) with
            num_farms_detected_today :=
              (modifyFarm r.1 0 (fun f => { f with detected := true })).num_farms_detected_today
                + 1 } := by
    rw [detection_trigger]
    simp [ctrlNC, ctrl0]
  refine ⟨rfl, rfl, ?_, ?_, ?_, ?_⟩
  · rw [hmain, hdt]
    simp [modifyFarm]
  · rw [hmain, hdt]
    simp [modifyFarm]
    exact k4
  · rw [hmain, hdt]
    simp [modifyFarm]
    exact k3
  · rw [hmain, hdt]
    simp [modifyFarm]
    exact k5

/-! ## Pointwise characterization of the diffusion passes -/

/-- Reading `upd2` at its own cell. -/
theorem upd2_same (g : ℕ → ℕ → ℚ) (a b : ℕ) (v : ℚ) : upd2 g a b v a b = v := by
  simp [upd2]

/-- Reading `upd2` elsewhere. -/
theorem upd2_other (g : ℕ → ℕ → ℚ) (a b : ℕ) (v : ℚ) (p q : ℕ)
    (h : ¬(p = a ∧ q = b)) : upd2 g a b v p q = g p q := by
  simp only [upd2, if_neg h]

/-- The five-point stencil weight one source cell `(i,j)` writes at `(p,q)`. -/
def stencilW (i j p q : ℕ) : ℚ :=
  if p = i ∧ q = j then -2
  else if p = i + 1 ∧ q = j then 0.5
  else if p = i - 1 ∧ q = j then 0.5
  else if p = i ∧ q = j + 1 then 0.5
  else if p = i ∧ q = j - 1 then 0.5
  else 0

/-- `depositStep` acts pointwise as the stencil (for interior sources). -/
theorem depositStep_apply (flux : ℚ) (i j : ℕ) (sc : ℕ → ℕ → ℚ) (p q : ℕ)
    (hi : 1 ≤ i) (hj : 1 ≤ j) :
    depositStep flux i j sc p q = sc p q + stencilW i j p q * flux := by
  have d1 : ¬(i = i + 1) := by omega
  have d2 : ¬(i = i - 1) := by omega
  have d3 : ¬(j = j + 1) := by omega
  have d4 : ¬(j = j - 1) := by omega
  have d5 : ¬(i + 1 = i - 1) := by omega
  have d6 : ¬(j + 1 = j - 1) := by omega
  have d7 : ¬(i + 1 = i) := by omega
  have d8 : ¬(i - 1 = i) := by omega
  have d9 : ¬(j + 1 = j) := by omega
  have d10 : ¬(j - 1 = j) := by omega
  have d11 : ¬(i - 1 = i + 1) := by omega
  have d12 : ¬(j - 1 = j + 1) := by omega
  by_cases h1 : p = i ∧ q = j
  · obtain ⟨rfl, rfl⟩ := h1
    simp [depositStep, upd2, stencilW, d1, d2, d3, d4]
    ring
  by_cases h2 : p = i + 1 ∧ q = j
  · obtain ⟨rfl, rfl⟩ := h2
    simp [depositStep, upd2, stencilW, d3, d4, d5, d7]
  by_cases h3 : p = i - 1 ∧ q = j
  · obtain ⟨rfl, rfl⟩ := h3
    simp [depositStep, upd2, stencilW, d3, d4, d8, d11]
  by_cases h4 : p = i ∧ q = j + 1
  · obtain ⟨rfl, rfl⟩ := h4
    simp [depositStep, upd2, stencilW, d1, d2, d6, d9]
  by_cases h5 : p = i ∧ q = j - 1
  · obtain ⟨rfl, rfl⟩ := h5
    simp [depositStep, upd2, stencilW, d1, d2, d10, d12]
  simp [depositStep, upd2, stencilW, h1, h2, h3, h4, h5]

/-- The scratch contribution one cell `c` makes at `(p,q)` during the
deposit pass. -/
def depositContribution (dens Dg : ℕ → ℕ → ℚ) (dt h2 : ℚ) (c : ℕ × ℕ)
    (p q : ℕ) : ℚ :=
  if dens c.1 c.2 > 1e-5 then stencilW c.1 c.2 p q * (Dg c.1 c.2 * dt * dens c.1 c.2 / h2)
  else 0

/-- The deposit pass over any list of interior cells acts pointwise as the
sum of the cells' stencil contributions. -/
theorem deposit_foldl_apply (dens Dg : ℕ → ℕ → ℚ) (dt h2 : ℚ) :
    ∀ (l : List (ℕ × ℕ)), (∀ c ∈ l, 1 ≤ c.1 ∧ 1 ≤ c.2) →
    ∀ (sc : ℕ → ℕ → ℚ) (p q : ℕ),
      (l.foldl (fun sc c =>
        if dens c.1 c.2 > 1e-5 then
          depositStep (Dg c.1 c.2 * dt * dens c.1 c.2 / h2) c.1 c.2 sc
        else sc) sc) p q
      = sc p q + ((l.map (fun c => depositContribution dens Dg dt h2 c p q)).sum) := by
  intro l
  induction l with
  | nil => intro _ sc p q; simp
  | cons c l ih =>
      intro hl sc p q
      have hc := hl c (List.mem_cons_self c l)
      have hrest : ∀ c' ∈ l, 1 ≤ c'.1 ∧ 1 ≤ c'.2 :=
        fun c' hc' => hl c' (List.mem_cons_of_mem c hc')
      simp only [List.foldl_cons, List.map_cons, List.sum_cons]
      rw [ih hrest]
      have hstep : (if dens c.1 c.2 > 1e-5 then
          depositStep (Dg c.1 c.2 * dt * dens c.1 c.2 / h2) c.1 c.2 sc else sc) p q
          = sc p q + depositContribution dens Dg dt h2 c p q := by
        rw [depositContribution]
        split
        · rw [depositStep_apply _ _ _ _ _ _ hc.1 hc.2]
        · ring
      rw [hstep]
      ring

/-- Membership in `interiorCells`. -/
theorem mem_interiorCells (c : ℕ × ℕ) :
    c ∈ interiorCells ↔ (1 ≤ c.1 ∧ c.1 < MAX_GRID_S - 1) ∧ (1 ≤ c.2 ∧ c.2 < MAX_GRID_E - 1) := by
  obtain ⟨p, q⟩ := c
  rw [interiorCells]
  constructor
  · intro h
    obtain ⟨a, ha, h2⟩ := List.mem_flatMap.mp h
    obtain ⟨b, hb, hab⟩ := List.mem_map.mp h2
    obtain ⟨ha1, ha2⟩ := List.mem_range'_1.mp ha
    obtain ⟨hb1, hb2⟩ := List.mem_range'_1.mp hb
    cases hab
    exact ⟨⟨ha1, by omega⟩, ⟨hb1, by omega⟩⟩
  · rintro ⟨⟨h1, h2⟩, ⟨h3, h4⟩⟩
    refine List.mem_flatMap.mpr ⟨p, List.mem_range'_1.mpr ⟨h1, by omega⟩, ?_⟩
    exact List.mem_map.mpr ⟨q, List.mem_range'_1.mpr ⟨h3, by omega⟩, rfl⟩

/-- `interiorCells` has no duplicates. -/
theorem interiorCells_nodup : interiorCells.Nodup := by
  rw [interiorCells]
  refine List.nodup_flatMap.2 ⟨?_, ?_⟩
  · intro i _
    exact (List.nodup_range' _ _).map (fun a b h => congrArg Prod.snd h)
  · refine List.Pairwise.imp ?_ (List.pairwise_lt_range' _ _ 1 (by omega))
    intro a b hab
    intro x hxa hxb
    obtain ⟨b1, _, rfl⟩ := List.mem_map.mp hxa
    obtain ⟨b2, _, h⟩ := List.mem_map.mp hxb
    have : b = a := congrArg Prod.fst h
    omega

attribute [irreducible] interiorCells

/-- Sum over a list of a function vanishing off a single element. -/
theorem map_sum_single {α : Type _} (f : α → ℚ) (a : α) :
    ∀ (l : List α), a ∈ l → l.Nodup → (∀ c ∈ l, c ≠ a → f c = 0) →
      (l.map f).sum = f a := by
  intro l
  induction l with
  | nil => intro h; exact absurd h (List.not_mem_nil a)
  | cons b l ih =>
      intro ha hnd hf
      simp only [List.map_cons, List.sum_cons]
      have hbl : b ∉ l := (List.nodup_cons.mp hnd).1
      rcases List.mem_cons.mp ha with hab | hal
      · subst hab
        have : ∀ x ∈ l.map f, x = 0 := by
          intro x hx
          obtain ⟨c, hc, rfl⟩ := List.mem_map.mp hx
          exact hf c (List.mem_cons_of_mem _ hc) (fun h => hbl (h ▸ hc))
        rw [List.sum_eq_zero this]
        ring
      · have hfb : f b = 0 := by
          refine hf b (List.mem_cons_self b l) ?_
          intro h
          exact hbl (h ▸ hal)
        rw [hfb, ih hal (List.nodup_cons.mp hnd).2
          (fun c hc hca => hf c (List.mem_cons_of_mem _ hc) hca)]
        ring

/-- The sum of an all-zero contribution list. -/
theorem map_sum_zero {α : Type _} (f : α → ℚ) (l : List α)
    (hf : ∀ c ∈ l, f c = 0) : (l.map f).sum = 0 := by
  refine List.sum_eq_zero ?_
  intro x hx
  obtain ⟨c, hc, rfl⟩ := List.mem_map.mp hx
  exact hf c hc

/-- Cells not in the fold list are untouched by the fold-in pass. -/
theorem foldIn_untouched (p q : ℕ) :
    ∀ (l : List (ℕ × ℕ)), (p, q) ∉ l → ∀ (dsc : (ℕ → ℕ → ℚ) × (ℕ → ℕ → ℚ)),
      (l.foldl foldInBody dsc).1 p q = dsc.1 p q
        ∧ (l.foldl foldInBody dsc).2 p q = dsc.2 p q := by
  intro l
  induction l with
  | nil => intro _ dsc; exact ⟨rfl, rfl⟩
  | cons c l ih =>
      intro hpq dsc
      have hpc : ¬(p = c.1 ∧ q = c.2) := by
        intro h
        exact hpq (by
          have : (p, q) = c := Prod.ext h.1 h.2
          rw [this]
          exact List.mem_cons_self c l)
      have hrest : (p, q) ∉ l := fun h => hpq (List.mem_cons_of_mem c h)
      simp only [List.foldl_cons]
      obtain ⟨ih1, ih2⟩ := ih hrest (foldInBody dsc c)
      rw [ih1, ih2]
      constructor
      · exact upd2_other _ _ _ _ _ _ hpc
      · exact upd2_other _ _ _ _ _ _ hpc

/-- Every cell of the fold list ends the fold-in pass with zero scratch. -/
theorem foldIn_scratch_zero (p q : ℕ) :
    ∀ (l : List (ℕ × ℕ)), (p, q) ∈ l → ∀ (dsc : (ℕ → ℕ → ℚ) × (ℕ → ℕ → ℚ)),
      (l.foldl foldInBody dsc).2 p q = 0 := by
  intro l
  induction l with
  | nil => intro h; exact absurd h (List.not_mem_nil _)
  | cons c l ih =>
      intro hpq dsc
      simp only [List.foldl_cons]
      by_cases hl : (p, q) ∈ l
      · exact ih hl _
      · have hpc : (p, q) = c := by
          rcases List.mem_cons.mp hpq with h | h
          · exact h
          · exact absurd h hl
        obtain ⟨_, h2⟩ := foldIn_untouched p q l hl (foldInBody dsc c)
        rw [h2]
        show upd2 dsc.2 c.1 c.2 0 p q = 0
        have : p = c.1 ∧ q = c.2 := ⟨congrArg Prod.fst hpc, congrArg Prod.snd hpc⟩
        simp [upd2, this]

/-- Every cell of the fold list receives its scratch value exactly once
during the fold-in pass (given the list has no duplicates). -/
theorem foldIn_dens_add (p q : ℕ) :
    ∀ (l : List (ℕ × ℕ)), l.Nodup → (p, q) ∈ l →
      ∀ (dsc : (ℕ → ℕ → ℚ) × (ℕ → ℕ → ℚ)),
      (l.foldl foldInBody dsc).1 p q = dsc.1 p q + dsc.2 p q := by
  intro l
  induction l with
  | nil => intro _ h; exact absurd h (List.not_mem_nil _)
  | cons c l ih =>
      intro hnd hpq dsc
      simp only [List.foldl_cons]
      have hbl : c ∉ l := (List.nodup_cons.mp hnd).1
      rcases List.mem_cons.mp hpq with h | h
      · have hnl : (p, q) ∉ l := by rw [h]; exact hbl
        obtain ⟨h1, _⟩ := foldIn_untouched p q l hnl (foldInBody dsc c)
        rw [h1]
        have hc : p = c.1 ∧ q = c.2 := ⟨congrArg Prod.fst h, congrArg Prod.snd h⟩
        obtain ⟨rfl, rfl⟩ := hc
        show upd2 dsc.1 c.1 c.2 (dsc.1 c.1 c.2 + dsc.2 c.1 c.2) c.1 c.2 = _
        rw [upd2_same]
      · have hpc : ¬(p = c.1 ∧ q = c.2) := by
          intro hx
          have : (p, q) = c := Prod.ext hx.1 hx.2
          rw [this] at h
          exact hbl h
        rw [ih (List.nodup_cons.mp hnd).2 h (foldInBody dsc c)]
        show upd2 dsc.1 c.1 c.2 _ p q + upd2 dsc.2 c.1 c.2 0 p q = _
        rw [upd2_other _ _ _ _ _ _ hpc, upd2_other _ _ _ _ _ _ hpc]

/-! ## C2: the scratch grid after a diffusion sub-step -/

/-- C2 (amended): after a diffusion sub-step, every INTERIOR cell of
`diffusion_soln_grid` is zero again (for each field processed, the fold-in
pass zeroes exactly the interior cells); the boundary rows and columns are
never re-zeroed and can retain deposits from boundary-adjacent active
cells. -/
theorem C2_interior_scratch_zero (sim : SimulationParams) (epi : EpiParams)
    (grids : GridParams) (s : SimulationState)
    (hsc : ∀ p q, s.diffusion_soln_grid p q = 0) :
    ∀ p q, 1 ≤ p → p < MAX_GRID_S - 1 → 1 ≤ q → q < MAX_GRID_E - 1 →
      (midge_diffusion_step sim epi grids s).diffusion_soln_grid p q = 0 := by
  intro p q hp1 hp2 hq1 hq2
  have hmem : (p, q) ∈ interiorCells := (mem_interiorCells (p, q)).mpr ⟨⟨hp1, hp2⟩, ⟨hq1, hq2⟩⟩
  rw [midge_diffusion_step, inf_diffusion_pass]
  exact foldIn_scratch_zero p q interiorCells hmem _

/-- Witness for C2: the all-zero state, checked at the interior cell (1,1). -/
theorem C2_interior_scratch_zero_witness :
    (midge_diffusion_step sim0 epi0 grids0 state0).diffusion_soln_grid 1 1 = 0 :=
  C2_interior_scratch_zero sim0 epi0 grids0 state0 (fun _ _ => rfl) 1 1
    (by decide) (by decide) (by decide) (by decide)

/-- One EIP stage (C2 counterexample parameters). -/
def epiC2 : EpiParams := { epi0 with num_eip_stages := 1 }

/-- Unit diffusion time-step. -/
def simC2 : SimulationParams := { sim0 with dt := 1 }

/-- Unit midge-grid cell width. -/
def gridsC2 : GridParams := { grids0 with midge_grid_width := 1 }

/-- A single active latent cell at the boundary-adjacent interior cell
(1,1), unit diffusion coefficient, zero scratch. -/
def stateC2 : SimulationState :=
  { state0 with
      latent_midge_density := fun i j m => if i = 1 ∧ j = 1 ∧ m = 0 then 1 else 0
      diffusion_grid := fun _ _ => 1 }

/-- The boundary cell (0,1) is not interior. -/
theorem boundary01_not_interior : ((0 : ℕ), (1 : ℕ)) ∉ interiorCells := by
  intro h
  have := (mem_interiorCells _).mp h
  omega

/-- Scratch projection of the infectious diffusion pass. -/
theorem inf_diffusion_pass_scratch (sim : SimulationParams) (grids : GridParams)
    (s : SimulationState) (p q : ℕ) :
    (inf_diffusion_pass sim grids s).diffusion_soln_grid p q
      = (diffusionFoldIn s.inf_midge_density
          (diffusionDeposits s.inf_midge_density s.diffusion_grid sim.dt
            (grids.midge_grid_width * grids.midge_grid_width) s.diffusion_soln_grid)).2 p q := rfl

/-- Scratch projection of one latent diffusion stage. -/
theorem latent_diffusion_stage_scratch (sim : SimulationParams) (grids : GridParams)
    (s : SimulationState) (k : ℕ) (p q : ℕ) :
    (latent_diffusion_stage sim grids s k).diffusion_soln_grid p q
      = (diffusionFoldIn (fun i j => s.latent_midge_density i j k)
          (diffusionDeposits (fun i j => s.latent_midge_density i j k) s.diffusion_grid sim.dt
            (grids.midge_grid_width * grids.midge_grid_width) s.diffusion_soln_grid)).2 p q := rfl

/-- A latent diffusion stage leaves the infectious field unchanged. -/
theorem latent_diffusion_stage_inf (sim : SimulationParams) (grids : GridParams)
    (s : SimulationState) (k : ℕ) :
    (latent_diffusion_stage sim grids s k).inf_midge_density = s.inf_midge_density := rfl

/-- A latent diffusion stage leaves the diffusion-coefficient grid unchanged. -/
theorem latent_diffusion_stage_diffgrid (sim : SimulationParams) (grids : GridParams)
    (s : SimulationState) (k : ℕ) :
    (latent_diffusion_stage sim grids s k).diffusion_grid = s.diffusion_grid := rfl

/-- Boundary cells keep their scratch value through the fold-in pass. -/
theorem diffusionFoldIn_boundary_scratch (dens sc : ℕ → ℕ → ℚ) (p q : ℕ)
    (h : (p, q) ∉ interiorCells) : (diffusionFoldIn dens sc).2 p q = sc p q := by
  rw [diffusionFoldIn]
  exact (foldIn_untouched p q interiorCells h (dens, sc)).2

/-- The deposit pass acts pointwise as the stencil-contribution sum. -/
theorem diffusionDeposits_apply (dens Dg : ℕ → ℕ → ℚ) (dt h2 : ℚ)
    (sc : ℕ → ℕ → ℚ) (p q : ℕ) :
    diffusionDeposits dens Dg dt h2 sc p q
      = sc p q
        + ((interiorCells.map (fun c => depositContribution dens Dg dt h2 c p q)).sum) := by
  rw [diffusionDeposits]
  refine deposit_foldl_apply dens Dg dt h2 interiorCells ?_ sc p q
  intro c hc
  have := (mem_interiorCells c).mp hc
  exact ⟨this.1.1, this.2.1⟩

/-- C2 counterexample: in `stateC2` the scratch grid is identically zero when
the sub-step begins, the only active cell (1,1) is interior, and yet after
`midge_diffusion_step` the boundary scratch cell (0,1) holds `1/2` (the
deposit `0.5·flux` it received and which the fold-in pass never clears) —
refuting "every cell of it, boundary rows and columns included, is zero
again when the sub-step ends". -/
theorem C2_counterexample :
    (∀ p q, stateC2.diffusion_soln_grid p q = 0)
    ∧ (midge_diffusion_step simC2 epiC2 gridsC2 stateC2).diffusion_soln_grid 0 1 = 1 / 2 := by
  refine ⟨fun p q => rfl, ?_⟩
  have key : (midge_diffusion_step simC2 epiC2 gridsC2 stateC2)
      = inf_diffusion_pass simC2 gridsC2 (latent_diffusion_stage simC2 gridsC2 stateC2 0) := by
    have h1 : List.range epiC2.num_eip_stages = [0] := rfl
    rw [midge_diffusion_step, h1]
    simp only [List.foldl_cons, List.foldl_nil]
  rw [key]
  rw [inf_diffusion_pass_scratch,
    diffusionFoldIn_boundary_scratch _ _ _ _ boundary01_not_interior,
    diffusionDeposits_apply, latent_diffusion_stage_inf, latent_diffusion_stage_diffgrid,
    latent_diffusion_stage_scratch,
    diffusionFoldIn_boundary_scratch _ _ _ _ boundary01_not_interior,
    diffusionDeposits_apply]
  have hz : (stateC2.diffusion_soln_grid 0 1) = 0 := rfl
  rw [hz]
  have hinf : (interiorCells.map (fun c =>
      depositContribution stateC2.inf_midge_density stateC2.diffusion_grid simC2.dt
        (gridsC2.midge_grid_width * gridsC2.midge_grid_width) c 0 1)).sum = 0 := by
    refine map_sum_zero _ _ ?_
    intro c _
    rw [depositContribution]
    norm_num [stateC2, state0]
  have hlat : (interiorCells.map (fun c =>
      depositContribution (fun i j => stateC2.latent_midge_density i j 0)
        stateC2.diffusion_grid simC2.dt
        (gridsC2.midge_grid_width * gridsC2.midge_grid_width) c 0 1)).sum = 1 / 2 := by
    have hmem : ((1 : ℕ), (1 : ℕ)) ∈ interiorCells := by
      refine (mem_interiorCells _).mpr ?_
      refine ⟨⟨le_refl 1, ?_⟩, ⟨le_refl 1, ?_⟩⟩ <;> decide
    rw [map_sum_single _ ((1 : ℕ), (1 : ℕ)) interiorCells hmem interiorCells_nodup ?off]
    case off =>
      intro c _ hc
      rw [depositContribution]
      have hne : ¬(c.1 = 1 ∧ c.2 = 1 ∧ (0 : ℕ) = 0) := by
        intro h
        exact hc (Prod.ext h.1 h.2.1)
      have hd : stateC2.latent_midge_density c.1 c.2 0 = 0 := by
        show (if c.1 = 1 ∧ c.2 = 1 ∧ (0 : ℕ) = 0 then (1 : ℚ) else 0) = 0
        rw [if_neg hne]
      rw [hd]
      norm_num
    rw [depositContribution]
    have hd : stateC2.latent_midge_density 1 1 0 = 1 := rfl
    norm_num [hd, stencilW, stateC2, state0, simC2, sim0, gridsC2, grids0]
  rw [hinf, hlat]
  norm_num

/-! ## C6: mass conservation of one diffusion sub-step -/

/-- Total mass of a field over all grid cells. -/
def gridTotal (g : ℕ → ℕ → ℚ) : ℚ :=
  ∑ i in Finset.range MAX_GRID_S, ∑ j in Finset.range MAX_GRID_E, g i j

/-- Cells within one cell of the grid boundary (boundary cells themselves
and the interior ring adjacent to them): sources here would deposit onto the
absorbing boundary. -/
def nearBoundary (p q : ℕ) : Prop :=
  p ≤ 1 ∨ q ≤ 1 ∨ MAX_GRID_S - 2 ≤ p ∨ MAX_GRID_E - 2 ≤ q

/-- The stencil weight decomposed as a sum of five point indicators (for
interior sources, whose five stencil cells are pairwise distinct). -/
theorem stencil_decomp (i j : ℕ) (hi : 1 ≤ i) (hj : 1 ≤ j) (p q : ℕ) :
    stencilW i j p q
      = (if (p, q) = (i, j) then (-2 : ℚ) else 0)
        + (if (p, q) = (i + 1, j) then (1 : ℚ) / 2 else 0)
        + (if (p, q) = (i - 1, j) then (1 : ℚ) / 2 else 0)
        + (if (p, q) = (i, j + 1) then (1 : ℚ) / 2 else 0)
        + (if (p, q) = (i, j - 1) then (1 : ℚ) / 2 else 0) := by
  have d1 : ¬(i = i + 1) := by omega
  have d2 : ¬(i = i - 1) := by omega
  have d3 : ¬(j = j + 1) := by omega
  have d4 : ¬(j = j - 1) := by omega
  have d5 : ¬(i + 1 = i - 1) := by omega
  have d6 : ¬(j + 1 = j - 1) := by omega
  have d7 : ¬(i + 1 = i) := by omega
  have d8 : ¬(i - 1 = i) := by omega
  have d9 : ¬(j + 1 = j) := by omega
  have d10 : ¬(j - 1 = j) := by omega
  have d11 : ¬(i - 1 = i + 1) := by omega
  have d12 : ¬(j - 1 = j + 1) := by omega
  by_cases h1 : p = i ∧ q = j
  · obtain ⟨rfl, rfl⟩ := h1
    simp [stencilW, Prod.ext_iff, d1, d2, d3, d4] <;> norm_num
  by_cases h2 : p = i + 1 ∧ q = j
  · obtain ⟨rfl, rfl⟩ := h2
    simp [stencilW, Prod.ext_iff, d3, d4, d5, d7] <;> norm_num
  by_cases h3 : p = i - 1 ∧ q = j
  · obtain ⟨rfl, rfl⟩ := h3
    simp [stencilW, Prod.ext_iff, d3, d4, d8, d11] <;> norm_num
  by_cases h4 : p = i ∧ q = j + 1
  · obtain ⟨rfl, rfl⟩ := h4
    simp [stencilW, Prod.ext_iff, d1, d2, d6, d9] <;> norm_num
  by_cases h5 : p = i ∧ q = j - 1
  · obtain ⟨rfl, rfl⟩ := h5
    simp [stencilW, Prod.ext_iff, d1, d2, d10, d12] <;> norm_num
  · simp [stencilW, Prod.ext_iff, h1, h2, h3, h4, h5]

/-- Pointwise description of the density after a fold-in pass. -/
theorem diffusionFoldIn_dens_apply (dens sc : ℕ → ℕ → ℚ) (p q : ℕ) :
    (diffusionFoldIn dens sc).1 p q
      = dens p q + (if (p, q) ∈ interiorCells then sc p q else 0) := by
  by_cases h : (p, q) ∈ interiorCells
  · rw [if_pos h, diffusionFoldIn]
    exact foldIn_dens_add p q interiorCells interiorCells_nodup h (dens, sc)
  · rw [if_neg h, add_zero, diffusionFoldIn]
    exact (foldIn_untouched p q interiorCells h (dens, sc)).1

/-- The interior cells as a finset. -/
def interiorFinset : Finset (ℕ × ℕ) := interiorCells.toFinset

/-- Membership in `interiorFinset`. -/
theorem mem_interiorFinset (c : ℕ × ℕ) :
    c ∈ interiorFinset
      ↔ (1 ≤ c.1 ∧ c.1 < MAX_GRID_S - 1) ∧ (1 ≤ c.2 ∧ c.2 < MAX_GRID_E - 1) := by
  rw [interiorFinset, List.mem_toFinset]
  exact mem_interiorCells c

/-- Sums over `interiorFinset` agree with sums over the `interiorCells`
list. -/
theorem sum_interiorFinset_eq (f : ℕ × ℕ → ℚ) :
    ∑ c in interiorFinset, f c = (interiorCells.map f).sum := by
  rw [interiorFinset]
  exact List.sum_toFinset _ interiorCells_nodup

attribute [irreducible] interiorFinset

/-- The five stencil cells of a strictly-interior source all lie in the
interior, and their indicator sums over the interior total zero. -/
theorem stencil_sum_zero (i j : ℕ) (h2i : 2 ≤ i) (hiS : i < MAX_GRID_S - 2)
    (h2j : 2 ≤ j) (hjE : j < MAX_GRID_E - 2) :
    ∑ c in interiorFinset, stencilW i j c.1 c.2 = 0 := by
  have hmem : ∀ a b : ℕ, 1 ≤ a → a < MAX_GRID_S - 1 → 1 ≤ b → b < MAX_GRID_E - 1 →
      (a, b) ∈ interiorFinset := by
    intro a b h1 h2 h3 h4
    exact (mem_interiorFinset (a, b)).mpr ⟨⟨h1, h2⟩, ⟨h3, h4⟩⟩
  have hc : ∑ c in interiorFinset, stencilW i j c.1 c.2
      = ∑ c in interiorFinset,
          ((if c = (i, j) then (-2 : ℚ) else 0)
            + (if c = (i + 1, j) then (1 : ℚ) / 2 else 0)
            + (if c = (i - 1, j) then (1 : ℚ) / 2 else 0)
            + (if c = (i, j + 1) then (1 : ℚ) / 2 else 0)
            + (if c = (i, j - 1) then (1 : ℚ) / 2 else 0)) := by
    refine Finset.sum_congr rfl ?_
    intro c _
    rw [stencil_decomp i j (by omega) (by omega) c.1 c.2]
  rw [hc]
  simp only [Finset.sum_add_distrib, Finset.sum_ite_eq' interiorFinset]
  rw [if_pos (hmem i j (by omega) (by omega) (by omega) (by omega)),
    if_pos (hmem (i + 1) j (by omega) (by omega) (by omega) (by omega)),
    if_pos (hmem (i - 1) j (by omega) (by omega) (by omega) (by omega)),
    if_pos (hmem i (j + 1) (by omega) (by omega) (by omega) (by omega)),
    if_pos (hmem i (j - 1) (by omega) (by omega) (by omega) (by omega))]
  norm_num

/-- One field pass (deposits then fold-in) preserves the grid total, given
clean interior scratch and no activity near the boundary. -/
theorem pass_total (dens Dg : ℕ → ℕ → ℚ) (dt h2 : ℚ) (sc : ℕ → ℕ → ℚ)
    (hsc : ∀ p q, (p, q) ∈ interiorCells → sc p q = 0)
    (hnb : ∀ p q, nearBoundary p q → dens p q ≤ 1e-5) :
    gridTotal (diffusionFoldIn dens (diffusionDeposits dens Dg dt h2 sc)).1
      = gridTotal dens := by
  have hpoint : ∀ p q, (diffusionFoldIn dens (diffusionDeposits dens Dg dt h2 sc)).1 p q
      = dens p q + (if (p, q) ∈ interiorFinset then
          (interiorCells.map (fun c => depositContribution dens Dg dt h2 c p q)).sum else 0) := by
    intro p q
    rw [diffusionFoldIn_dens_apply]
    congr 1
    by_cases h : (p, q) ∈ interiorCells
    · rw [if_pos h, if_pos ((mem_interiorFinset _).mpr ((mem_interiorCells _).mp h)),
        diffusionDeposits_apply, hsc p q h, zero_add]
    · rw [if_neg h, if_neg (fun hx => h ((mem_interiorCells _).mpr ((mem_interiorFinset _).mp hx)))]
  have hsplit : gridTotal (diffusionFoldIn dens (diffusionDeposits dens Dg dt h2 sc)).1
      = gridTotal dens
        + ∑ i in Finset.range MAX_GRID_S, ∑ j in Finset.range MAX_GRID_E,
            (if (i, j) ∈ interiorFinset then
              (interiorCells.map (fun c => depositContribution dens Dg dt h2 c i j)).sum
            else 0) := by
    rw [gridTotal, gridTotal]
    rw [← Finset.sum_add_distrib]
    refine Finset.sum_congr rfl ?_
    intro i _
    rw [← Finset.sum_add_distrib]
    refine Finset.sum_congr rfl ?_
    intro j _
    exact hpoint i j
  rw [hsplit]
  have hrest : ∑ i in Finset.range MAX_GRID_S, ∑ j in Finset.range MAX_GRID_E,
      (if (i, j) ∈ interiorFinset then
        (interiorCells.map (fun c => depositContribution dens Dg dt h2 c i j)).sum
      else 0) = 0 := by
    rw [← Finset.sum_product']
    rw [Finset.sum_ite_mem]
    have hsub : interiorFinset ⊆ Finset.range MAX_GRID_S ×ˢ Finset.range MAX_GRID_E := by
      intro c hc
      have hb := (mem_interiorFinset c).mp hc
      rw [Finset.mem_product, Finset.mem_range, Finset.mem_range]
      omega
    rw [Finset.inter_eq_right.mpr hsub]
    have hswap : ∑ c in interiorFinset,
        (interiorCells.map (fun c' => depositContribution dens Dg dt h2 c' c.1 c.2)).sum
        = ∑ c' in interiorFinset, ∑ c in interiorFinset,
            depositContribution dens Dg dt h2 c' c.1 c.2 := by
      rw [← Finset.sum_comm]
      refine Finset.sum_congr rfl ?_
      intro c _
      rw [← sum_interiorFinset_eq]
    rw [hswap]
    refine Finset.sum_eq_zero ?_
    intro c' hc'
    rw [Finset.sum_congr rfl (fun c _ => by rw [depositContribution])]
    by_cases hact : dens c'.1 c'.2 > 1e-5
    · have hbounds := (mem_interiorFinset c').mp hc'
      have hnotnb : ¬ nearBoundary c'.1 c'.2 := by
        intro h
        exact absurd (hnb c'.1 c'.2 h) (not_le.mpr hact)
      rw [nearBoundary] at hnotnb
      push_neg at hnotnb
      simp only [if_pos hact]
      rw [← Finset.sum_mul]
      rw [stencil_sum_zero c'.1 c'.2 (by omega) (by omega) (by omega) (by omega)]
      ring
    · simp only [if_neg hact]
      exact Finset.sum_const_zero
  rw [hrest, add_zero]

/-- Latent-plane projection of one latent diffusion stage. -/
theorem latent_diffusion_stage_latent (sim : SimulationParams) (grids : GridParams)
    (s : SimulationState) (k : ℕ) (p q m : ℕ) :
    (latent_diffusion_stage sim grids s k).latent_midge_density p q m
      = if m = k then
          (diffusionFoldIn (fun i j => s.latent_midge_density i j k)
            (diffusionDeposits (fun i j => s.latent_midge_density i j k) s.diffusion_grid
              sim.dt (grids.midge_grid_width * grids.midge_grid_width)
              s.diffusion_soln_grid)).1 p q
        else s.latent_midge_density p q m := rfl

/-- Interior scratch is clean after each latent diffusion stage. -/
theorem latent_diffusion_stage_scratch_interior (sim : SimulationParams)
    (grids : GridParams) (s : SimulationState) (k : ℕ) (p q : ℕ)
    (h : (p, q) ∈ interiorCells) :
    (latent_diffusion_stage sim grids s k).diffusion_soln_grid p q = 0 := by
  rw [latent_diffusion_stage_scratch, diffusionFoldIn]
  exact foldIn_scratch_zero p q interiorCells h _

/-- The infectious pass leaves the latent planes unchanged. -/
theorem inf_diffusion_pass_latent (sim : SimulationParams) (grids : GridParams)
    (s : SimulationState) :
    (inf_diffusion_pass sim grids s).latent_midge_density = s.latent_midge_density := rfl

/-- The infectious field after the infectious pass. -/
theorem inf_diffusion_pass_inf (sim : SimulationParams) (grids : GridParams)
    (s : SimulationState) :
    (inf_diffusion_pass sim grids s).inf_midge_density
      = (diffusionFoldIn s.inf_midge_density
          (diffusionDeposits s.inf_midge_density s.diffusion_grid sim.dt
            (grids.midge_grid_width * grids.midge_grid_width) s.diffusion_soln_grid)).1 := rfl

/-- Folding the latent diffusion stages preserves every plane's total mass
(under clean interior scratch and no near-boundary activity), and keeps the
infectious field, the coefficient grid and clean interior scratch. -/
theorem stage_fold_props (sim : SimulationParams) (grids : GridParams)
    (s : SimulationState) :
    ∀ (l : List ℕ), l.Nodup →
      (∀ k ∈ l, ∀ p q, nearBoundary p q → s.latent_midge_density p q k ≤ 1e-5) →
      ∀ (x : SimulationState),
        (∀ p q, (p, q) ∈ interiorCells → x.diffusion_soln_grid p q = 0) →
        x.diffusion_grid = s.diffusion_grid →
        x.inf_midge_density = s.inf_midge_density →
        (∀ m, m ∈ l → ∀ p q, x.latent_midge_density p q m = s.latent_midge_density p q m) →
        (∀ m, gridTotal (fun p q => x.latent_midge_density p q m)
            = gridTotal (fun p q => s.latent_midge_density p q m)) →
        (∀ p q, (p, q) ∈ interiorCells →
            (l.foldl (latent_diffusion_stage sim grids) x).diffusion_soln_grid p q = 0)
        ∧ (l.foldl (latent_diffusion_stage sim grids) x).diffusion_grid = s.diffusion_grid
        ∧ (l.foldl (latent_diffusion_stage sim grids) x).inf_midge_density
            = s.inf_midge_density
        ∧ (∀ m, gridTotal (fun p q =>
              (l.foldl (latent_diffusion_stage sim grids) x).latent_midge_density p q m)
            = gridTotal (fun p q => s.latent_midge_density p q m)) := by
  intro l
  induction l with
  | nil =>
      intro _ _ x hxsc hxdg hxinf _ hxtot
      exact ⟨hxsc, hxdg, hxinf, hxtot⟩
  | cons k l ih =>
      intro hnd hnb x hxsc hxdg hxinf hxplanes hxtot
      have hkl : k ∉ l := (List.nodup_cons.mp hnd).1
      have hndl : l.Nodup := (List.nodup_cons.mp hnd).2
      have hplanek : ∀ p q, x.latent_midge_density p q k = s.latent_midge_density p q k :=
        hxplanes k (List.mem_cons_self k l)
      simp only [List.foldl_cons]
      refine ih hndl (fun k' hk' => hnb k' (List.mem_cons_of_mem k hk'))
        (latent_diffusion_stage sim grids x k) ?_ ?_ ?_ ?_ ?_
      · intro p q hpq
        exact latent_diffusion_stage_scratch_interior sim grids x k p q hpq
      · rw [latent_diffusion_stage_diffgrid]; exact hxdg
      · rw [latent_diffusion_stage_inf]; exact hxinf
      · intro m hm p q
        rw [latent_diffusion_stage_latent]
        have hmk : ¬(m = k) := fun h => hkl (h ▸ hm)
        rw [if_neg hmk]
        exact hxplanes m (List.mem_cons_of_mem k hm) p q
      · intro m
        by_cases hmk : m = k
        · subst hmk
          have hplane_eq : gridTotal (fun p q =>
              (latent_diffusion_stage sim grids x m).latent_midge_density p q m)
              = gridTotal (diffusionFoldIn (fun i j => x.latent_midge_density i j m)
                  (diffusionDeposits (fun i j => x.latent_midge_density i j m)
                    x.diffusion_grid sim.dt
                    (grids.midge_grid_width * grids.midge_grid_width)
                    x.diffusion_soln_grid)).1 := by
            rw [gridTotal, gridTotal]
            refine Finset.sum_congr rfl (fun i _ => Finset.sum_congr rfl (fun j _ => ?_))
            rw [latent_diffusion_stage_latent, if_pos rfl]
          rw [hplane_eq]
          have hdens_eq : (fun i j => x.latent_midge_density i j m)
              = (fun i j => s.latent_midge_density i j m) := by
            funext i j
            exact hplanek i j
          rw [pass_total _ _ _ _ _ hxsc ?hnbx]
          case hnbx =>
            intro p q hpq
            rw [hplanek p q]
            exact hnb m (List.mem_cons_self m l) p q hpq
          rw [gridTotal, gridTotal]
          refine Finset.sum_congr rfl (fun i _ => Finset.sum_congr rfl (fun j _ => ?_))
          exact hplanek i j
        · have : gridTotal (fun p q =>
              (latent_diffusion_stage sim grids x k).latent_midge_density p q m)
              = gridTotal (fun p q => x.latent_midge_density p q m) := by
            rw [gridTotal, gridTotal]
            refine Finset.sum_congr rfl (fun i _ => Finset.sum_congr rfl (fun j _ => ?_))
            rw [latent_diffusion_stage_latent, if_neg hmk]
          rw [this]
          exact hxtot m

/-- C6: for a single diffusion sub-step in which no cell within one cell of
the grid boundary has density above the `1e-5` activity threshold (in any
field) and the scratch grid starts clean, the total mass of each field over
all cells is preserved: each active source deposits `−2·flux` to itself and
`+0.5·flux` to each of its four orthogonal neighbours, all of which lie in
the summed region, so the deposits cancel. -/
theorem C6_mass_conserved (sim : SimulationParams) (epi : EpiParams)
    (grids : GridParams) (s : SimulationState)
    (hsc : ∀ p q, s.diffusion_soln_grid p q = 0)
    (hlat : ∀ k, k < epi.num_eip_stages →
      ∀ p q, nearBoundary p q → s.latent_midge_density p q k ≤ 1e-5)
    (hinf : ∀ p q, nearBoundary p q → s.inf_midge_density p q ≤ 1e-5) :
    (∀ k, k < epi.num_eip_stages →
      gridTotal (fun p q =>
          (midge_diffusion_step sim epi grids s).latent_midge_density p q k)
        = gridTotal (fun p q => s.latent_midge_density p q k))
    ∧ gridTotal (midge_diffusion_step sim epi grids s).inf_midge_density
        = gridTotal s.inf_midge_density := by
  obtain ⟨ysc, ydg, yinf, ytot⟩ := stage_fold_props sim grids s
    (List.range epi.num_eip_stages) (List.nodup_range _)
    (fun k hk => hlat k (List.mem_range.mp hk)) s
    (fun p q _ => hsc p q) rfl rfl (fun m _ p q => rfl) (fun m => rfl)
  have hstep : midge_diffusion_step sim epi grids s
      = inf_diffusion_pass sim grids
          ((List.range epi.num_eip_stages).foldl (latent_diffusion_stage sim grids) s) := rfl
  constructor
  · intro k _
    rw [hstep]
    have : (inf_diffusion_pass sim grids
        ((List.range epi.num_eip_stages).foldl (latent_diffusion_stage sim grids) s)
        ).latent_midge_density
        = ((List.range epi.num_eip_stages).foldl
            (latent_diffusion_stage sim grids) s).latent_midge_density :=
      inf_diffusion_pass_latent _ _ _
    rw [this]
    exact ytot k
  · rw [hstep, inf_diffusion_pass_inf, yinf, ydg]
    exact pass_total s.inf_midge_density s.diffusion_grid sim.dt
      (grids.midge_grid_width * grids.midge_grid_width) _ ysc hinf

/-- Witness for C6 at the all-zero state (every hypothesis holds there). -/
theorem C6_mass_conserved_witness :
    gridTotal (midge_diffusion_step sim0 epi0 grids0 state0).inf_midge_density
      = gridTotal state0.inf_midge_density :=
  (C6_mass_conserved sim0 epi0 grids0 state0 (fun _ _ => rfl)
    (fun _ _ p q _ => by norm_num [state0])
    (fun p q _ => by norm_num [state0])).2

/-! ## C3: a movement draw can push a compartment negative -/

/-- The RNG outcome exhibiting the C3 failure: every uniform is `1/2` except
the stage-selection draw (position 4), which is exactly `0` — a value inside
`gsl_rng_uniform`'s documented `[0,1)` support; all integer draws are `0`
(inside every discrete distribution's support). -/
def rngC3 : Rng where
  ints := fun _ => 0
  reals := fun n => if n = 4 then 0 else 1 / 2

/-- Source farm: one infected cow in stage 1, stage 0 empty. -/
def farmC3 : Farm := { farm0 with i_cattle := fun m => if m = 1 then 1 else 0 }

/-- Two farms, one movement link of risk 1 from farm 0 to farm 1. -/
def stateC3 : SimulationState :=
  { state0 with
      num_farms := 2
      num_movement_links := 1
      movement_from := fun _ => 0
      movement_to := fun _ => 1
      movement_risk := fun _ => 1
      farms := fun m => if m = 0 then farmC3 else farm0 }

/-- Two cattle Erlang stages. -/
def epiC3 : EpiParams := { epi0 with num_inf_stages_cattle := 2 }

/-- C3: every compartment of `stateC3` is nonnegative (indeed integral), yet
one `movement_transmission` call drives `i_cattle[0]` of the source farm to
`−1`: the stage-selection scan `cum >= sel` accepts the empty stage 0 when
the selection uniform draws exactly `0`, and the code decrements that stage
by a whole animal. -/
theorem C3_negative_compartment :
    (∀ m k, 0 ≤ (stateC3.farms m).i_cattle k)
    ∧ (∀ m k, 0 ≤ (stateC3.farms m).i_sheep k)
    ∧ ((movement_transmission epiC3 mov0 ctrl0 rngC3 stateC3 0).1.farms 0).i_cattle 0
        = -1 := by
  refine ⟨?_, ?_, ?_⟩
  · intro m k
    by_cases hm : m = 0 <;> simp [stateC3, state0, farm0, farmC3, hm] <;> split <;> norm_num
  · intro m k
    by_cases hm : m = 0 <;> simp [stateC3, state0, farm0, farmC3, hm]
  · have hf0 : stateC3.farms 0 = farmC3 := rfl
    have hic00 : farmC3.i_cattle 0 = 0 := by norm_num [farmC3, farm0]
    have h_u0 : gsl_rng_uniform rngC3 0 = (1 / 2, 1) := by norm_num [gsl_rng_uniform, rngC3]
    have h_u1 : gsl_rng_uniform rngC3 1 = (1 / 2, 2) := by norm_num [gsl_rng_uniform, rngC3]
    have h_nb : gsl_ran_negative_binomial rngC3 mov0.cattle_shipment_size_k
        mov0.cattle_shipment_size_p 2 = (0, 3) := rfl
    have h_u3 : gsl_rng_uniform rngC3 3 = (1 / 2, 4) := by norm_num [gsl_rng_uniform, rngC3]
    have h_u4 : gsl_rng_uniform rngC3 4 = (0, 5) := by norm_num [gsl_rng_uniform, rngC3]
    have hstages : epiC3.num_inf_stages_cattle = 2 := rfl
    have hts : num_sheep farmC3 epiC3.num_inf_stages_sheep = 0 := by
      norm_num [num_sheep, num_inf_sheep, farmC3, farm0, epiC3, epi0]
    have htc : num_cattle farmC3 2 = 1 := by
      norm_num [num_cattle, num_inf_cattle, farmC3, farm0, Finset.sum_range_succ]
    have hicn : num_inf_cattle farmC3 2 = 1 := by
      norm_num [num_inf_cattle, farmC3, farm0, Finset.sum_range_succ]
    have hpick : pickStage farmC3.i_cattle 2 0 = some 0 := by
      rw [pickStage, show List.range 2 = [0, 1] from rfl]
      refine List.find?_cons_of_pos _ ?_
      norm_num [sumUpto, hic00]
    have h1 : List.range stateC3.num_movement_links = [0] := rfl
    rw [movement_transmission, h1]
    simp only [List.foldl_cons, List.foldl_nil]
    rw [transmission_via_movement]
    rw [if_neg (by norm_num [gsl_rng_uniform, rngC3, stateC3, state0] :
      ¬((gsl_rng_uniform rngC3 0).1 > stateC3.movement_risk 0))]
    rw [show stateC3.movement_from 0 = 0 from rfl, show stateC3.movement_to 0 = 1 from rfl]
    rw [hf0, show stateC3.farms 1 = farm0 from rfl]
    rw [if_neg (by norm_num [farmC3, farm0] :
      ¬((farmC3.movement_banned || farm0.movement_banned
          || (farmC3.protection_zone && !farm0.protection_zone)
          || (farmC3.surveillance_zone && farm0.free_area)) = true))]
    norm_num [h_u0, h_u1, h_nb, h_u3, h_u4, hstages, hts, htc, hicn, hpick, hf0, hic00,
      c_int, int_min, List.foldl_cons, List.foldl_nil, List.range_succ, List.range_zero,
      Int.toNat_one, zero_mul, mul_one,
      modifyFarm_farms_eq, modifyFarm_farms_ne]

/-! ## C7: with `no_control` set, no farm ever gains a control flag -/

/-- The three control flags whose absence C7 asserts: `movement_banned`,
`protection_zone`, `surveillance_zone`. -/
def triFlags (f : Farm) : Bool × Bool × Bool :=
  (f.movement_banned, f.protection_zone, f.surveillance_zone)

/-- Projection of an explicit `SimulationState` literal onto its farms: lets
rewriting see through the counter-update record wrappers. -/
theorem farms_mk (a1 a2 : ℕ) (F : ℕ → Farm) (a4 : ℕ)
    (g1 : ℕ → ℕ → ℕ → ℚ) (g2 g3 g4 g5 : ℕ → ℕ → ℚ)
    (g6 g7 : ℕ → ℕ → ℕ → ℚ) (g8 : ℕ → ℕ → ℚ)
    (a5 : ℕ) (m1 m2 : ℕ → ℕ) (m3 : ℕ → ℚ)
    (c1 c2 c3 c4 c5 c6 c7 c8 c9 c10 : ℤ)
    (b1 : Bool) (a6 : ℕ) (b2 b3 : Bool) :
    (SimulationState.mk a1 a2 F a4 g1 g2 g3 g4 g5 g6 g7 g8 a5 m1 m2 m3
      c1 c2 c3 c4 c5 c6 c7 c8 c9 c10 b1 a6 b2 b3).farms = F := rfl

/-- `modifyFarm` with a flag-preserving update preserves every farm's flags. -/
theorem modifyFarm_triFlags (s : SimulationState) (k : ℕ) (u : Farm → Farm) (j : ℕ)
    (hu : ∀ f, ((u f).movement_banned, (u f).protection_zone, (u f).surveillance_zone)
        = (f.movement_banned, f.protection_zone, f.surveillance_zone)) :
    triFlags ((modifyFarm s k u).farms j) = triFlags (s.farms j) := by
  by_cases hj : j = k
  · subst hj; rw [modifyFarm_farms_eq]; rw [triFlags, triFlags]; exact hu _
  · rw [modifyFarm_farms_ne _ _ _ _ hj]

/-- With `no_control` set, a detection trigger changes no farm's three
control flags (it only sets `detected` and the daily counter). -/
theorem detection_trigger_triFlags (ctrl : ControlParams) (k : ℕ)
    (s : SimulationState) (hnc : ctrl.no_control = true) (j : ℕ) :
    triFlags ((detection_trigger ctrl k s).farms j) = triFlags (s.farms j) := by
  simp only [detection_trigger, hnc, farms_mk]
  rw [if_neg (by simp : ¬(true = false))]
  exact modifyFarm_triFlags s k (fun f => { f with detected := true }) j (fun f => rfl)

/-- One sheep stage step preserves the three control flags. -/
theorem sheep_stage_step_triFlags (epi : EpiParams) (ctrl : ControlParams) (g : Rng)
    (k : ℕ) (st : SimulationState × ℕ) (n : ℕ) (hnc : ctrl.no_control = true) (j : ℕ) :
    triFlags ((sheep_stage_step epi ctrl g k st n).1.farms j) = triFlags (st.1.farms j) := by
  simp only [sheep_stage_step, farms_mk]
  split
  · refine Eq.trans (modifyFarm_triFlags _ k _ j ?_) ?_
    · intro ff; rfl
    refine Eq.trans (detection_trigger_triFlags ctrl k _ hnc j) ?_
    refine modifyFarm_triFlags _ k _ j ?_
    intro ff; rfl
  · refine Eq.trans (modifyFarm_triFlags _ k _ j ?_) ?_
    · intro ff; rfl
    refine modifyFarm_triFlags _ k _ j ?_
    intro ff; rfl

/-- One sheep sub-day iteration preserves the three control flags. -/
theorem sheep_substep_triFlags (epi : EpiParams) (ctrl : ControlParams) (g : Rng)
    (k : ℕ) (st : SimulationState × ℕ) (hnc : ctrl.no_control = true) (j : ℕ) :
    triFlags ((sheep_substep epi ctrl g k st).1.farms j) = triFlags (st.1.farms j) := by
  simp only [sheep_substep, farms_mk]
  refine foldl_induction _
    (fun x : SimulationState × ℕ => triFlags (x.1.farms j) = triFlags (st.1.farms j)) _ _ ?_ ?_
  · simp only [farms_mk]
    split
    · refine Eq.trans (modifyFarm_triFlags _ k _ j ?_) ?_
      · intro ff; rfl
      refine Eq.trans (detection_trigger_triFlags ctrl k _ hnc j) ?_
      refine modifyFarm_triFlags _ k _ j ?_
      intro ff; rfl
    · refine Eq.trans (modifyFarm_triFlags _ k _ j ?_) ?_
      · intro ff; rfl
      refine modifyFarm_triFlags _ k _ j ?_
      intro ff; rfl
  · intro x a _ hx
    exact (sheep_stage_step_triFlags epi ctrl g k x a hnc j).trans hx

/-- One cattle stage step preserves the three control flags. -/
theorem cattle_stage_step_triFlags (epi : EpiParams) (g : Rng)
    (k : ℕ) (st : SimulationState × ℕ) (n : ℕ) (j : ℕ) :
    triFlags ((cattle_stage_step epi g k st n).1.farms j) = triFlags (st.1.farms j) := by
  simp only [cattle_stage_step, farms_mk]
  refine modifyFarm_triFlags _ k _ j ?_
  intro ff; rfl

/-- One cattle sub-day iteration preserves the three control flags. -/
theorem cattle_substep_triFlags (epi : EpiParams) (g : Rng)
    (k : ℕ) (st : SimulationState × ℕ) (j : ℕ) :
    triFlags ((cattle_substep epi g k st).1.farms j) = triFlags (st.1.farms j) := by
  simp only [cattle_substep, farms_mk]
  refine foldl_induction _
    (fun x : SimulationState × ℕ => triFlags (x.1.farms j) = triFlags (st.1.farms j)) _ _ ?_ ?_
  · simp only [farms_mk]
    refine modifyFarm_triFlags _ k _ j ?_
    intro ff; rfl
  · intro x a _ hx
    exact (cattle_stage_step_triFlags epi g k x a j).trans hx

/-- Passive detection preserves the three control flags when `no_control`
is set. -/
theorem passive_detection_triFlags (M : MathFns) (epi : EpiParams)
    (ctrl : ControlParams) (g : Rng) (k : ℕ) (st : SimulationState × ℕ)
    (hnc : ctrl.no_control = true) (j : ℕ) :
    triFlags ((passive_detection M epi ctrl g k st).1.farms j) = triFlags (st.1.farms j) := by
  simp only [passive_detection, farms_mk]
  split
  · split
    · split
      · exact detection_trigger_triFlags ctrl k _ hnc j
      · rfl
    · rfl
  · rfl

/-- `farm_deaths_and_recoveries` preserves the three control flags when
`no_control` is set. -/
theorem farm_deaths_triFlags (M : MathFns) (k : ℕ) (epi : EpiParams)
    (ctrl : ControlParams) (g : Rng) (s : SimulationState) (t : ℕ)
    (hnc : ctrl.no_control = true) (j : ℕ) :
    triFlags ((farm_deaths_and_recoveries M k epi ctrl g s t).1.farms j)
      = triFlags (s.farms j) := by
  have hc : ∀ st : SimulationState × ℕ,
      triFlags (((List.range 10).foldl (fun st _ => cattle_substep epi g k st) st).1.farms j)
        = triFlags (st.1.farms j) := by
    intro st
    refine foldl_induction _
      (fun x : SimulationState × ℕ => triFlags (x.1.farms j) = triFlags (st.1.farms j)) _ _ rfl ?_
    intro x a _ hx
    exact (cattle_substep_triFlags epi g k x j).trans hx
  have hs : ∀ st : SimulationState × ℕ,
      triFlags (((List.range 10).foldl (fun st _ => sheep_substep epi ctrl g k st) st).1.farms j)
        = triFlags (st.1.farms j) := by
    intro st
    refine foldl_induction _
      (fun x : SimulationState × ℕ => triFlags (x.1.farms j) = triFlags (st.1.farms j)) _ _ rfl ?_
    intro x a _ hx
    exact (sheep_substep_triFlags epi ctrl g k x hnc j).trans hx
  simp only [farm_deaths_and_recoveries, farms_mk]
  refine Eq.trans (passive_detection_triFlags M epi ctrl g k _ hnc j) ?_
  split <;> split
  · exact Eq.trans (hc _) (hs _)
  · exact hs _
  · exact Eq.trans (hc _) rfl
  · rfl

/-- `farm_get_weather` preserves the three control flags. -/
theorem farm_get_weather_triFlags (k : ℕ) (g : Rng) (s : SimulationState) (t : ℕ)
    (j : ℕ) :
    triFlags ((farm_get_weather k g s t).1.farms j) = triFlags (s.farms j) := by
  simp only [farm_get_weather, gsl_ran_gaussian, farms_mk]
  refine modifyFarm_triFlags _ k _ j ?_
  intro ff; rfl

/-- `farm_transmission_midges_to_hosts` preserves the three control flags. -/
theorem m2h_triFlags (M : MathFns) (species : VectorSpecies) (k : ℕ)
    (epi : EpiParams) (g : Rng) (s : SimulationState) (t : ℕ) (j : ℕ) :
    triFlags ((farm_transmission_midges_to_hosts M species k epi g s t).1.farms j)
      = triFlags (s.farms j) := by
  rw [farm_transmission_midges_to_hosts]
  lift_lets
  intro pbs pbc pis pic r1 ra A ta r2 rb B tb sA sB sC sD
  split
  · try simp only [farms_mk]
    refine modifyFarm_triFlags _ k _ j ?_
    intro ff; rfl
  · unfold_let sD sC sB sA
    simp only [farms_mk]
    refine Eq.trans (modifyFarm_triFlags _ k _ j ?_) ?_
    · intro ff; rfl
    try simp only [farms_mk]
    refine Eq.trans (modifyFarm_triFlags _ k _ j ?_) ?_
    · intro ff; rfl
    try simp only [farms_mk]
    refine modifyFarm_triFlags _ k _ j ?_
    intro ff; rfl

/-- `farm_transmission_hosts_to_midges` does not touch the farms at all. -/
theorem h2m_farms (M : MathFns) (k : ℕ) (epi : EpiParams) (s : SimulationState) :
    (farm_transmission_hosts_to_midges M k epi s).farms = s.farms := by
  rw [farm_transmission_hosts_to_midges]
  split <;> rfl

/-- One movement edge preserves the three control flags of every farm. -/
theorem transmission_via_movement_triFlags (epi : EpiParams) (mov : MovementParams)
    (ctrl : ControlParams) (g : Rng) (fid tid : ℕ) (risk : ℚ)
    (s : SimulationState) (t : ℕ) (j : ℕ) :
    triFlags ((transmission_via_movement epi mov ctrl g fid tid risk s t).1.farms j)
      = triFlags (s.farms j) := by
  rw [transmission_via_movement]
  lift_lets
  intro src dst intr sb1 sb2 ts tc u2 t4 cm d1 t3 sz1 ic acc1 sc1 tc1 mv1 d0 t0 sz0 isf acc0 ss0 ts0 mvS
  split
  · rfl
  split
  · unfold_let sb2 sb1
    split <;> rfl
  split
  · rfl
  split
  · unfold_let sc1 acc1
    split <;>
      (try simp only [farms_mk]) <;>
      refine foldl_induction _
          (fun x : SimulationState × ℕ × ℚ × ℤ =>
            triFlags (x.1.farms j) = triFlags (s.farms j)) _ _ rfl ?_ <;>
        (intro x a _ hx
         split
         · split
           · try simp only [farms_mk]
             refine Eq.trans ?_ hx
             refine Eq.trans (modifyFarm_triFlags _ tid _ j ?_) ?_
             · intro ff; rfl
             refine modifyFarm_triFlags _ fid _ j ?_
             intro ff; rfl
           · exact hx
         · exact hx)
  · unfold_let ss0 acc0
    split <;>
      (try simp only [farms_mk]) <;>
      refine foldl_induction _
          (fun x : SimulationState × ℕ × ℚ × ℤ =>
            triFlags (x.1.farms j) = triFlags (s.farms j)) _ _ rfl ?_ <;>
        (intro x a _ hx
         split
         · split
           · try simp only [farms_mk]
             refine Eq.trans ?_ hx
             refine Eq.trans (modifyFarm_triFlags _ tid _ j ?_) ?_
             · intro ff; rfl
             refine modifyFarm_triFlags _ fid _ j ?_
             intro ff; rfl
           · exact hx
         · exact hx)

/-- `movement_transmission` preserves the three control flags of every farm. -/
theorem movement_transmission_triFlags (epi : EpiParams) (mov : MovementParams)
    (ctrl : ControlParams) (g : Rng) (s : SimulationState) (t : ℕ) (j : ℕ) :
    triFlags ((movement_transmission epi mov ctrl g s t).1.farms j)
      = triFlags (s.farms j) := by
  rw [movement_transmission]
  refine foldl_induction _
    (fun x : SimulationState × ℕ => triFlags (x.1.farms j) = triFlags (s.farms j)) _ _ rfl ?_
  intro x a _ hx
  exact (transmission_via_movement_triFlags epi mov ctrl g _ _ _ x.1 x.2 j).trans hx

/-- `midge_mortality_and_incubation` does not touch the farms. -/
theorem midge_mortality_farms (M : MathFns) (species : VectorSpecies)
    (epi : EpiParams) (grids : GridParams) (s : SimulationState) :
    (midge_mortality_and_incubation M species epi grids s).farms = s.farms := by
  rw [midge_mortality_and_incubation]
  refine foldl_induction _ (fun x : SimulationState => x.farms = s.farms) _ _ rfl ?_
  intro x i _ hx
  refine foldl_induction _ (fun y : SimulationState => y.farms = s.farms) _ _ hx ?_
  intro y jj _ hy
  exact hy

/-- A latent diffusion stage does not touch the farms. -/
theorem latent_diffusion_stage_farms (sim : SimulationParams) (grids : GridParams)
    (s : SimulationState) (k : ℕ) :
    (latent_diffusion_stage sim grids s k).farms = s.farms := rfl

/-- The infectious diffusion pass does not touch the farms. -/
theorem inf_diffusion_pass_farms (sim : SimulationParams) (grids : GridParams)
    (s : SimulationState) :
    (inf_diffusion_pass sim grids s).farms = s.farms := rfl

/-- A diffusion sub-step does not touch the farms. -/
theorem midge_diffusion_step_farms (sim : SimulationParams) (epi : EpiParams)
    (grids : GridParams) (s : SimulationState) :
    (midge_diffusion_step sim epi grids s).farms = s.farms := by
  rw [midge_diffusion_step, inf_diffusion_pass_farms]
  refine foldl_induction _ (fun x : SimulationState => x.farms = s.farms) _ _ rfl ?_
  intro x k _ hx
  rw [latent_diffusion_stage_farms]; exact hx

/-- A whole day of diffusion does not touch the farms. -/
theorem midge_diffusion_for_day_farms (sim : SimulationParams) (epi : EpiParams)
    (grids : GridParams) (s : SimulationState) :
    (midge_diffusion_for_day sim epi grids s).farms = s.farms := by
  rw [midge_diffusion_for_day]
  refine foldl_induction _ (fun x : SimulationState => x.farms = s.farms) _ _ rfl ?_
  intro x k _ hx
  rw [midge_diffusion_step_farms]; exact hx

/-- With `no_control` set the control phase is the identity. -/
theorem apply_control_measures_no_control (epi : EpiParams) (ctrl : ControlParams)
    (s : SimulationState) (hnc : ctrl.no_control = true) :
    apply_control_measures epi ctrl s = s := by
  rw [apply_control_measures, if_pos hnc]

/-- One simulated day preserves the three control flags when `no_control`
is set. -/
theorem simulate_day_triFlags (M : MathFns) (species : VectorSpecies)
    (sim : SimulationParams) (epi : EpiParams) (mov : MovementParams)
    (ctrl : ControlParams) (grids : GridParams) (g : Rng) (s : SimulationState)
    (t : ℕ) (hnc : ctrl.no_control = true) (j : ℕ) :
    triFlags ((simulate_day M species sim epi mov ctrl grids g s t).1.farms j)
      = triFlags (s.farms j) := by
  simp only [simulate_day, apply_control_measures_no_control _ _ _ hnc]
  refine foldl_induction _
    (fun x : SimulationState × ℕ => triFlags (x.1.farms j) = triFlags (s.farms j)) _ _ ?_ ?_
  · refine Eq.trans (movement_transmission_triFlags epi mov ctrl g _ t j) ?_
    rw [midge_diffusion_for_day_farms, midge_mortality_farms]
  · intro x k _ hx
    rw [h2m_farms]
    refine Eq.trans (m2h_triFlags M species k epi g _ _ j) ?_
    refine Eq.trans (farm_deaths_triFlags M k epi ctrl g _ _ hnc j) ?_
    exact (farm_get_weather_triFlags k g x.1 x.2 j).trans hx

/-- Iterated days preserve the three control flags when `no_control` is set. -/
theorem simulate_days_triFlags (M : MathFns) (species : VectorSpecies)
    (sim : SimulationParams) (epi : EpiParams) (mov : MovementParams)
    (ctrl : ControlParams) (grids : GridParams) (g : Rng)
    (hnc : ctrl.no_control = true) (j : ℕ) :
    ∀ (n : ℕ) (st : SimulationState × ℕ),
      triFlags ((simulate_days M species sim epi mov ctrl grids g n st).1.farms j)
        = triFlags (st.1.farms j)
  | 0, _ => rfl
  | n + 1, st => by
      rw [simulate_days]
      exact (simulate_days_triFlags M species sim epi mov ctrl grids g hnc j n _).trans
        (simulate_day_triFlags M species sim epi mov ctrl grids g st.1 st.2 hnc j)

/-- C7: if `no_control` is set, then starting from a state in which no farm
has `movement_banned`, `protection_zone` or `surveillance_zone`, no farm
gains any of the three flags over any number of simulated days, for every
RNG outcome. -/
theorem C7_no_control_no_flags (M : MathFns) (species : VectorSpecies)
    (sim : SimulationParams) (epi : EpiParams) (mov : MovementParams)
    (ctrl : ControlParams) (grids : GridParams) (g : Rng) (n : ℕ)
    (s : SimulationState) (t : ℕ) (hnc : ctrl.no_control = true)
    (h0 : ∀ k, (s.farms k).movement_banned = false
        ∧ (s.farms k).protection_zone = false
        ∧ (s.farms k).surveillance_zone = false) (k : ℕ) :
    ((simulate_days M species sim epi mov ctrl grids g n (s, t)).1.farms k).movement_banned = false
    ∧ ((simulate_days M species sim epi mov ctrl grids g n (s, t)).1.farms k).protection_zone = false
    ∧ ((simulate_days M species sim epi mov ctrl grids g n (s, t)).1.farms k).surveillance_zone = false := by
  have h := simulate_days_triFlags M species sim epi mov ctrl grids g hnc k n (s, t)
  have h0k := h0 k
  have hflags : triFlags (s.farms k) = (false, false, false) := by
    rw [triFlags, h0k.1, h0k.2.1, h0k.2.2]
  rw [show ((s, t) : SimulationState × ℕ).1 = s from rfl, hflags] at h
  exact ⟨congrArg (fun p => p.1) h, congrArg (fun p => p.2.1) h,
    congrArg (fun p => p.2.2) h⟩

/-- Witness for C7 at a concrete input: `no_control` set, the all-clear base
state, two simulated days. -/
theorem C7_no_control_no_flags_witness :
    ((simulate_days mathFns0 species0 sim0 epi0 mov0 ctrlNC grids0 rng0 2 (state0, 0)).1.farms 0).movement_banned = false
    ∧ ((simulate_days mathFns0 species0 sim0 epi0 mov0 ctrlNC grids0 rng0 2 (state0, 0)).1.farms 0).protection_zone = false
    ∧ ((simulate_days mathFns0 species0 sim0 epi0 mov0 ctrlNC grids0 rng0 2 (state0, 0)).1.farms 0).surveillance_zone = false :=
  C7_no_control_no_flags mathFns0 species0 sim0 epi0 mov0 ctrlNC grids0 rng0 2 state0 0
    rfl (fun _ => ⟨rfl, rfl, rfl⟩) 0

/-! ## C5: herd conservation bookkeeping -/

/-- Total sheep (`S + Σ I_k + R`) summed over the first `N` farms. -/
def herdS (epi : EpiParams) (N : ℕ) (s : SimulationState) : ℚ :=
  ∑ j in Finset.range N, num_sheep (s.farms j) epi.num_inf_stages_sheep

/-- Total cattle (`S + Σ I_k + R`) summed over the first `N` farms. -/
def herdC (epi : EpiParams) (N : ℕ) (s : SimulationState) : ℚ :=
  ∑ j in Finset.range N, num_cattle (s.farms j) epi.num_inf_stages_cattle

/-- The bookkeeping state fields the day-level conservation argument tracks
unchanged: the farm count and the movement arrays. -/
def stFrame (x : SimulationState) : ℕ × (ℕ → ℕ) × (ℕ → ℕ) :=
  (x.num_farms, x.movement_from, x.movement_to)

/-- The day-level conservation frame between two states: the farm count and
the movement arrays are unchanged, the sheep total plus the logged sheep
deaths is unchanged, and the cattle total is unchanged. -/
def dayFrame (epi : EpiParams) (N : ℕ) (s sp : SimulationState) : Prop :=
  stFrame sp = stFrame s
  ∧ herdS epi N sp + (sp.num_sheep_deaths : ℚ) = herdS epi N s + (s.num_sheep_deaths : ℚ)
  ∧ herdC epi N sp = herdC epi N s

theorem dayFrame_refl (epi : EpiParams) (N : ℕ) (s : SimulationState) :
    dayFrame epi N s s := ⟨rfl, rfl, rfl⟩

theorem dayFrame_trans {epi : EpiParams} {N : ℕ} {s1 s2 s3 : SimulationState}
    (h1 : dayFrame epi N s1 s2) (h2 : dayFrame epi N s2 s3) :
    dayFrame epi N s1 s3 :=
  ⟨h2.1.trans h1.1, h2.2.1.trans h1.2.1, h2.2.2.trans h1.2.2⟩

/-- A one-stage `±δ` edit inside a staged sum. -/
theorem sum_range_ite_add (a : ℕ → ℚ) (kk nst : ℕ) (h : kk < nst) (δ : ℚ) :
    (∑ i in Finset.range nst, if i = kk then a i + δ else a i)
      = (∑ i in Finset.range nst, a i) + δ := by
  have h2 : ∀ i ∈ Finset.range nst, (if i = kk then a i + δ else a i)
      = a i + (if i = kk then δ else 0) := by
    intro i _; split <;> simp
  rw [Finset.sum_congr rfl h2, Finset.sum_add_distrib, Finset.sum_ite_eq']
  rw [if_pos (Finset.mem_range.mpr h)]

/-- Removing `X` animals from cattle stage `kk`. -/
theorem num_cattle_stage_sub (f : Farm) (kk nst : ℕ) (h : kk < nst) (X : ℚ) :
    num_cattle { f with i_cattle := fun m =>
        if m = kk then f.i_cattle m - X else f.i_cattle m } nst
      = num_cattle f nst - X := by
  show f.s_cattle + (∑ i in Finset.range nst,
      if i = kk then f.i_cattle i - X else f.i_cattle i) + f.r_cattle
    = f.s_cattle + (∑ i in Finset.range nst, f.i_cattle i) + f.r_cattle - X
  have := sum_range_ite_add f.i_cattle kk nst h (-X)
  simp only [← sub_eq_add_neg] at this
  rw [this]; ring

/-- Adding `X` animals to cattle stage `kk`. -/
theorem num_cattle_stage_add (f : Farm) (kk nst : ℕ) (h : kk < nst) (X : ℚ) :
    num_cattle { f with i_cattle := fun m =>
        if m = kk then f.i_cattle m + X else f.i_cattle m } nst
      = num_cattle f nst + X := by
  show f.s_cattle + (∑ i in Finset.range nst,
      if i = kk then f.i_cattle i + X else f.i_cattle i) + f.r_cattle
    = f.s_cattle + (∑ i in Finset.range nst, f.i_cattle i) + f.r_cattle + X
  rw [sum_range_ite_add f.i_cattle kk nst h X]; ring

/-- Removing `X` sheep from stage `kk`. -/
theorem num_sheep_stage_sub (f : Farm) (kk nst : ℕ) (h : kk < nst) (X : ℚ) :
    num_sheep { f with i_sheep := fun m =>
        if m = kk then f.i_sheep m - X else f.i_sheep m } nst
      = num_sheep f nst - X := by
  show f.s_sheep + (∑ i in Finset.range nst,
      if i = kk then f.i_sheep i - X else f.i_sheep i) + f.r_sheep
    = f.s_sheep + (∑ i in Finset.range nst, f.i_sheep i) + f.r_sheep - X
  have := sum_range_ite_add f.i_sheep kk nst h (-X)
  simp only [← sub_eq_add_neg] at this
  rw [this]; ring

/-- Adding `X` sheep to stage `kk`. -/
theorem num_sheep_stage_add (f : Farm) (kk nst : ℕ) (h : kk < nst) (X : ℚ) :
    num_sheep { f with i_sheep := fun m =>
        if m = kk then f.i_sheep m + X else f.i_sheep m } nst
      = num_sheep f nst + X := by
  show f.s_sheep + (∑ i in Finset.range nst,
      if i = kk then f.i_sheep i + X else f.i_sheep i) + f.r_sheep
    = f.s_sheep + (∑ i in Finset.range nst, f.i_sheep i) + f.r_sheep + X
  rw [sum_range_ite_add f.i_sheep kk nst h X]; ring

/-- An Erlang progression (`stage n → n + 1`) keeps the cattle total. -/
theorem num_cattle_stage_move (f : Farm) (n nst : ℕ) (h : n + 1 < nst) (X : ℚ) :
    num_cattle { f with i_cattle := (fun m =>
        if m = n then f.i_cattle m - X
        else if m = n + 1 then f.i_cattle m + X
        else f.i_cattle m) } nst
      = num_cattle f nst := by
  show f.s_cattle + (∑ i in Finset.range nst,
      if i = n then f.i_cattle i - X else if i = n + 1 then f.i_cattle i + X
      else f.i_cattle i) + f.r_cattle
    = f.s_cattle + (∑ i in Finset.range nst, f.i_cattle i) + f.r_cattle
  have h2 : ∀ i ∈ Finset.range nst,
      (if i = n then f.i_cattle i - X else if i = n + 1 then f.i_cattle i + X
        else f.i_cattle i)
      = f.i_cattle i + ((if i = n then -X else 0) + (if i = n + 1 then X else 0)) := by
    intro i _
    by_cases h1 : i = n
    · subst h1; rw [if_pos rfl, if_pos rfl, if_neg (by omega)]; ring
    · rw [if_neg h1, if_neg h1]
      by_cases h3 : i = n + 1
      · subst h3; rw [if_pos rfl, if_pos rfl]; ring
      · rw [if_neg h3, if_neg h3]; ring
  rw [Finset.sum_congr rfl h2, Finset.sum_add_distrib, Finset.sum_add_distrib,
    Finset.sum_ite_eq', Finset.sum_ite_eq',
    if_pos (Finset.mem_range.mpr (by omega : n < nst)),
    if_pos (Finset.mem_range.mpr h)]
  ring

/-- An Erlang progression (`stage n → n + 1`) keeps the sheep total. -/
theorem num_sheep_stage_move (f : Farm) (n nst : ℕ) (h : n + 1 < nst) (X : ℚ) :
    num_sheep { f with i_sheep := (fun m =>
        if m = n then f.i_sheep m - X
        else if m = n + 1 then f.i_sheep m + X
        else f.i_sheep m) } nst
      = num_sheep f nst := by
  show f.s_sheep + (∑ i in Finset.range nst,
      if i = n then f.i_sheep i - X else if i = n + 1 then f.i_sheep i + X
      else f.i_sheep i) + f.r_sheep
    = f.s_sheep + (∑ i in Finset.range nst, f.i_sheep i) + f.r_sheep
  have h2 : ∀ i ∈ Finset.range nst,
      (if i = n then f.i_sheep i - X else if i = n + 1 then f.i_sheep i + X
        else f.i_sheep i)
      = f.i_sheep i + ((if i = n then -X else 0) + (if i = n + 1 then X else 0)) := by
    intro i _
    by_cases h1 : i = n
    · subst h1; rw [if_pos rfl, if_pos rfl, if_neg (by omega)]; ring
    · rw [if_neg h1, if_neg h1]
      by_cases h3 : i = n + 1
      · subst h3; rw [if_pos rfl, if_pos rfl]; ring
      · rw [if_neg h3, if_neg h3]; ring
  rw [Finset.sum_congr rfl h2, Finset.sum_add_distrib, Finset.sum_add_distrib,
    Finset.sum_ite_eq', Finset.sum_ite_eq',
    if_pos (Finset.mem_range.mpr (by omega : n < nst)),
    if_pos (Finset.mem_range.mpr h)]
  ring

/-- A recovery (`stage kk → R`) keeps the sheep total. -/
theorem num_sheep_recovery (f : Farm) (kk nst : ℕ) (h : kk < nst) (X : ℚ) :
    num_sheep { f with
        i_sheep := (fun m => if m = kk then f.i_sheep m - X else f.i_sheep m),
        r_sheep := f.r_sheep + X } nst
      = num_sheep f nst := by
  show f.s_sheep + (∑ i in Finset.range nst,
      if i = kk then f.i_sheep i - X else f.i_sheep i) + (f.r_sheep + X)
    = f.s_sheep + (∑ i in Finset.range nst, f.i_sheep i) + f.r_sheep
  have := sum_range_ite_add f.i_sheep kk nst h (-X)
  simp only [← sub_eq_add_neg] at this
  rw [this]; ring

/-- A recovery (`stage kk → R`) keeps the cattle total. -/
theorem num_cattle_recovery (f : Farm) (kk nst : ℕ) (h : kk < nst) (X : ℚ) :
    num_cattle { f with
        i_cattle := (fun m => if m = kk then f.i_cattle m - X else f.i_cattle m),
        r_cattle := f.r_cattle + X } nst
      = num_cattle f nst := by
  show f.s_cattle + (∑ i in Finset.range nst,
      if i = kk then f.i_cattle i - X else f.i_cattle i) + (f.r_cattle + X)
    = f.s_cattle + (∑ i in Finset.range nst, f.i_cattle i) + f.r_cattle
  have := sum_range_ite_add f.i_cattle kk nst h (-X)
  simp only [← sub_eq_add_neg] at this
  rw [this]; ring

/-- A new infection (`S → stage 0`) keeps the sheep total. -/
theorem num_sheep_infect (f : Farm) (nst : ℕ) (h : 0 < nst) (X : ℚ) :
    num_sheep { f with
        s_sheep := f.s_sheep - X,
        i_sheep := (fun m => if m = 0 then f.i_sheep m + X else f.i_sheep m) } nst
      = num_sheep f nst := by
  show (f.s_sheep - X) + (∑ i in Finset.range nst,
      if i = 0 then f.i_sheep i + X else f.i_sheep i) + f.r_sheep
    = f.s_sheep + (∑ i in Finset.range nst, f.i_sheep i) + f.r_sheep
  rw [sum_range_ite_add f.i_sheep 0 nst h X]; ring

/-- A new infection (`S → stage 0`) keeps the cattle total. -/
theorem num_cattle_infect (f : Farm) (nst : ℕ) (h : 0 < nst) (X : ℚ) :
    num_cattle { f with
        s_cattle := f.s_cattle - X,
        i_cattle := (fun m => if m = 0 then f.i_cattle m + X else f.i_cattle m) } nst
      = num_cattle f nst := by
  show (f.s_cattle - X) + (∑ i in Finset.range nst,
      if i = 0 then f.i_cattle i + X else f.i_cattle i) + f.r_cattle
    = f.s_cattle + (∑ i in Finset.range nst, f.i_cattle i) + f.r_cattle
  rw [sum_range_ite_add f.i_cattle 0 nst h X]; ring

/-- A stage picked by the `movement.c` scan is a real stage index. -/
theorem pickStage_lt (f : ℕ → ℚ) (nst : ℕ) (sel : ℚ) (kk : ℕ)
    (h : pickStage f nst sel = some kk) : kk < nst :=
  List.mem_range.mp (List.mem_of_find?_eq_some h)

/-- `herdS` only reads the farms. -/
theorem herdS_congr (epi : EpiParams) (N : ℕ) (s sp : SimulationState)
    (h : sp.farms = s.farms) : herdS epi N sp = herdS epi N s := by
  rw [herdS, herdS, h]

/-- `herdC` only reads the farms. -/
theorem herdC_congr (epi : EpiParams) (N : ℕ) (s sp : SimulationState)
    (h : sp.farms = s.farms) : herdC epi N sp = herdC epi N s := by
  rw [herdC, herdC, h]

/-- `herdS` through `modifyFarm` with a sheep-total-preserving update. -/
theorem herdS_modifyFarm (epi : EpiParams) (N : ℕ) (s : SimulationState)
    (k : ℕ) (u : Farm → Farm)
    (hu : num_sheep (u (s.farms k)) epi.num_inf_stages_sheep
        = num_sheep (s.farms k) epi.num_inf_stages_sheep) :
    herdS epi N (modifyFarm s k u) = herdS epi N s := by
  rw [herdS, herdS]
  refine Finset.sum_congr rfl ?_
  intro j _
  by_cases hj : j = k
  · subst hj; rw [modifyFarm_farms_eq, hu]
  · rw [modifyFarm_farms_ne _ _ _ _ hj]

/-- `herdC` through `modifyFarm` with a cattle-total-preserving update. -/
theorem herdC_modifyFarm (epi : EpiParams) (N : ℕ) (s : SimulationState)
    (k : ℕ) (u : Farm → Farm)
    (hu : num_cattle (u (s.farms k)) epi.num_inf_stages_cattle
        = num_cattle (s.farms k) epi.num_inf_stages_cattle) :
    herdC epi N (modifyFarm s k u) = herdC epi N s := by
  rw [herdC, herdC]
  refine Finset.sum_congr rfl ?_
  intro j _
  by_cases hj : j = k
  · subst hj; rw [modifyFarm_farms_eq, hu]
  · rw [modifyFarm_farms_ne _ _ _ _ hj]

/-- `herdS` through `modifyFarm` with a `±δ` sheep-total update. -/
theorem herdS_modifyFarm_delta (epi : EpiParams) (N : ℕ) (s : SimulationState)
    (k : ℕ) (u : Farm → Farm) (δ : ℚ) (hk : k < N)
    (hu : num_sheep (u (s.farms k)) epi.num_inf_stages_sheep
        = num_sheep (s.farms k) epi.num_inf_stages_sheep + δ) :
    herdS epi N (modifyFarm s k u) = herdS epi N s + δ := by
  rw [herdS, herdS]
  have h2 : ∀ j ∈ Finset.range N,
      num_sheep ((modifyFarm s k u).farms j) epi.num_inf_stages_sheep
        = num_sheep (s.farms j) epi.num_inf_stages_sheep + (if j = k then δ else 0) := by
    intro j _
    by_cases hj : j = k
    · subst hj; rw [modifyFarm_farms_eq, hu, if_pos rfl]
    · rw [modifyFarm_farms_ne _ _ _ _ hj, if_neg hj, add_zero]
  rw [Finset.sum_congr rfl h2, Finset.sum_add_distrib, Finset.sum_ite_eq',
    if_pos (Finset.mem_range.mpr hk)]

/-- `herdC` through `modifyFarm` with a `±δ` cattle-total update. -/
theorem herdC_modifyFarm_delta (epi : EpiParams) (N : ℕ) (s : SimulationState)
    (k : ℕ) (u : Farm → Farm) (δ : ℚ) (hk : k < N)
    (hu : num_cattle (u (s.farms k)) epi.num_inf_stages_cattle
        = num_cattle (s.farms k) epi.num_inf_stages_cattle + δ) :
    herdC epi N (modifyFarm s k u) = herdC epi N s + δ := by
  rw [herdC, herdC]
  have h2 : ∀ j ∈ Finset.range N,
      num_cattle ((modifyFarm s k u).farms j) epi.num_inf_stages_cattle
        = num_cattle (s.farms j) epi.num_inf_stages_cattle + (if j = k then δ else 0) := by
    intro j _
    by_cases hj : j = k
    · subst hj; rw [modifyFarm_farms_eq, hu, if_pos rfl]
    · rw [modifyFarm_farms_ne _ _ _ _ hj, if_neg hj, add_zero]
  rw [Finset.sum_congr rfl h2, Finset.sum_add_distrib, Finset.sum_ite_eq',
    if_pos (Finset.mem_range.mpr hk)]

/-! Shape-level herd rewrite lemmas (match the exact farm-update lambdas of
the source phases). -/

theorem herdS_sheep_move (epi : EpiParams) (N : ℕ) (s : SimulationState)
    (k n : ℕ) (X : ℚ) (hn : n + 1 < epi.num_inf_stages_sheep) :
    herdS epi N (modifyFarm s k (fun f =>
      { f with i_sheep := fun m =>
          if m = n then f.i_sheep m - X
          else if m = n + 1 then f.i_sheep m + X
          else f.i_sheep m }))
      = herdS epi N s :=
  herdS_modifyFarm epi N s k _
    (num_sheep_stage_move (s.farms k) n epi.num_inf_stages_sheep hn X)

theorem herdC_sheep_move (epi : EpiParams) (N : ℕ) (s : SimulationState)
    (k n : ℕ) (X : ℚ) :
    herdC epi N (modifyFarm s k (fun f =>
      { f with i_sheep := fun m =>
          if m = n then f.i_sheep m - X
          else if m = n + 1 then f.i_sheep m + X
          else f.i_sheep m }))
      = herdC epi N s :=
  herdC_modifyFarm epi N s k _ rfl

theorem herdS_sheep_sub (epi : EpiParams) (N : ℕ) (s : SimulationState)
    (k n : ℕ) (X : ℚ) (hn : n < epi.num_inf_stages_sheep) (hk : k < N) :
    herdS epi N (modifyFarm s k (fun f =>
      { f with i_sheep := fun m => if m = n then f.i_sheep m - X else f.i_sheep m }))
      = herdS epi N s - X := by
  rw [herdS_modifyFarm_delta epi N s k _ (-X) hk (by
    have := num_sheep_stage_sub (s.farms k) n epi.num_inf_stages_sheep hn X
    rw [this]; ring)]
  ring

theorem herdC_sheep_sub (epi : EpiParams) (N : ℕ) (s : SimulationState)
    (k n : ℕ) (X : ℚ) :
    herdC epi N (modifyFarm s k (fun f =>
      { f with i_sheep := fun m => if m = n then f.i_sheep m - X else f.i_sheep m }))
      = herdC epi N s :=
  herdC_modifyFarm epi N s k _ rfl

theorem herdS_sheep_recovery (epi : EpiParams) (N : ℕ) (s : SimulationState)
    (k n : ℕ) (X : ℚ) (hn : n < epi.num_inf_stages_sheep) :
    herdS epi N (modifyFarm s k (fun f =>
      { f with i_sheep := fun m => if m = n then f.i_sheep m - X else f.i_sheep m
               r_sheep := f.r_sheep + X }))
      = herdS epi N s :=
  herdS_modifyFarm epi N s k _
    (num_sheep_recovery (s.farms k) n epi.num_inf_stages_sheep hn X)

theorem herdC_sheep_recovery (epi : EpiParams) (N : ℕ) (s : SimulationState)
    (k n : ℕ) (X : ℚ) :
    herdC epi N (modifyFarm s k (fun f =>
      { f with i_sheep := fun m => if m = n then f.i_sheep m - X else f.i_sheep m
               r_sheep := f.r_sheep + X }))
      = herdC epi N s :=
  herdC_modifyFarm epi N s k _ rfl

theorem herdS_cattle_move (epi : EpiParams) (N : ℕ) (s : SimulationState)
    (k n : ℕ) (X : ℚ) :
    herdS epi N (modifyFarm s k (fun f =>
      { f with i_cattle := fun m =>
          if m = n then f.i_cattle m - X
          else if m = n + 1 then f.i_cattle m + X
          else f.i_cattle m }))
      = herdS epi N s :=
  herdS_modifyFarm epi N s k _ rfl

theorem herdC_cattle_move (epi : EpiParams) (N : ℕ) (s : SimulationState)
    (k n : ℕ) (X : ℚ) (hn : n + 1 < epi.num_inf_stages_cattle) :
    herdC epi N (modifyFarm s k (fun f =>
      { f with i_cattle := fun m =>
          if m = n then f.i_cattle m - X
          else if m = n + 1 then f.i_cattle m + X
          else f.i_cattle m }))
      = herdC epi N s :=
  herdC_modifyFarm epi N s k _
    (num_cattle_stage_move (s.farms k) n epi.num_inf_stages_cattle hn X)

theorem herdS_cattle_recovery (epi : EpiParams) (N : ℕ) (s : SimulationState)
    (k n : ℕ) (X : ℚ) :
    herdS epi N (modifyFarm s k (fun f =>
      { f with i_cattle := fun m => if m = n then f.i_cattle m - X else f.i_cattle m
               r_cattle := f.r_cattle + X }))
      = herdS epi N s :=
  herdS_modifyFarm epi N s k _ rfl

theorem herdC_cattle_recovery (epi : EpiParams) (N : ℕ) (s : SimulationState)
    (k n : ℕ) (X : ℚ) (hn : n < epi.num_inf_stages_cattle) :
    herdC epi N (modifyFarm s k (fun f =>
      { f with i_cattle := fun m => if m = n then f.i_cattle m - X else f.i_cattle m
               r_cattle := f.r_cattle + X }))
      = herdC epi N s :=
  herdC_modifyFarm epi N s k _
    (num_cattle_recovery (s.farms k) n epi.num_inf_stages_cattle hn X)

theorem herdS_cattle_dec1 (epi : EpiParams) (N : ℕ) (s : SimulationState)
    (k n : ℕ) :
    herdS epi N (modifyFarm s k (fun f =>
      { f with i_cattle := fun m => if m = n then f.i_cattle m - 1 else f.i_cattle m }))
      = herdS epi N s :=
  herdS_modifyFarm epi N s k _ rfl

theorem herdC_cattle_dec1 (epi : EpiParams) (N : ℕ) (s : SimulationState)
    (k n : ℕ) (hn : n < epi.num_inf_stages_cattle) (hk : k < N) :
    herdC epi N (modifyFarm s k (fun f =>
      { f with i_cattle := fun m => if m = n then f.i_cattle m - 1 else f.i_cattle m }))
      = herdC epi N s - 1 := by
  rw [herdC_modifyFarm_delta epi N s k _ (-1) hk (by
    have := num_cattle_stage_sub (s.farms k) n epi.num_inf_stages_cattle hn 1
    rw [this]; ring)]
  ring

theorem herdS_cattle_inc1 (epi : EpiParams) (N : ℕ) (s : SimulationState)
    (k n : ℕ) :
    herdS epi N (modifyFarm s k (fun f =>
      { f with i_cattle := fun m => if m = n then f.i_cattle m + 1 else f.i_cattle m }))
      = herdS epi N s :=
  herdS_modifyFarm epi N s k _ rfl

theorem herdC_cattle_inc1 (epi : EpiParams) (N : ℕ) (s : SimulationState)
    (k n : ℕ) (hn : n < epi.num_inf_stages_cattle) (hk : k < N) :
    herdC epi N (modifyFarm s k (fun f =>
      { f with i_cattle := fun m => if m = n then f.i_cattle m + 1 else f.i_cattle m }))
      = herdC epi N s + 1 :=
  herdC_modifyFarm_delta epi N s k _ 1 hk
    (num_cattle_stage_add (s.farms k) n epi.num_inf_stages_cattle hn 1)

theorem herdS_sheep_dec1 (epi : EpiParams) (N : ℕ) (s : SimulationState)
    (k n : ℕ) (hn : n < epi.num_inf_stages_sheep) (hk : k < N) :
    herdS epi N (modifyFarm s k (fun f =>
      { f with i_sheep := fun m => if m = n then f.i_sheep m - 1 else f.i_sheep m }))
      = herdS epi N s - 1 := by
  rw [herdS_modifyFarm_delta epi N s k _ (-1) hk (by
    have := num_sheep_stage_sub (s.farms k) n epi.num_inf_stages_sheep hn 1
    rw [this]; ring)]
  ring

theorem herdC_sheep_dec1 (epi : EpiParams) (N : ℕ) (s : SimulationState)
    (k n : ℕ) :
    herdC epi N (modifyFarm s k (fun f =>
      { f with i_sheep := fun m => if m = n then f.i_sheep m - 1 else f.i_sheep m }))
      = herdC epi N s :=
  herdC_modifyFarm epi N s k _ rfl

theorem herdS_sheep_inc1 (epi : EpiParams) (N : ℕ) (s : SimulationState)
    (k n : ℕ) (hn : n < epi.num_inf_stages_sheep) (hk : k < N) :
    herdS epi N (modifyFarm s k (fun f =>
      { f with i_sheep := fun m => if m = n then f.i_sheep m + 1 else f.i_sheep m }))
      = herdS epi N s + 1 :=
  herdS_modifyFarm_delta epi N s k _ 1 hk
    (num_sheep_stage_add (s.farms k) n epi.num_inf_stages_sheep hn 1)

theorem herdC_sheep_inc1 (epi : EpiParams) (N : ℕ) (s : SimulationState)
    (k n : ℕ) :
    herdC epi N (modifyFarm s k (fun f =>
      { f with i_sheep := fun m => if m = n then f.i_sheep m + 1 else f.i_sheep m }))
      = herdC epi N s :=
  herdC_modifyFarm epi N s k _ rfl

theorem herdS_infect_sheep (epi : EpiParams) (N : ℕ) (s : SimulationState)
    (k : ℕ) (X : ℚ) (h : 0 < epi.num_inf_stages_sheep) :
    herdS epi N (modifyFarm s k (fun f =>
      { f with s_sheep := f.s_sheep - X
               i_sheep := fun m => if m = 0 then f.i_sheep m + X else f.i_sheep m }))
      = herdS epi N s :=
  herdS_modifyFarm epi N s k _
    (num_sheep_infect (s.farms k) epi.num_inf_stages_sheep h X)

theorem herdC_infect_sheep (epi : EpiParams) (N : ℕ) (s : SimulationState)
    (k : ℕ) (X : ℚ) :
    herdC epi N (modifyFarm s k (fun f =>
      { f with s_sheep := f.s_sheep - X
               i_sheep := fun m => if m = 0 then f.i_sheep m + X else f.i_sheep m }))
      = herdC epi N s :=
  herdC_modifyFarm epi N s k _ rfl

theorem herdS_infect_cattle (epi : EpiParams) (N : ℕ) (s : SimulationState)
    (k : ℕ) (X : ℚ) :
    herdS epi N (modifyFarm s k (fun f =>
      { f with s_cattle := f.s_cattle - X
               i_cattle := fun m => if m = 0 then f.i_cattle m + X else f.i_cattle m }))
      = herdS epi N s :=
  herdS_modifyFarm epi N s k _ rfl

theorem herdC_infect_cattle (epi : EpiParams) (N : ℕ) (s : SimulationState)
    (k : ℕ) (X : ℚ) (h : 0 < epi.num_inf_stages_cattle) :
    herdC epi N (modifyFarm s k (fun f =>
      { f with s_cattle := f.s_cattle - X
               i_cattle := fun m => if m = 0 then f.i_cattle m + X else f.i_cattle m }))
      = herdC epi N s :=
  herdC_modifyFarm epi N s k _
    (num_cattle_infect (s.farms k) epi.num_inf_stages_cattle h X)

/-! Record-wrapper projection lemmas: each daily-counter update leaves the
farms, the frame fields and the death counter unchanged. -/
theorem wrap_farms_num_farms_detected_today (X : SimulationState) (v : ℤ) :
    ({ X with num_farms_detected_today := v }).farms = X.farms := rfl

theorem wrap_st_num_farms_detected_today (X : SimulationState) (v : ℤ) :
    stFrame { X with num_farms_detected_today := v } = stFrame X := rfl

theorem wrap_deaths_num_farms_detected_today (X : SimulationState) (v : ℤ) :
    ({ X with num_farms_detected_today := v }).num_sheep_deaths = X.num_sheep_deaths := rfl

theorem wrap_herdS_num_farms_detected_today (epi : EpiParams) (N : ℕ) (X : SimulationState) (v : ℤ) :
    herdS epi N { X with num_farms_detected_today := v } = herdS epi N X := rfl

theorem wrap_herdC_num_farms_detected_today (epi : EpiParams) (N : ℕ) (X : SimulationState) (v : ℤ) :
    herdC epi N { X with num_farms_detected_today := v } = herdC epi N X := rfl

theorem wrap_farms_num_sheep_infected_today (X : SimulationState) (v : ℤ) :
    ({ X with num_sheep_infected_today := v }).farms = X.farms := rfl

theorem wrap_st_num_sheep_infected_today (X : SimulationState) (v : ℤ) :
    stFrame { X with num_sheep_infected_today := v } = stFrame X := rfl

theorem wrap_deaths_num_sheep_infected_today (X : SimulationState) (v : ℤ) :
    ({ X with num_sheep_infected_today := v }).num_sheep_deaths = X.num_sheep_deaths := rfl

theorem wrap_herdS_num_sheep_infected_today (epi : EpiParams) (N : ℕ) (X : SimulationState) (v : ℤ) :
    herdS epi N { X with num_sheep_infected_today := v } = herdS epi N X := rfl

theorem wrap_herdC_num_sheep_infected_today (epi : EpiParams) (N : ℕ) (X : SimulationState) (v : ℤ) :
    herdC epi N { X with num_sheep_infected_today := v } = herdC epi N X := rfl

theorem wrap_farms_num_cattle_infected_today (X : SimulationState) (v : ℤ) :
    ({ X with num_cattle_infected_today := v }).farms = X.farms := rfl

theorem wrap_st_num_cattle_infected_today (X : SimulationState) (v : ℤ) :
    stFrame { X with num_cattle_infected_today := v } = stFrame X := rfl

theorem wrap_deaths_num_cattle_infected_today (X : SimulationState) (v : ℤ) :
    ({ X with num_cattle_infected_today := v }).num_sheep_deaths = X.num_sheep_deaths := rfl

theorem wrap_herdS_num_cattle_infected_today (epi : EpiParams) (N : ℕ) (X : SimulationState) (v : ℤ) :
    herdS epi N { X with num_cattle_infected_today := v } = herdS epi N X := rfl

theorem wrap_herdC_num_cattle_infected_today (epi : EpiParams) (N : ℕ) (X : SimulationState) (v : ℤ) :
    herdC epi N { X with num_cattle_infected_today := v } = herdC epi N X := rfl

theorem wrap_farms_interrupted_movements (X : SimulationState) (v : ℤ) :
    ({ X with interrupted_movements := v }).farms = X.farms := rfl

theorem wrap_st_interrupted_movements (X : SimulationState) (v : ℤ) :
    stFrame { X with interrupted_movements := v } = stFrame X := rfl

theorem wrap_deaths_interrupted_movements (X : SimulationState) (v : ℤ) :
    ({ X with interrupted_movements := v }).num_sheep_deaths = X.num_sheep_deaths := rfl

theorem wrap_herdS_interrupted_movements (epi : EpiParams) (N : ℕ) (X : SimulationState) (v : ℤ) :
    herdS epi N { X with interrupted_movements := v } = herdS epi N X := rfl

theorem wrap_herdC_interrupted_movements (epi : EpiParams) (N : ℕ) (X : SimulationState) (v : ℤ) :
    herdC epi N { X with interrupted_movements := v } = herdC epi N X := rfl

theorem wrap_farms_num_risky_moves_blocked (X : SimulationState) (v : ℤ) :
    ({ X with num_risky_moves_blocked := v }).farms = X.farms := rfl

theorem wrap_st_num_risky_moves_blocked (X : SimulationState) (v : ℤ) :
    stFrame { X with num_risky_moves_blocked := v } = stFrame X := rfl

theorem wrap_deaths_num_risky_moves_blocked (X : SimulationState) (v : ℤ) :
    ({ X with num_risky_moves_blocked := v }).num_sheep_deaths = X.num_sheep_deaths := rfl

theorem wrap_herdS_num_risky_moves_blocked (epi : EpiParams) (N : ℕ) (X : SimulationState) (v : ℤ) :
    herdS epi N { X with num_risky_moves_blocked := v } = herdS epi N X := rfl

theorem wrap_herdC_num_risky_moves_blocked (epi : EpiParams) (N : ℕ) (X : SimulationState) (v : ℤ) :
    herdC epi N { X with num_risky_moves_blocked := v } = herdC epi N X := rfl

theorem wrap_farms_num_movement_transmissions (X : SimulationState) (v : ℤ) :
    ({ X with num_movement_transmissions := v }).farms = X.farms := rfl

theorem wrap_st_num_movement_transmissions (X : SimulationState) (v : ℤ) :
    stFrame { X with num_movement_transmissions := v } = stFrame X := rfl

theorem wrap_deaths_num_movement_transmissions (X : SimulationState) (v : ℤ) :
    ({ X with num_movement_transmissions := v }).num_sheep_deaths = X.num_sheep_deaths := rfl

theorem wrap_herdS_num_movement_transmissions (epi : EpiParams) (N : ℕ) (X : SimulationState) (v : ℤ) :
    herdS epi N { X with num_movement_transmissions := v } = herdS epi N X := rfl

theorem wrap_herdC_num_movement_transmissions (epi : EpiParams) (N : ℕ) (X : SimulationState) (v : ℤ) :
    herdC epi N { X with num_movement_transmissions := v } = herdC epi N X := rfl

theorem wrap_farms_num_farms_checked (X : SimulationState) (v : ℤ) :
    ({ X with num_farms_checked := v }).farms = X.farms := rfl

theorem wrap_st_num_farms_checked (X : SimulationState) (v : ℤ) :
    stFrame { X with num_farms_checked := v } = stFrame X := rfl

theorem wrap_deaths_num_farms_checked (X : SimulationState) (v : ℤ) :
    ({ X with num_farms_checked := v }).num_sheep_deaths = X.num_sheep_deaths := rfl

theorem wrap_herdS_num_farms_checked (epi : EpiParams) (N : ℕ) (X : SimulationState) (v : ℤ) :
    herdS epi N { X with num_farms_checked := v } = herdS epi N X := rfl

theorem wrap_herdC_num_farms_checked (epi : EpiParams) (N : ℕ) (X : SimulationState) (v : ℤ) :
    herdC epi N { X with num_farms_checked := v } = herdC epi N X := rfl

theorem wrap_farms_num_tests (X : SimulationState) (v : ℤ) :
    ({ X with num_tests := v }).farms = X.farms := rfl

theorem wrap_st_num_tests (X : SimulationState) (v : ℤ) :
    stFrame { X with num_tests := v } = stFrame X := rfl

theorem wrap_deaths_num_tests (X : SimulationState) (v : ℤ) :
    ({ X with num_tests := v }).num_sheep_deaths = X.num_sheep_deaths := rfl

theorem wrap_herdS_num_tests (epi : EpiParams) (N : ℕ) (X : SimulationState) (v : ℤ) :
    herdS epi N { X with num_tests := v } = herdS epi N X := rfl

theorem wrap_herdC_num_tests (epi : EpiParams) (N : ℕ) (X : SimulationState) (v : ℤ) :
    herdC epi N { X with num_tests := v } = herdC epi N X := rfl

theorem wrap_farms_num_pos_tests (X : SimulationState) (v : ℤ) :
    ({ X with num_pos_tests := v }).farms = X.farms := rfl

theorem wrap_st_num_pos_tests (X : SimulationState) (v : ℤ) :
    stFrame { X with num_pos_tests := v } = stFrame X := rfl

theorem wrap_deaths_num_pos_tests (X : SimulationState) (v : ℤ) :
    ({ X with num_pos_tests := v }).num_sheep_deaths = X.num_sheep_deaths := rfl

theorem wrap_herdS_num_pos_tests (epi : EpiParams) (N : ℕ) (X : SimulationState) (v : ℤ) :
    herdS epi N { X with num_pos_tests := v } = herdS epi N X := rfl

theorem wrap_herdC_num_pos_tests (epi : EpiParams) (N : ℕ) (X : SimulationState) (v : ℤ) :
    herdC epi N { X with num_pos_tests := v } = herdC epi N X := rfl

theorem wrap_farms_num_sheep_deaths (X : SimulationState) (v : ℤ) :
    ({ X with num_sheep_deaths := v }).farms = X.farms := rfl

theorem wrap_st_num_sheep_deaths (X : SimulationState) (v : ℤ) :
    stFrame { X with num_sheep_deaths := v } = stFrame X := rfl

theorem wrap_deaths_num_sheep_deaths (X : SimulationState) (v : ℤ) :
    ({ X with num_sheep_deaths := v }).num_sheep_deaths = v := rfl

theorem wrap_herdS_num_sheep_deaths (epi : EpiParams) (N : ℕ) (X : SimulationState) (v : ℤ) :
    herdS epi N { X with num_sheep_deaths := v } = herdS epi N X := rfl

theorem wrap_herdC_num_sheep_deaths (epi : EpiParams) (N : ℕ) (X : SimulationState) (v : ℤ) :
    herdC epi N { X with num_sheep_deaths := v } = herdC epi N X := rfl

theorem wrap_farms_btv (X : SimulationState) (b : Bool) (i : ℕ) :
    ({ X with btv_observed := b, first_detected_farm_id := i }).farms = X.farms := rfl

theorem wrap_st_btv (X : SimulationState) (b : Bool) (i : ℕ) :
    stFrame { X with btv_observed := b, first_detected_farm_id := i } = stFrame X := rfl

theorem wrap_deaths_btv (X : SimulationState) (b : Bool) (i : ℕ) :
    ({ X with btv_observed := b, first_detected_farm_id := i }).num_sheep_deaths
      = X.num_sheep_deaths := rfl

theorem wrap_herdS_btv (epi : EpiParams) (N : ℕ) (X : SimulationState) (b : Bool) (i : ℕ) :
    herdS epi N { X with btv_observed := b, first_detected_farm_id := i } = herdS epi N X := rfl

theorem wrap_herdC_btv (epi : EpiParams) (N : ℕ) (X : SimulationState) (b : Bool) (i : ℕ) :
    herdC epi N { X with btv_observed := b, first_detected_farm_id := i } = herdC epi N X := rfl

theorem wrap_farms_restriction_zones_implemented (X : SimulationState) (b : Bool) :
    ({ X with restriction_zones_implemented := b }).farms = X.farms := rfl

theorem wrap_st_restriction_zones_implemented (X : SimulationState) (b : Bool) :
    stFrame { X with restriction_zones_implemented := b } = stFrame X := rfl

theorem wrap_deaths_restriction_zones_implemented (X : SimulationState) (b : Bool) :
    ({ X with restriction_zones_implemented := b }).num_sheep_deaths = X.num_sheep_deaths := rfl

theorem wrap_herdS_restriction_zones_implemented (epi : EpiParams) (N : ℕ) (X : SimulationState) (b : Bool) :
    herdS epi N { X with restriction_zones_implemented := b } = herdS epi N X := rfl

theorem wrap_herdC_restriction_zones_implemented (epi : EpiParams) (N : ℕ) (X : SimulationState) (b : Bool) :
    herdC epi N { X with restriction_zones_implemented := b } = herdC epi N X := rfl

theorem wrap_farms_active_surveillance_performed (X : SimulationState) (b : Bool) :
    ({ X with active_surveillance_performed := b }).farms = X.farms := rfl

theorem wrap_st_active_surveillance_performed (X : SimulationState) (b : Bool) :
    stFrame { X with active_surveillance_performed := b } = stFrame X := rfl

theorem wrap_deaths_active_surveillance_performed (X : SimulationState) (b : Bool) :
    ({ X with active_surveillance_performed := b }).num_sheep_deaths = X.num_sheep_deaths := rfl

theorem wrap_herdS_active_surveillance_performed (epi : EpiParams) (N : ℕ) (X : SimulationState) (b : Bool) :
    herdS epi N { X with active_surveillance_performed := b } = herdS epi N X := rfl

theorem wrap_herdC_active_surveillance_performed (epi : EpiParams) (N : ℕ) (X : SimulationState) (b : Bool) :
    herdC epi N { X with active_surveillance_performed := b } = herdC epi N X := rfl

theorem modifyFarm_st (s : SimulationState) (k : ℕ) (u : Farm → Farm) :
    stFrame (modifyFarm s k u) = stFrame s := rfl

theorem modifyFarm_deaths (s : SimulationState) (k : ℕ) (u : Farm → Farm) :
    (modifyFarm s k u).num_sheep_deaths = s.num_sheep_deaths := rfl

/-- `modifyFarm` with a projection-preserving farm update. -/
theorem modifyFarm_farm_proj {α : Type _} (s : SimulationState) (k : ℕ)
    (u : Farm → Farm) (proj : Farm → α) (hu : ∀ f, proj (u f) = proj f) (j : ℕ) :
    proj ((modifyFarm s k u).farms j) = proj (s.farms j) := by
  by_cases hj : j = k
  · subst hj; rw [modifyFarm_farms_eq, hu]
  · rw [modifyFarm_farms_ne _ _ _ _ hj]

/-- State projections through a detection trigger (for projections untouched
by farm writes, the detection counter and the first-detection record). -/
theorem detection_trigger_state_proj {α : Type _} (ctrl : ControlParams) (k : ℕ)
    (s : SimulationState) (proj : SimulationState → α)
    (hm : ∀ (x : SimulationState) (kk : ℕ) (u : Farm → Farm),
      proj (modifyFarm x kk u) = proj x)
    (hcnt : ∀ (x : SimulationState) (v : ℤ),
      proj { x with num_farms_detected_today := v } = proj x)
    (hbtv : ∀ (x : SimulationState) (b : Bool) (i : ℕ),
      proj { x with btv_observed := b, first_detected_farm_id := i } = proj x) :
    proj (detection_trigger ctrl k s) = proj s := by
  simp only [detection_trigger]
  split
  · split
    · split
      · rw [hbtv, implement_local_state_proj _ _ _ proj hm, hm, hcnt, hm]
      · rw [implement_local_state_proj _ _ _ proj hm, hm, hcnt, hm]
    · split
      · rw [hbtv, implement_local_state_proj _ _ _ proj hm, hcnt, hm]
      · rw [implement_local_state_proj _ _ _ proj hm, hcnt, hm]
  · rw [hcnt, hm]

/-- Farm projections through a detection trigger (for projections untouched
by the `detected` flag, bans and local-list caching). -/
theorem detection_trigger_farm_proj {α : Type _} (ctrl : ControlParams) (k : ℕ)
    (s : SimulationState) (proj : Farm → α)
    (hdet : ∀ f, proj { f with detected := true } = proj f)
    (hban : ∀ f, proj (banFarm f) = proj f)
    (hban2 : ∀ f, proj { f with movement_banned := true } = proj f)
    (hids : ∀ f ids, proj { f with local_farm_ids := ids, ever_been_detected := true } = proj f)
    (j : ℕ) :
    proj ((detection_trigger ctrl k s).farms j) = proj (s.farms j) := by
  simp only [detection_trigger, farms_mk]
  split
  · split
    · split
      · rw [wrap_farms_btv, implement_local_farm_proj _ _ _ proj hban hids,
          modifyFarm_farm_proj _ _ _ proj hban2, farms_mk,
          modifyFarm_farm_proj _ _ _ proj hdet]
      · rw [implement_local_farm_proj _ _ _ proj hban hids,
          modifyFarm_farm_proj _ _ _ proj hban2, farms_mk,
          modifyFarm_farm_proj _ _ _ proj hdet]
    · split
      · rw [wrap_farms_btv, implement_local_farm_proj _ _ _ proj hban hids,
          farms_mk, modifyFarm_farm_proj _ _ _ proj hdet]
      · rw [implement_local_farm_proj _ _ _ proj hban hids,
          farms_mk, modifyFarm_farm_proj _ _ _ proj hdet]
  · rw [farms_mk, modifyFarm_farm_proj _ _ _ proj hdet]

/-- A detection trigger is a day-conservation no-op. -/
theorem detection_trigger_dayFrame (epi : EpiParams) (N : ℕ) (ctrl : ControlParams)
    (k : ℕ) (s : SimulationState) :
    dayFrame epi N s (detection_trigger ctrl k s) := by
  refine ⟨?_, ?_, ?_⟩
  · exact detection_trigger_state_proj ctrl k s stFrame
      (fun _ _ _ => rfl) (fun _ _ => rfl) (fun _ _ _ => rfl)
  · have hf := detection_trigger_farm_proj ctrl k s
      (fun f => num_sheep f epi.num_inf_stages_sheep)
      (fun _ => rfl) (fun _ => rfl) (fun _ => rfl) (fun _ _ => rfl)
    have hd := detection_trigger_state_proj ctrl k s
      (fun x => x.num_sheep_deaths) (fun _ _ _ => rfl) (fun _ _ => rfl) (fun _ _ _ => rfl)
    have hsum : herdS epi N (detection_trigger ctrl k s) = herdS epi N s :=
      Finset.sum_congr rfl (fun j _ => hf j)
    rw [hsum, show (detection_trigger ctrl k s).num_sheep_deaths = s.num_sheep_deaths from hd]
  · have hf := detection_trigger_farm_proj ctrl k s
      (fun f => num_cattle f epi.num_inf_stages_cattle)
      (fun _ => rfl) (fun _ => rfl) (fun _ => rfl) (fun _ _ => rfl)
    exact Finset.sum_congr rfl (fun j _ => hf j)

/-- An Erlang-progression write (sheep) is a day-conservation no-op. -/
theorem move_sheep_dayFrame (epi : EpiParams) (N k n : ℕ)
    (hn : n + 1 < epi.num_inf_stages_sheep) (s : SimulationState) (X : ℚ) :
    dayFrame epi N s (modifyFarm s k (fun f =>
      { f with i_sheep := fun m =>
          if m = n then f.i_sheep m - X
          else if m = n + 1 then f.i_sheep m + X
          else f.i_sheep m })) := by
  refine ⟨rfl, ?_, ?_⟩
  · rw [herdS_sheep_move epi N s k n X hn, modifyFarm_deaths]
  · rw [herdC_sheep_move]

/-- A sheep mortality write together with its death-counter update is a
day-conservation no-op (the loss is logged exactly). -/
theorem mort_sheep_dayFrame (epi : EpiParams) (N k n : ℕ)
    (hn : n < epi.num_inf_stages_sheep) (hk : k < N) (s : SimulationState) (X : ℤ) :
    dayFrame epi N s
      { modifyFarm s k (fun f =>
          { f with i_sheep := fun m => if m = n then f.i_sheep m - (X : ℚ) else f.i_sheep m }) with
        num_sheep_deaths :=
          (modifyFarm s k (fun f =>
            { f with i_sheep := fun m => if m = n then f.i_sheep m - (X : ℚ) else f.i_sheep m })).num_sheep_deaths
            + X } := by
  refine ⟨?_, ?_, ?_⟩
  · rw [wrap_st_num_sheep_deaths, modifyFarm_st]
  · rw [wrap_herdS_num_sheep_deaths, wrap_deaths_num_sheep_deaths,
      herdS_sheep_sub epi N s k n _ hn hk, modifyFarm_deaths]
    push_cast
    ring
  · rw [wrap_herdC_num_sheep_deaths, herdC_sheep_sub]

/-- A sheep recovery write is a day-conservation no-op. -/
theorem recovery_sheep_dayFrame (epi : EpiParams) (N k n : ℕ)
    (hn : n < epi.num_inf_stages_sheep) (s : SimulationState) (X : ℚ) :
    dayFrame epi N s (modifyFarm s k (fun f =>
      { f with i_sheep := fun m => if m = n then f.i_sheep m - X else f.i_sheep m
               r_sheep := f.r_sheep + X })) := by
  refine ⟨rfl, ?_, ?_⟩
  · rw [herdS_sheep_recovery epi N s k n X hn, modifyFarm_deaths]
  · rw [herdC_sheep_recovery]

/-- An Erlang-progression write (cattle) is a day-conservation no-op. -/
theorem move_cattle_dayFrame (epi : EpiParams) (N k n : ℕ)
    (hn : n + 1 < epi.num_inf_stages_cattle) (s : SimulationState) (X : ℚ) :
    dayFrame epi N s (modifyFarm s k (fun f =>
      { f with i_cattle := fun m =>
          if m = n then f.i_cattle m - X
          else if m = n + 1 then f.i_cattle m + X
          else f.i_cattle m })) := by
  refine ⟨rfl, ?_, ?_⟩
  · rw [herdS_cattle_move, modifyFarm_deaths]
  · rw [herdC_cattle_move epi N s k n X hn]

/-- A cattle recovery write is a day-conservation no-op. -/
theorem recovery_cattle_dayFrame (epi : EpiParams) (N k n : ℕ)
    (hn : n < epi.num_inf_stages_cattle) (s : SimulationState) (X : ℚ) :
    dayFrame epi N s (modifyFarm s k (fun f =>
      { f with i_cattle := fun m => if m = n then f.i_cattle m - X else f.i_cattle m
               r_cattle := f.r_cattle + X })) := by
  refine ⟨rfl, ?_, ?_⟩
  · rw [herdS_cattle_recovery, modifyFarm_deaths]
  · rw [herdC_cattle_recovery epi N s k n X hn]

/-- One sheep stage step conserves the day totals. -/
theorem sheep_stage_step_dayFrame (epi : EpiParams) (ctrl : ControlParams) (g : Rng)
    (k N : ℕ) (st : SimulationState × ℕ) (n : ℕ)
    (hn : n + 1 < epi.num_inf_stages_sheep) (hk : k < N) :
    dayFrame epi N st.1 (sheep_stage_step epi ctrl g k st n).1 := by
  have hn0 : n < epi.num_inf_stages_sheep := by omega
  simp only [sheep_stage_step]
  split
  · refine dayFrame_trans ?_ (mort_sheep_dayFrame epi N k n hn0 hk _ _)
    refine dayFrame_trans ?_ (detection_trigger_dayFrame epi N ctrl k _)
    exact move_sheep_dayFrame epi N k n hn _ _
  · refine dayFrame_trans ?_ (mort_sheep_dayFrame epi N k n hn0 hk _ _)
    exact move_sheep_dayFrame epi N k n hn _ _

/-- One sheep sub-day iteration conserves the day totals. -/
theorem sheep_substep_dayFrame (epi : EpiParams) (ctrl : ControlParams) (g : Rng)
    (k N : ℕ) (st : SimulationState × ℕ)
    (hss : 1 ≤ epi.num_inf_stages_sheep) (hk : k < N) :
    dayFrame epi N st.1 (sheep_substep epi ctrl g k st).1 := by
  have hlast : epi.num_inf_stages_sheep - 1 < epi.num_inf_stages_sheep := by omega
  simp only [sheep_substep]
  refine foldl_induction _
    (fun x : SimulationState × ℕ => dayFrame epi N st.1 x.1) _ _ ?_ ?_
  · split
    · refine dayFrame_trans ?_ (mort_sheep_dayFrame epi N k _ hlast hk _ _)
      refine dayFrame_trans ?_ (detection_trigger_dayFrame epi N ctrl k _)
      exact recovery_sheep_dayFrame epi N k _ hlast _ _
    · refine dayFrame_trans ?_ (mort_sheep_dayFrame epi N k _ hlast hk _ _)
      exact recovery_sheep_dayFrame epi N k _ hlast _ _
  · intro x a ha hx
    have han : a + 1 < epi.num_inf_stages_sheep := by
      have h1 := List.mem_range.mp (List.mem_reverse.mp ha)
      omega
    exact dayFrame_trans hx (sheep_stage_step_dayFrame epi ctrl g k N x a han hk)

/-- One cattle stage step conserves the day totals. -/
theorem cattle_stage_step_dayFrame (epi : EpiParams) (g : Rng)
    (k N : ℕ) (st : SimulationState × ℕ) (n : ℕ)
    (hn : n + 1 < epi.num_inf_stages_cattle) :
    dayFrame epi N st.1 (cattle_stage_step epi g k st n).1 := by
  simp only [cattle_stage_step]
  exact move_cattle_dayFrame epi N k n hn _ _

/-- One cattle sub-day iteration conserves the day totals. -/
theorem cattle_substep_dayFrame (epi : EpiParams) (g : Rng)
    (k N : ℕ) (st : SimulationState × ℕ)
    (hsc : 1 ≤ epi.num_inf_stages_cattle) :
    dayFrame epi N st.1 (cattle_substep epi g k st).1 := by
  have hlast : epi.num_inf_stages_cattle - 1 < epi.num_inf_stages_cattle := by omega
  simp only [cattle_substep]
  refine foldl_induction _
    (fun x : SimulationState × ℕ => dayFrame epi N st.1 x.1) _ _ ?_ ?_
  · exact recovery_cattle_dayFrame epi N k _ hlast _ _
  · intro x a ha hx
    have han : a + 1 < epi.num_inf_stages_cattle := by
      have h1 := List.mem_range.mp (List.mem_reverse.mp ha)
      omega
    exact dayFrame_trans hx (cattle_stage_step_dayFrame epi g k N x a han)

/-- Passive detection conserves the day totals. -/
theorem passive_detection_dayFrame (epi : EpiParams) (N : ℕ) (M : MathFns)
    (ctrl : ControlParams) (g : Rng) (k : ℕ) (st : SimulationState × ℕ) :
    dayFrame epi N st.1 (passive_detection M epi ctrl g k st).1 := by
  simp only [passive_detection]
  split
  · split
    · split
      · exact detection_trigger_dayFrame epi N ctrl k st.1
      · exact dayFrame_refl epi N st.1
    · exact dayFrame_refl epi N st.1
  · exact dayFrame_refl epi N st.1

/-- `farm_deaths_and_recoveries` conserves the day totals: the cattle total
exactly, and the sheep total plus the logged deaths exactly. -/
theorem farm_deaths_dayFrame (M : MathFns) (k : ℕ) (epi : EpiParams)
    (ctrl : ControlParams) (g : Rng) (s : SimulationState) (t : ℕ) (N : ℕ)
    (hss : 1 ≤ epi.num_inf_stages_sheep) (hsc : 1 ≤ epi.num_inf_stages_cattle)
    (hk : k < N) :
    dayFrame epi N s (farm_deaths_and_recoveries M k epi ctrl g s t).1 := by
  have hcfold : ∀ st : SimulationState × ℕ,
      dayFrame epi N st.1 (((List.range 10).foldl
        (fun st _ => cattle_substep epi g k st) st)).1 := by
    intro st
    refine foldl_induction _
      (fun x : SimulationState × ℕ => dayFrame epi N st.1 x.1) _ _ (dayFrame_refl epi N st.1) ?_
    intro x a _ hx
    exact dayFrame_trans hx (cattle_substep_dayFrame epi g k N x hsc)
  have hsfold : ∀ st : SimulationState × ℕ,
      dayFrame epi N st.1 (((List.range 10).foldl
        (fun st _ => sheep_substep epi ctrl g k st) st)).1 := by
    intro st
    refine foldl_induction _
      (fun x : SimulationState × ℕ => dayFrame epi N st.1 x.1) _ _ (dayFrame_refl epi N st.1) ?_
    intro x a _ hx
    exact dayFrame_trans hx (sheep_substep_dayFrame epi ctrl g k N x hss hk)
  simp only [farm_deaths_and_recoveries]
  refine dayFrame_trans ?_ (passive_detection_dayFrame epi N M ctrl g k _)
  split <;> split
  · exact dayFrame_trans (hsfold _) (hcfold _)
  · exact hsfold _
  · exact hcfold _
  · exact dayFrame_refl epi N s

/-- Stripping a `num_movement_transmissions` counter bump keeps the frame. -/
theorem dayFrame_wrap_nmt (epi : EpiParams) (N : ℕ) (s X : SimulationState) (v : ℤ)
    (h : dayFrame epi N s X) :
    dayFrame epi N s { X with num_movement_transmissions := v } := h

/-- One movement edge, with both endpoints indexing the summed farms,
conserves the day totals: every executed shipment decrements a stage at the
source and increments the same stage at the destination. -/
theorem transmission_via_movement_dayFrame (epi : EpiParams) (mov : MovementParams)
    (ctrl : ControlParams) (g : Rng) (fid tid : ℕ) (risk : ℚ)
    (s : SimulationState) (t : ℕ) (N : ℕ) (hfid : fid < N) (htid : tid < N) :
    dayFrame epi N s (transmission_via_movement epi mov ctrl g fid tid risk s t).1 := by
  rw [transmission_via_movement]
  lift_lets
  intro src dst intr sb1 sb2 ts tc u2 t4 cm d1 t3 sz1 ic acc1 sc1 tc1 mv1 d0 t0 sz0 isf acc0 ss0 ts0 mvS
  split
  · exact dayFrame_refl epi N s
  split
  · unfold_let sb2 sb1
    split <;> exact ⟨rfl, rfl, rfl⟩
  split
  · exact dayFrame_refl epi N s
  split
  · unfold_let sc1 acc1
    split
    · refine dayFrame_wrap_nmt epi N s _ _ ?_
      refine foldl_induction _
        (fun x : SimulationState × ℕ × ℚ × ℤ => dayFrame epi N s x.1) _ _
        (dayFrame_refl epi N s) ?_
      intro x a _ hx
      by_cases hcond : (gsl_rng_uniform g x.2.1).1 < x.2.2.1 / tc
      · rw [if_pos hcond]
        rcases hkk : pickStage (fun m => (x.1.farms fid).i_cattle m)
            epi.num_inf_stages_cattle
            ((gsl_rng_uniform g (gsl_rng_uniform g x.2.1).2).1 * x.2.2.1) with _ | kk
        · simp only [hkk]
          exact hx
        · simp only [hkk]
          have hkn := pickStage_lt _ _ _ _ hkk
          refine dayFrame_trans hx ?_
          refine ⟨rfl, ?_, ?_⟩
          · rw [herdS_cattle_inc1, herdS_cattle_dec1, modifyFarm_deaths, modifyFarm_deaths]
          · rw [herdC_cattle_inc1 epi N _ tid kk hkn htid,
              herdC_cattle_dec1 epi N _ fid kk hkn hfid]
            ring
      · rw [if_neg hcond]
        exact hx
    · refine foldl_induction _
        (fun x : SimulationState × ℕ × ℚ × ℤ => dayFrame epi N s x.1) _ _
        (dayFrame_refl epi N s) ?_
      intro x a _ hx
      by_cases hcond : (gsl_rng_uniform g x.2.1).1 < x.2.2.1 / tc
      · rw [if_pos hcond]
        rcases hkk : pickStage (fun m => (x.1.farms fid).i_cattle m)
            epi.num_inf_stages_cattle
            ((gsl_rng_uniform g (gsl_rng_uniform g x.2.1).2).1 * x.2.2.1) with _ | kk
        · simp only [hkk]
          exact hx
        · simp only [hkk]
          have hkn := pickStage_lt _ _ _ _ hkk
          refine dayFrame_trans hx ?_
          refine ⟨rfl, ?_, ?_⟩
          · rw [herdS_cattle_inc1, herdS_cattle_dec1, modifyFarm_deaths, modifyFarm_deaths]
          · rw [herdC_cattle_inc1 epi N _ tid kk hkn htid,
              herdC_cattle_dec1 epi N _ fid kk hkn hfid]
            ring
      · rw [if_neg hcond]
        exact hx
  · unfold_let ss0 acc0
    split
    · refine dayFrame_wrap_nmt epi N s _ _ ?_
      refine foldl_induction _
        (fun x : SimulationState × ℕ × ℚ × ℤ => dayFrame epi N s x.1) _ _
        (dayFrame_refl epi N s) ?_
      intro x a _ hx
      by_cases hcond : (gsl_rng_uniform g x.2.1).1 < x.2.2.1 / ts
      · rw [if_pos hcond]
        rcases hkk : pickStage (fun m => (x.1.farms fid).i_sheep m)
            epi.num_inf_stages_sheep
            ((gsl_rng_uniform g (gsl_rng_uniform g x.2.1).2).1 * x.2.2.1) with _ | kk
        · simp only [hkk]
          exact hx
        · simp only [hkk]
          have hkn := pickStage_lt _ _ _ _ hkk
          refine dayFrame_trans hx ?_
          refine ⟨rfl, ?_, ?_⟩
          · rw [herdS_sheep_inc1 epi N _ tid kk hkn htid,
              herdS_sheep_dec1 epi N _ fid kk hkn hfid, modifyFarm_deaths, modifyFarm_deaths]
            ring
          · rw [herdC_sheep_inc1, herdC_sheep_dec1]
      · rw [if_neg hcond]
        exact hx
    · refine foldl_induction _
        (fun x : SimulationState × ℕ × ℚ × ℤ => dayFrame epi N s x.1) _ _
        (dayFrame_refl epi N s) ?_
      intro x a _ hx
      by_cases hcond : (gsl_rng_uniform g x.2.1).1 < x.2.2.1 / ts
      · rw [if_pos hcond]
        rcases hkk : pickStage (fun m => (x.1.farms fid).i_sheep m)
            epi.num_inf_stages_sheep
            ((gsl_rng_uniform g (gsl_rng_uniform g x.2.1).2).1 * x.2.2.1) with _ | kk
        · simp only [hkk]
          exact hx
        · simp only [hkk]
          have hkn := pickStage_lt _ _ _ _ hkk
          refine dayFrame_trans hx ?_
          refine ⟨rfl, ?_, ?_⟩
          · rw [herdS_sheep_inc1 epi N _ tid kk hkn htid,
              herdS_sheep_dec1 epi N _ fid kk hkn hfid, modifyFarm_deaths, modifyFarm_deaths]
            ring
          · rw [herdC_sheep_inc1, herdC_sheep_dec1]
      · rw [if_neg hcond]
        exact hx

/-- The whole movement pass conserves the day totals whenever every movement
edge joins two real farms. -/
theorem movement_transmission_dayFrame (epi : EpiParams) (mov : MovementParams)
    (ctrl : ControlParams) (g : Rng) (s : SimulationState) (t : ℕ)
    (hmv : ∀ e, s.movement_from e < s.num_farms ∧ s.movement_to e < s.num_farms) :
    dayFrame epi s.num_farms s (movement_transmission epi mov ctrl g s t).1 := by
  rw [movement_transmission]
  refine foldl_induction _
    (fun x : SimulationState × ℕ => dayFrame epi s.num_farms s x.1) _ _
    (dayFrame_refl epi s.num_farms s) ?_
  intro x a _ hx
  have hfrom : x.1.movement_from = s.movement_from := congrArg (fun p => p.2.1) hx.1
  have hto : x.1.movement_to = s.movement_to := congrArg (fun p => p.2.2) hx.1
  refine dayFrame_trans hx ?_
  exact transmission_via_movement_dayFrame epi mov ctrl g _ _ _ x.1 x.2 s.num_farms
    (by rw [hfrom]; exact (hmv a).1) (by rw [hto]; exact (hmv a).2)

/-- C5: corrected conservation. Recoveries move animals from `I` to `R` and
do not change `S + Σ I_k + R`; executed movements transfer whole animals
between farms, conserving the global per-species totals; the only leak is
sheep mortality, which is logged animal-for-animal in `num_sheep_deaths`.
Formally: over one `farm_deaths_and_recoveries` call the summed cattle total
is exactly conserved and the summed sheep total plus the logged sheep deaths
is exactly conserved; over one `movement_transmission` call both summed
totals (with the death log along) are exactly conserved, provided every
movement edge joins two real farms. -/
theorem C5_conservation_with_deaths
    (M : MathFns) (epi : EpiParams) (ctrl : ControlParams) (mov : MovementParams)
    (g : Rng) (s : SimulationState) (t : ℕ) (k N : ℕ)
    (hss : 1 ≤ epi.num_inf_stages_sheep) (hsc : 1 ≤ epi.num_inf_stages_cattle)
    (hk : k < N)
    (hmv : ∀ e, s.movement_from e < s.num_farms ∧ s.movement_to e < s.num_farms) :
    (herdS epi N (farm_deaths_and_recoveries M k epi ctrl g s t).1
        + ((farm_deaths_and_recoveries M k epi ctrl g s t).1.num_sheep_deaths : ℚ)
      = herdS epi N s + (s.num_sheep_deaths : ℚ)
      ∧ herdC epi N (farm_deaths_and_recoveries M k epi ctrl g s t).1 = herdC epi N s)
    ∧ (herdS epi s.num_farms (movement_transmission epi mov ctrl g s t).1
        + ((movement_transmission epi mov ctrl g s t).1.num_sheep_deaths : ℚ)
      = herdS epi s.num_farms s + (s.num_sheep_deaths : ℚ)
      ∧ herdC epi s.num_farms (movement_transmission epi mov ctrl g s t).1
        = herdC epi s.num_farms s) :=
  ⟨⟨(farm_deaths_dayFrame M k epi ctrl g s t N hss hsc hk).2.1,
    (farm_deaths_dayFrame M k epi ctrl g s t N hss hsc hk).2.2⟩,
   ⟨(movement_transmission_dayFrame epi mov ctrl g s t hmv).2.1,
    (movement_transmission_dayFrame epi mov ctrl g s t hmv).2.2⟩⟩

/-- One Erlang stage per species. -/
def epiC5 : EpiParams := { epi0 with num_inf_stages_sheep := 1, num_inf_stages_cattle := 1 }

/-- A farm with a single infected sheep (stage 0). -/
def farmC5 : Farm := { farm0 with i_sheep := fun m => if m = 0 then 1 else 0 }

/-- One farm holding the single infected sheep; no movement links. -/
def stateC5 : SimulationState :=
  { state0 with num_farms := 1, farms := fun _ => farmC5 }

/-- RNG stream for the C5 mortality: the one draw at position 1 (the first
sub-day sheep mortality Poisson) is `1`; every other integer draw is `0`. -/
def rngC5 : Rng where
  ints := fun n => if n = 1 then 1 else 0
  reals := fun _ => 0

/-- Witness for the amended C5 conservation at a concrete input. -/
theorem C5_conservation_with_deaths_witness :
    (herdS epiC5 1 (farm_deaths_and_recoveries mathFns0 0 epiC5 ctrlNC rngC5 stateC5 0).1
        + ((farm_deaths_and_recoveries mathFns0 0 epiC5 ctrlNC rngC5 stateC5 0).1.num_sheep_deaths : ℚ)
      = herdS epiC5 1 stateC5 + (stateC5.num_sheep_deaths : ℚ)
      ∧ herdC epiC5 1 (farm_deaths_and_recoveries mathFns0 0 epiC5 ctrlNC rngC5 stateC5 0).1
        = herdC epiC5 1 stateC5)
    ∧ (herdS epiC5 stateC5.num_farms (movement_transmission epiC5 mov0 ctrlNC rngC5 stateC5 0).1
        + ((movement_transmission epiC5 mov0 ctrlNC rngC5 stateC5 0).1.num_sheep_deaths : ℚ)
      = herdS epiC5 stateC5.num_farms stateC5 + (stateC5.num_sheep_deaths : ℚ)
      ∧ herdC epiC5 stateC5.num_farms (movement_transmission epiC5 mov0 ctrlNC rngC5 stateC5 0).1
        = herdC epiC5 stateC5.num_farms stateC5) :=
  C5_conservation_with_deaths mathFns0 epiC5 ctrlNC mov0 rngC5 stateC5 0 0 1
    (by decide) (by decide) (by decide)
    (fun e => ⟨by norm_num [stateC5, state0], by norm_num [stateC5, state0]⟩)

/-- `int_min` of a natural-cast draw against a zero cap is zero. -/
theorem int_min_cast_zero (n : ℕ) : int_min (n : ℤ) 0 = 0 := by
  rw [int_min, if_neg (by omega)]

/-- `c_int 0 = 0`. -/
theorem c_int_zero : c_int 0 = 0 := by norm_num [c_int]

/-- C5 counterexample: the claimed equality is already broken by a single
sheep death inside `farm_deaths_and_recoveries` — the sheep total drops from
`1` to `0` although zero movements occur (`num_movement_transmissions` is
unchanged) and zero recoveries occur (`r_sheep` is unchanged); the loss is
logged only in `num_sheep_deaths`. -/
theorem C5_counterexample :
    num_sheep (stateC5.farms 0) epiC5.num_inf_stages_sheep = 1
    ∧ ((farm_deaths_and_recoveries mathFns0 0 epiC5 ctrlNC rngC5 stateC5 0).1.farms 0).r_sheep
        = (stateC5.farms 0).r_sheep
    ∧ (farm_deaths_and_recoveries mathFns0 0 epiC5 ctrlNC rngC5 stateC5 0).1.num_movement_transmissions
        = stateC5.num_movement_transmissions
    ∧ num_sheep ((farm_deaths_and_recoveries mathFns0 0 epiC5 ctrlNC rngC5 stateC5 0).1.farms 0)
        epiC5.num_inf_stages_sheep = 0
    ∧ (farm_deaths_and_recoveries mathFns0 0 epiC5 ctrlNC rngC5 stateC5 0).1.num_sheep_deaths = 1 := by
  have hper : ∀ st : SimulationState × ℕ,
      ((st.1.farms 0).s_sheep = 0 ∧ (∀ m, (st.1.farms 0).i_sheep m = 0)
        ∧ (st.1.farms 0).r_sheep = 0 ∧ (st.1.farms 0).detected = true
        ∧ st.1.num_sheep_deaths = 1 ∧ st.1.num_movement_transmissions = 0
        ∧ (∀ m, (st.1.farms 0).i_cattle m = 0)) →
      (((sheep_substep epiC5 ctrlNC rngC5 0 st).1.farms 0).s_sheep = 0
        ∧ (∀ m, ((sheep_substep epiC5 ctrlNC rngC5 0 st).1.farms 0).i_sheep m = 0)
        ∧ ((sheep_substep epiC5 ctrlNC rngC5 0 st).1.farms 0).r_sheep = 0
        ∧ ((sheep_substep epiC5 ctrlNC rngC5 0 st).1.farms 0).detected = true
        ∧ (sheep_substep epiC5 ctrlNC rngC5 0 st).1.num_sheep_deaths = 1
        ∧ (sheep_substep epiC5 ctrlNC rngC5 0 st).1.num_movement_transmissions = 0
        ∧ (∀ m, ((sheep_substep epiC5 ctrlNC rngC5 0 st).1.farms 0).i_cattle m = 0)) := by
    rintro st ⟨h1, h2, h3, h4, h5, h6, h7⟩
    rw [sheep_substep]
    simp only [epiC5, epi0, Nat.sub_self, List.range_zero, List.reverse_nil, List.foldl_nil,
      rand_poisson]
    rw [h2]
    simp only [c_int_zero, int_min_cast_zero]
    norm_num [modifyFarm, h1, h2, h3, h4, h5, h6, h7]
    rw [c_int_zero, int_min_cast_zero]
  have hfold : ∀ (l : List ℕ) (st : SimulationState × ℕ),
      ((st.1.farms 0).s_sheep = 0 ∧ (∀ m, (st.1.farms 0).i_sheep m = 0)
        ∧ (st.1.farms 0).r_sheep = 0 ∧ (st.1.farms 0).detected = true
        ∧ st.1.num_sheep_deaths = 1 ∧ st.1.num_movement_transmissions = 0
        ∧ (∀ m, (st.1.farms 0).i_cattle m = 0)) →
      let r := l.foldl (fun st _ => sheep_substep epiC5 ctrlNC rngC5 0 st) st
      ((r.1.farms 0).s_sheep = 0 ∧ (∀ m, (r.1.farms 0).i_sheep m = 0)
        ∧ (r.1.farms 0).r_sheep = 0 ∧ (r.1.farms 0).detected = true
        ∧ r.1.num_sheep_deaths = 1 ∧ r.1.num_movement_transmissions = 0
        ∧ (∀ m, (r.1.farms 0).i_cattle m = 0)) := by
    intro l
    induction l with
    | nil => intro st h; exact h
    | cons a l ih => intro st h; exact ih _ (hper st h)
  have h1 : ((sheep_substep epiC5 ctrlNC rngC5 0 (stateC5, 0)).1.farms 0).s_sheep = 0
      ∧ (∀ m, ((sheep_substep epiC5 ctrlNC rngC5 0 (stateC5, 0)).1.farms 0).i_sheep m = 0)
      ∧ ((sheep_substep epiC5 ctrlNC rngC5 0 (stateC5, 0)).1.farms 0).r_sheep = 0
      ∧ ((sheep_substep epiC5 ctrlNC rngC5 0 (stateC5, 0)).1.farms 0).detected = true
      ∧ (sheep_substep epiC5 ctrlNC rngC5 0 (stateC5, 0)).1.num_sheep_deaths = 1
      ∧ (sheep_substep epiC5 ctrlNC rngC5 0 (stateC5, 0)).1.num_movement_transmissions = 0
      ∧ (∀ m, ((sheep_substep epiC5 ctrlNC rngC5 0 (stateC5, 0)).1.farms 0).i_cattle m = 0) := by
    rw [sheep_substep]
    simp only [epiC5, epi0, Nat.sub_self, List.range_zero, List.reverse_nil, List.foldl_nil,
      rand_poisson, rngC5]
    norm_num [stateC5, farmC5, farm0, state0, int_min, c_int, modifyFarm,
      detection_trigger, ctrlNC, ctrl0]
    intro m
    by_cases hm : m = 0 <;> simp [hm]
  have hguard1 : num_inf_sheep (stateC5.farms 0) epiC5.num_inf_stages_sheep > 0 := by
    norm_num [num_inf_sheep, stateC5, farmC5, farm0, epiC5, epi0, Finset.sum_range_one]
  have hkey := hfold [1, 2, 3, 4, 5, 6, 7, 8, 9]
    (sheep_substep epiC5 ctrlNC rngC5 0 (stateC5, 0)) h1
  obtain ⟨k1, k2, k3, k4, k5, k6, k7⟩ := hkey
  have hstep : List.foldl (fun st _ => sheep_substep epiC5 ctrlNC rngC5 0 st)
        (stateC5, 0) (List.range 10)
      = List.foldl (fun st _ => sheep_substep epiC5 ctrlNC rngC5 0 st)
          (sheep_substep epiC5 ctrlNC rngC5 0 (stateC5, 0)) [1, 2, 3, 4, 5, 6, 7, 8, 9] := by
    rw [show List.range 10 = 0 :: [1, 2, 3, 4, 5, 6, 7, 8, 9] from by decide, List.foldl_cons]
  have hmain : farm_deaths_and_recoveries mathFns0 0 epiC5 ctrlNC rngC5 stateC5 0
      = List.foldl (fun st _ => sheep_substep epiC5 ctrlNC rngC5 0 st)
          (sheep_substep epiC5 ctrlNC rngC5 0 (stateC5, 0)) [1, 2, 3, 4, 5, 6, 7, 8, 9] := by
    rw [farm_deaths_and_recoveries, if_pos hguard1, hstep]
    rw [if_neg ?cg]
    case cg =>
      have honec : epiC5.num_inf_stages_cattle = 1 := rfl
      have hic : num_inf_cattle ((List.foldl (fun st _ => sheep_substep epiC5 ctrlNC rngC5 0 st)
          (sheep_substep epiC5 ctrlNC rngC5 0 (stateC5, 0)) [1, 2, 3, 4, 5, 6, 7, 8, 9]).1.farms 0)
          epiC5.num_inf_stages_cattle = 0 := by
        rw [num_inf_cattle, honec, Finset.sum_range_one, k7 0]
      rw [hic]
      norm_num
    rw [passive_detection, if_neg (by rw [k4]; norm_num)]
  refine ⟨?_, ?_, ?_, ?_, ?_⟩
  · norm_num [num_sheep, num_inf_sheep, stateC5, farmC5, farm0, epiC5, epi0,
      Finset.sum_range_one]
  · rw [hmain, k3]
    norm_num [stateC5, farmC5, farm0]
  · rw [hmain, k6]
    norm_num [stateC5, state0]
  · rw [hmain]
    have hones : epiC5.num_inf_stages_sheep = 1 := rfl
    rw [num_sheep, num_inf_sheep, hones, Finset.sum_range_one, k1, k2 0, k3]
    norm_num
  · rw [hmain, k5]
